import Mathlib

/-!
# Hotel "La Cosecha Dorada": reservation engine

A shallow embedding of the booking, cancellation and availability handlers of
`PROYECTO/backend/server.js`.  The MySQL tables are lists of rows, a handler is
a function from the database state and its request to the new state and the
HTTP response.  Calendar dates (`DATE` columns, `YYYY-MM-DD` strings) are day
numbers: an integer counting days from 1970-01-01, so that the order of the
integers is the order of the dates.  Amounts of money are in cents.

`pool` is assigned by `inicializarBD` before `app.listen` is reached, and the
process exits when that fails, so every handler runs with the pool present:
the handlers below start after the `if (!pool)` guard.
-/

namespace CosechaDorada

/-! ## Tables -/

/-- A row of `habitaciones`. -/
structure Habitacion where
  id : Nat
  numero : String
  nombre : String
  tipo : String
  descripcion : String
  capacidad : Nat
  precio : Nat
  imagen : String
  estado : String
deriving DecidableEq

/-- A row of `reservas`. -/
structure Reserva where
  id : Nat
  habitacion_id : Nat
  cliente_nombre : String
  cliente_apellido : String
  cliente_email : String
  cliente_telefono : String
  cliente_nacionalidad : String
  fecha_entrada : Int
  fecha_salida : Int
  adultos : Nat
  ninos : Nat
  total : Nat
  pago_id : String
  estado_pago : String
  estado : String
deriving DecidableEq

/-- A row of `fechas_reservadas`: one night of one reservation on one room. -/
structure FechaReservada where
  habitacion_id : Nat
  reserva_id : Nat
  fecha : Int
deriving DecidableEq

/-- A row of `reembolsos`. -/
structure Reembolso where
  reserva_id : Nat
  monto_reembolsado : Nat
  motivo : String
deriving DecidableEq

/-- The database: the four tables the reservation engine touches, and the
`AUTO_INCREMENT` counter of `reservas` (the next `insertId`). -/
structure BD where
  habitaciones : List Habitacion
  reservas : List Reserva
  fechas_reservadas : List FechaReservada
  reembolsos : List Reembolso
  sigReservaId : Nat
deriving DecidableEq

/-! ## Requests and responses -/

/-- The body field `datos_personales` of a booking request. -/
structure DatosPersonales where
  nombre : String
  apellido : String
  email : String
  telefono : String
  nacionalidad : Option String
deriving DecidableEq

/-- The body field `datos_busqueda` of a booking request. -/
structure DatosBusqueda where
  entrada : Int
  salida : Int
  adultos : Nat
  ninos : Option Nat
deriving DecidableEq

/-- The body of `POST /api/reservas/crear`.  The handler destructures
`habitacion_id`, `datos_personales`, `datos_busqueda`, `pago_id` and `total`;
`estado_pago` stands for a further field a caller may send, which the handler
never reads. -/
structure SolicitudReserva where
  habitacion_id : Nat
  datos_personales : DatosPersonales
  datos_busqueda : DatosBusqueda
  pago_id : String
  total : Nat
  estado_pago : Option String
deriving DecidableEq

/-- The body of `POST /api/habitaciones/disponibles`; a date that is missing
(or empty) is `none`. -/
structure SolicitudBusqueda where
  entrada : Option Int
  salida : Option Int
  adultos : Nat
  ninos : Option Nat
deriving DecidableEq

/-- The `reserva` object echoed by a successful booking. -/
structure ResumenReserva where
  id : Nat
  habitacion : String
  numero : String
  cliente : String
  email : String
  entrada : Int
  salida : Int
  total : Nat
  pagoId : String
deriving DecidableEq

/-- An HTTP response of one of the handlers. -/
inductive Respuesta where
  | error (status : Nat) (mensaje : String)
  | reservaCreada (reservaId : Nat) (reserva : ResumenReserva)
  | habitaciones (data : List Habitacion)
  | cancelada (reembolso : Option (Nat × String))
  | canceladaAdmin
deriving DecidableEq

/-- The response is an error response (`success: false`). -/
def Respuesta.esError : Respuesta → Bool
  | .error _ _ => true
  | _ => false

/-! ## Storage failures

A storage call may throw.  A handler takes the step at which the storage layer
throws, with the text of the exception, or `none` when every call succeeds. -/

/-- Does the injected failure hit step `p`? -/
def falla {P : Type} [DecidableEq P] (fallo : Option (P × String)) (p : P) : Bool :=
  match fallo with
  | some (q, _) => decide (q = p)
  | none => false

/-- The `error.message` of the injected failure. -/
def mensajeDe {P : Type} (fallo : Option (P × String)) : String :=
  match fallo with
  | some (_, m) => m
  | none => ""

/-- JavaScript `s || d` on an optional string: a missing or empty string is
falsy. -/
def oPorDefecto (s : Option String) (d : String) : String :=
  match s with
  | some v => if v = "" then d else v
  | none => d

/-! ## Booking: `POST /api/reservas/crear` -/

/-- The storage calls of the booking handler, in order. -/
inductive PasoCrear where
  | conexion
  | selHabitacion
  | selFechas
  | insertar
  | confirmar
deriving DecidableEq

/-- The query `SELECT id, numero, nombre, estado, precio FROM habitaciones
WHERE id = ? AND estado = "disponible"`. -/
def selHabitacionDisponible (db : BD) (habitacion_id : Nat) : List Habitacion :=
  db.habitaciones.filter (fun h => h.id = habitacion_id ∧ h.estado = "disponible")

/-- The rows of `fechas_reservadas fr JOIN reservas r ON fr.reserva_id = r.id`. -/
def fechasJoinReservas (db : BD) : List (FechaReservada × Reserva) :=
  db.fechas_reservadas.flatMap
    (fun fr => (db.reservas.filter (fun r => fr.reserva_id = r.id)).map (fun r => (fr, r)))

/-- The query `SELECT fr.reserva_id FROM fechas_reservadas fr JOIN reservas r ON
fr.reserva_id = r.id WHERE fr.habitacion_id = ? AND r.estado = "confirmada"
AND fr.fecha >= ? AND fr.fecha < ?`. -/
def selReservasExistentes (db : BD) (habitacion_id : Nat) (entrada salida : Int) : List Nat :=
  ((fechasJoinReservas db).filter
    (fun p => p.1.habitacion_id = habitacion_id ∧ p.2.estado = "confirmada"
      ∧ entrada ≤ p.1.fecha ∧ p.1.fecha < salida)).map (fun p => p.1.reserva_id)

/-- The dates `entrada, entrada + 1, ..., salida - 1`, ascending. -/
def rangoFechas (entrada salida : Int) : List Int :=
  (List.range (salida - entrada).toNat).map (fun (i : Nat) => entrada + (i : Int))

/-- Modelled from the spec: the storage trigger on `reservas`, which the handler
relies on ("El trigger se encargará de insertar las fechas automáticamente") and
whose SQL is not in the source tree.  Spec 4.2 step 4: "Insert one
DateAllocation row per date in [entrada, salida)"; a DateAllocation is
"(room_id, reservation_id, date)". -/
def triggerFechasReservadas (r : Reserva) : List FechaReservada :=
  (rangoFechas r.fecha_entrada r.fecha_salida).map
    (fun d => { habitacion_id := r.habitacion_id, reserva_id := r.id, fecha := d })

/-- The row written by `INSERT INTO reservas (...) VALUES (?, ..., "completado",
"confirmada")` for a request, under the id the storage assigns. -/
def filaReserva (reservaId : Nat) (req : SolicitudReserva) : Reserva :=
  { id := reservaId
    habitacion_id := req.habitacion_id
    cliente_nombre := req.datos_personales.nombre
    cliente_apellido := req.datos_personales.apellido
    cliente_email := req.datos_personales.email
    cliente_telefono := req.datos_personales.telefono
    cliente_nacionalidad := oPorDefecto req.datos_personales.nacionalidad "No especificada"
    fecha_entrada := req.datos_busqueda.entrada
    fecha_salida := req.datos_busqueda.salida
    adultos := req.datos_busqueda.adultos
    ninos := req.datos_busqueda.ninos.getD 0
    total := req.total
    pago_id := req.pago_id
    estado_pago := "completado"
    estado := "confirmada" }

/-- The state after the `INSERT INTO reservas` of a booking: the new row, the
rows the trigger adds for it, and the advanced counter. -/
def insertarReserva (db : BD) (req : SolicitudReserva) : BD :=
  { db with
    reservas := db.reservas ++ [filaReserva db.sigReservaId req]
    fechas_reservadas :=
      db.fechas_reservadas ++ triggerFechasReservadas (filaReserva db.sigReservaId req)
    sigReservaId := db.sigReservaId + 1 }

/-- The 500 response of the outer `catch` of the booking handler. -/
def errorCrear (fallo : Option (PasoCrear × String)) : Respuesta :=
  .error 500 ("Error al crear la reserva: " ++ mensajeDe fallo)

/-- The handler of `POST /api/reservas/crear`.  Everything between
`beginTransaction` and `commit` is one transaction: an exception rolls it back,
so the state returned with a 500 is the state before the call. -/
def reservasCrear (db : BD) (req : SolicitudReserva)
    (fallo : Option (PasoCrear × String)) : BD × Respuesta :=
  if falla fallo .conexion then (db, errorCrear fallo)
  else if falla fallo .selHabitacion then (db, errorCrear fallo)
  else
    match selHabitacionDisponible db req.habitacion_id with
    | [] => (db, .error 400 "Habitación no disponible")
    | habitacion :: _ =>
      if falla fallo .selFechas then (db, errorCrear fallo)
      else if (selReservasExistentes db req.habitacion_id
          req.datos_busqueda.entrada req.datos_busqueda.salida).length > 0 then
        (db, .error 400 "La habitación ya está reservada en esas fechas")
      else if falla fallo .insertar then (db, errorCrear fallo)
      else if falla fallo .confirmar then (db, errorCrear fallo)
      else
        (insertarReserva db req,
          .reservaCreada db.sigReservaId
            { id := db.sigReservaId
              habitacion := habitacion.nombre
              numero := habitacion.numero
              cliente := req.datos_personales.nombre ++ " " ++ req.datos_personales.apellido
              email := req.datos_personales.email
              entrada := req.datos_busqueda.entrada
              salida := req.datos_busqueda.salida
              total := req.total
              pagoId := req.pago_id })

/-! ## Cancellation: `PATCH /api/reservas/:id/cancelar` -/

/-- The storage calls of the cancellation handler, in order. -/
inductive PasoCancelar where
  | selReserva
  | updEstado
  | delFechas
  | insReembolso
  | updEstadoPago
deriving DecidableEq

/-- The query `SELECT r.*, h.numero, h.nombre FROM reservas r JOIN habitaciones h ON
r.habitacion_id = h.id WHERE r.id = ?`. -/
def selReservaConHabitacion (db : BD) (id : Nat) : List (Reserva × Habitacion) :=
  (db.reservas.flatMap
    (fun r => (db.habitaciones.filter (fun h => r.habitacion_id = h.id)).map (fun h => (r, h)))).filter
    (fun p => p.1.id = id)

/-- The statement `UPDATE reservas SET estado = "cancelada" WHERE id = ?`. -/
def updEstadoCancelada (db : BD) (id : Nat) : BD :=
  { db with
    reservas := db.reservas.map (fun r => if r.id = id then { r with estado := "cancelada" } else r) }

/-- The statement `DELETE FROM fechas_reservadas WHERE reserva_id = ?`. -/
def delFechasReservadas (db : BD) (id : Nat) : BD :=
  { db with fechas_reservadas := db.fechas_reservadas.filter (fun fr => ¬ fr.reserva_id = id) }

/-- The statement `INSERT INTO reembolsos (reserva_id, monto_reembolsado, motivo) VALUES (?, ?, ?)`. -/
def insReembolso (db : BD) (id monto : Nat) (motivo : String) : BD :=
  { db with
    reembolsos := db.reembolsos ++ [{ reserva_id := id, monto_reembolsado := monto, motivo := motivo }] }

/-- The statement `UPDATE reservas SET estado_pago = "reembolsado" WHERE id = ?`. -/
def updEstadoPagoReembolsado (db : BD) (id : Nat) : BD :=
  { db with
    reservas :=
      db.reservas.map (fun r => if r.id = id then { r with estado_pago := "reembolsado" } else r) }

/-- Milliseconds in a day: `1000 * 60 * 60 * 24`. -/
def msPorDia : Int := 1000 * 60 * 60 * 24

/-- The value `Math.ceil((fechaEntrada - hoy) / (1000 * 60 * 60 * 24))`, both arguments in
milliseconds since the epoch. -/
def diferenciaDias (fechaEntrada hoy : Int) : Int :=
  -((hoy - fechaEntrada) / msPorDia)

/-- The 500 response of the `catch` of the cancellation handlers. -/
def errorCancelar (fallo : Option (PasoCancelar × String)) : Respuesta :=
  .error 500 ("Error al cancelar reserva: " ++ mensajeDe fallo)

/-- The handler of `PATCH /api/reservas/:id/cancelar`; `hoy` is `new Date()` in
milliseconds since the epoch, and `new Date(reserva.fecha_entrada)` is the
start of the entrada date.  The statements run on `pool` one by one, outside
any transaction: a statement that throws leaves the earlier ones applied. -/
def reservasCancelar (db : BD) (id : Nat) (motivo : Option String) (hoy : Int)
    (fallo : Option (PasoCancelar × String)) : BD × Respuesta :=
  if falla fallo .selReserva then (db, errorCancelar fallo)
  else
    match selReservaConHabitacion db id with
    | [] => (db, .error 404 "Reserva no encontrada")
    | (reserva, _) :: _ =>
      if reserva.estado = "cancelada" then
        (db, .error 400 "La reserva ya está cancelada")
      else if diferenciaDias (reserva.fecha_entrada * msPorDia) hoy ≤ 0 then
        (db, .error 400 "No se puede cancelar una reserva el mismo día del check-in o después")
      else if falla fallo .updEstado then (db, errorCancelar fallo)
      else
        let db1 := updEstadoCancelada db id
        if falla fallo .delFechas then (db1, errorCancelar fallo)
        else
          let db2 := delFechasReservadas db1 id
          if reserva.estado_pago = "completado" then
            if falla fallo .insReembolso then (db2, errorCancelar fallo)
            else
              let db3 := insReembolso db2 id reserva.total (oPorDefecto motivo "Cancelación voluntaria")
              if falla fallo .updEstadoPago then (db3, errorCancelar fallo)
              else
                (updEstadoPagoReembolsado db3 id,
                  .cancelada (some (reserva.total, oPorDefecto motivo "Cancelación voluntaria")))
          else (db2, .cancelada none)

/-- The handler of `PATCH /api/reservas/:id/cancelar-admin`. -/
def reservasCancelarAdmin (db : BD) (id : Nat) (_motivo : Option String)
    (fallo : Option (PasoCancelar × String)) : BD × Respuesta :=
  if falla fallo .selReserva then (db, errorCancelar fallo)
  else
    match selReservaConHabitacion db id with
    | [] => (db, .error 404 "Reserva no encontrada")
    | _ :: _ =>
      if falla fallo .updEstado then (db, errorCancelar fallo)
      else
        let db1 := updEstadoCancelada db id
        if falla fallo .delFechas then (db1, errorCancelar fallo)
        else (delFechasReservadas db1 id, .canceladaAdmin)

/-! ## Availability search: `POST /api/habitaciones/disponibles` -/

/-- Insertion of a room into a list ordered by price. -/
def insertarPorPrecio (h : Habitacion) : List Habitacion → List Habitacion
  | [] => [h]
  | x :: xs => if h.precio < x.precio then h :: x :: xs else x :: insertarPorPrecio h xs

/-- The clause `ORDER BY h.precio ASC`; rooms of equal price keep the order of the table. -/
def ordenarPorPrecio (hs : List Habitacion) : List Habitacion :=
  hs.foldr insertarPorPrecio []

/-- The subquery `SELECT fr.habitacion_id FROM fechas_reservadas fr JOIN reservas r
ON fr.reserva_id = r.id WHERE r.estado = "confirmada" AND fr.fecha >= ? AND
fr.fecha < ?`. -/
def selHabitacionesOcupadas (db : BD) (entrada salida : Int) : List Nat :=
  ((fechasJoinReservas db).filter
    (fun p => p.2.estado = "confirmada" ∧ entrada ≤ p.1.fecha ∧ p.1.fecha < salida)).map
    (fun p => p.1.habitacion_id)

/-- The query `SELECT h.* FROM habitaciones h WHERE h.estado = "disponible" AND
h.capacidad >= ? AND h.id NOT IN (...) ORDER BY h.precio ASC`. -/
def selHabitacionesDisponibles (db : BD) (personas : Nat) (entrada salida : Int) :
    List Habitacion :=
  ordenarPorPrecio
    (db.habitaciones.filter
      (fun h => h.estado = "disponible" ∧ personas ≤ h.capacidad
        ∧ h.id ∉ selHabitacionesOcupadas db entrada salida))

/-- The handler of `POST /api/habitaciones/disponibles`; `fallo` is the text of
the exception when the query throws. -/
def habitacionesDisponibles (db : BD) (req : SolicitudBusqueda)
    (fallo : Option String) : Respuesta :=
  match req.entrada, req.salida with
  | some entrada, some salida =>
    if salida ≤ entrada then
      .error 400 "La fecha de salida debe ser posterior a la de entrada"
    else
      match fallo with
      | some m => .error 500 ("Error al buscar habitaciones disponibles: " ++ m)
      | none =>
        .habitaciones
          (selHabitacionesDisponibles db (req.adultos + req.ninos.getD 0) entrada salida)
  | _, _ => .error 400 "Las fechas de entrada y salida son requeridas"

/-! ## Sequences of calls -/

/-- A call of one of the three handlers that write the calendar. -/
inductive Operacion where
  | crear (req : SolicitudReserva) (fallo : Option (PasoCrear × String))
  | cancelar (id : Nat) (motivo : Option String) (hoy : Int)
      (fallo : Option (PasoCancelar × String))
  | cancelarAdmin (id : Nat) (motivo : Option String)
      (fallo : Option (PasoCancelar × String))

/-- The state after a call. -/
def ejecutar (db : BD) : Operacion → BD
  | .crear req fallo => (reservasCrear db req fallo).1
  | .cancelar id motivo hoy fallo => (reservasCancelar db id motivo hoy fallo).1
  | .cancelarAdmin id motivo fallo => (reservasCancelarAdmin db id motivo fallo).1

/-- The state after a sequence of calls. -/
def ejecutarTodas (db : BD) (ops : List Operacion) : BD :=
  ops.foldl ejecutar db

/-- An empty calendar: no reservation and no `fechas_reservadas` row. -/
def CalendarioVacio (db : BD) : Prop :=
  db.reservas = [] ∧ db.fechas_reservadas = []

/-- The states reachable from an empty calendar by bookings, cancellations and
admin cancellations, with or without storage failures. -/
inductive Alcanzable : BD → Prop where
  | inicial (db : BD) : CalendarioVacio db → Alcanzable db
  | paso (db : BD) (op : Operacion) : Alcanzable db → Alcanzable (ejecutar db op)

/-- The dates of the `fechas_reservadas` rows owned by reservation `r`. -/
def fechasDe (db : BD) (r : Reserva) : List Int :=
  (db.fechas_reservadas.filter (fun fr => fr.reserva_id = r.id)).map (fun fr => fr.fecha)

/-- No double booking: two distinct confirmed reservations on the same room
share no allocated date. -/
def SinDobleReserva (db : BD) : Prop :=
  ∀ r1 ∈ db.reservas, ∀ r2 ∈ db.reservas, r1 ≠ r2 →
    r1.estado = "confirmada" → r2.estado = "confirmada" →
    r1.habitacion_id = r2.habitacion_id →
    List.Disjoint (fechasDe db r1) (fechasDe db r2)

/-! ## Invariant of the calendar -/

/-- The id counter is ahead of every reservation id in use, in `reservas` and
in `fechas_reservadas`: what `AUTO_INCREMENT` and the foreign key give. -/
def IdsFrescos (db : BD) : Prop :=
  (∀ r ∈ db.reservas, r.id < db.sigReservaId) ∧
  (∀ fr ∈ db.fechas_reservadas, fr.reserva_id < db.sigReservaId)

/-- Two allocated nights of two different confirmed reservations on one room
never fall on the same date. -/
def SinChoque (db : BD) : Prop :=
  ∀ f1 ∈ db.fechas_reservadas, ∀ f2 ∈ db.fechas_reservadas,
  ∀ r1 ∈ db.reservas, ∀ r2 ∈ db.reservas,
    r1.id = f1.reserva_id → r2.id = f2.reserva_id → r1.id ≠ r2.id →
    r1.estado = "confirmada" → r2.estado = "confirmada" →
    r1.habitacion_id = r2.habitacion_id → f1.fecha ≠ f2.fecha

/-- The invariant carried along every sequence of calls: fresh ids, one row of
`reservas` per id, every allocated night on the room of its reservation, and no
clash. -/
structure Invariante (db : BD) : Prop where
  frescos : IdsFrescos db
  unica : ∀ r1 ∈ db.reservas, ∀ r2 ∈ db.reservas, r1.id = r2.id → r1 = r2
  misma : ∀ fr ∈ db.fechas_reservadas, ∀ r ∈ db.reservas,
    r.id = fr.reserva_id → r.habitacion_id = fr.habitacion_id
  sinChoque : SinChoque db

/-! ## Concrete states and requests -/

/-- Room "101": capacity 2, price 100.00, status "disponible". -/
def hab101 : Habitacion :=
  { id := 1, numero := "101", nombre := "Doble", tipo := "doble", descripcion := ""
    capacidad := 2, precio := 10000, imagen := "doble1.jpg", estado := "disponible" }

/-- A database with room "101" and an empty calendar. -/
def bdInicial : BD :=
  { habitaciones := [hab101], reservas := [], fechas_reservadas := [], reembolsos := []
    sigReservaId := 1 }

/-- Guest data of the example requests. -/
def huesped : DatosPersonales :=
  { nombre := "Ana", apellido := "Paz", email := "ana@example.org", telefono := "555"
    nacionalidad := none }

/-- A booking of room "101" for `entrada .. salida` by `adultos` adults. -/
def solicitud (entrada salida : Int) (adultos : Nat) : SolicitudReserva :=
  { habitacion_id := 1, datos_personales := huesped
    datos_busqueda := { entrada := entrada, salida := salida, adultos := adultos, ninos := none }
    pago_id := "PAY-1", total := 20000, estado_pago := none }

/-- The same booking of room "101" with a payment state sent by the caller. -/
def solicitudPendiente : SolicitudReserva :=
  { solicitud 20240 20242 2 with estado_pago := some "pendiente" }

/-- Room "101" booked 2025-06-01 .. 2025-06-03 (day numbers 20240 .. 20242). -/
def bdReservada : BD := (reservasCrear bdInicial (solicitud 20240 20242 2) none).1

/-- Room "101" flagged "ocupada" by the operator, empty calendar. -/
def bdOcupada : BD :=
  { bdInicial with habitaciones := [{ hab101 with estado := "ocupada" }] }

/-- A search whose salida is the day before its entrada. -/
def busquedaInvertida : SolicitudBusqueda :=
  { entrada := some 20242, salida := some 20241, adultos := 2, ninos := none }

/-! ## Calendar query: `GET /api/habitaciones/disponibilidad/:id`

A JavaScript `Date` at midnight is a civil date.  The server clock is taken in
UTC, so that the local fields (`getDate`, `getMonth`) and `toISOString` speak of
the same day; the string `toISOString().split("T")[0]` of a date is its day
number. -/

/-- A civil date: year, month 1..12, day of the month. -/
structure FechaCivil where
  anio : Int
  mes : Nat
  dia : Nat
deriving DecidableEq

/-- Leap years of the Gregorian calendar. -/
def esBisiesto (anio : Int) : Bool :=
  (anio % 4 = 0 ∧ anio % 100 ≠ 0) ∨ anio % 400 = 0

/-- The number of days of a month. -/
def diasEnMes (anio : Int) (mes : Nat) : Nat :=
  if mes = 2 then (if esBisiesto anio then 29 else 28)
  else if mes = 4 ∨ mes = 6 ∨ mes = 9 ∨ mes = 11 then 30
  else 31

/-- The days from 1970-01-01 to the first of January of a year. -/
def diasAntesDeAnio (anio : Int) : Int :=
  365 * (anio - 1970) + ((anio - 1) / 4 - (anio - 1) / 100 + (anio - 1) / 400 - 477)

/-- The days of a year before the first of a month. -/
def diasAntesDeMes (anio : Int) (mes : Nat) : Nat :=
  ((List.range (mes - 1)).map (fun (i : Nat) => diasEnMes anio (i + 1))).sum

/-- The day number of a civil date: days from 1970-01-01, the time value of the
`Date` in days. -/
def FechaCivil.aDias (f : FechaCivil) : Int :=
  diasAntesDeAnio f.anio + (diasAntesDeMes f.anio f.mes : Int) + (f.dia : Int) - 1

/-- The date after `setDate(getDate() + 1)`: the next day, rolling over to the
first of the next month after the last day of a month. -/
def siguienteDia (f : FechaCivil) : FechaCivil :=
  if f.dia + 1 ≤ diasEnMes f.anio f.mes then { f with dia := f.dia + 1 }
  else if f.mes < 12 then { anio := f.anio, mes := f.mes + 1, dia := 1 }
  else { anio := f.anio + 1, mes := 1, dia := 1 }

/-- The date `new Date(anio, mes - 1, 1)` for the numbers of the query string: a
year from 0 to 99 stands for 1900 + year, and a month outside 1..12 carries into
the year. -/
def fechaBaseDe (anio mes : Nat) : FechaCivil :=
  { anio := (((if anio ≤ 99 then 1900 + anio else anio : Nat) : Int) * 12 + ((mes : Int) - 1)) / 12
    mes := ((((if anio ≤ 99 then 1900 + anio else anio : Nat) : Int) * 12
      + ((mes : Int) - 1)) % 12).toNat + 1
    dia := 1 }

/-- The year the `Date` constructor takes for a year argument: an argument from
0 to 99 stands for 1900 + argument. -/
def anioCompleto (anio : Int) : Int :=
  if 0 ≤ anio ∧ anio ≤ 99 then 1900 + anio else anio

/-- The time value of a `Date` is kept only within 8.64e15 milliseconds of the
epoch, which is 100,000,000 days: outside, the `Date` is invalid, and
`toISOString` throws `RangeError: Invalid time value` on it. -/
def fechaValida (f : FechaCivil) : Bool :=
  decide (-100000000 ≤ f.aDias ∧ f.aDias ≤ 100000000)

/-- The date `fechaBase`: `new Date(anio, mes - 1, 1)` when both parameters are
given, and `new Date()` otherwise. -/
def fechaBaseDeConsulta (mes anio : Option Nat) (hoy : FechaCivil) : FechaCivil :=
  match mes, anio with
  | some m, some a => fechaBaseDe a m
  | _, _ => hoy

/-- The date `new Date(fechaBase.getFullYear(), fechaBase.getMonth(), 1)`: the
first day of the month of `fechaBase`, in the year the constructor takes for
`getFullYear()` (a year from 0 to 99 becomes 1900 + year once more). -/
def primerDia (fechaBase : FechaCivil) : FechaCivil :=
  { anio := anioCompleto fechaBase.anio, mes := fechaBase.mes, dia := 1 }

/-- The date `new Date(fechaBase.getFullYear(), fechaBase.getMonth() + 1, 0)`: day
0 of the next month, which is the last day of the month of `primerDia`. -/
def ultimoDia (fechaBase : FechaCivil) : FechaCivil :=
  { anio := anioCompleto fechaBase.anio, mes := fechaBase.mes
    dia := diasEnMes (anioCompleto fechaBase.anio) fechaBase.mes }

/-- An entry of the array `dias` of the calendar response. -/
structure DiaCalendario where
  fecha : Int
  dia : Nat
  diaSemana : Nat
  estado : String
deriving DecidableEq

/-- A row of the array `reservas` of the calendar response. -/
structure ReservaCalendario where
  id : Nat
  cliente_nombre : String
  cliente_apellido : String
  fecha_entrada : Int
  fecha_salida : Int
  estado : String
deriving DecidableEq

/-- A response of the calendar query. -/
inductive RespuestaCalendario where
  | error (status : Nat) (mensaje : String)
  | ok (mes : Nat) (anio : Int) (dias : List DiaCalendario)
      (reservas : List ReservaCalendario) (totalReservas : Nat)
deriving DecidableEq

/-- The query `SELECT DISTINCT fr.fecha FROM fechas_reservadas fr JOIN reservas r ON
fr.reserva_id = r.id WHERE fr.habitacion_id = ? AND fr.fecha BETWEEN ? AND ? AND
r.estado = "confirmada" ORDER BY fr.fecha ASC`. -/
def selFechasDelMes (db : BD) (id : Nat) (primerDia ultimoDia : Int) : List Int :=
  ((((fechasJoinReservas db).filter
    (fun p => p.1.habitacion_id = id ∧ (primerDia ≤ p.1.fecha ∧ p.1.fecha ≤ ultimoDia)
      ∧ p.2.estado = "confirmada")).map (fun p => p.1.fecha)).dedup).insertionSort (· ≤ ·)

/-- The three-way test of the `WHERE` clause of the reservations of a month:
`(fecha_entrada BETWEEN ? AND ?) OR (fecha_salida BETWEEN ? AND ?) OR
(fecha_entrada <= ? AND fecha_salida >= ?)`. -/
def pruebaTresVias (primerDia ultimoDia : Int) (r : Reserva) : Bool :=
  (primerDia ≤ r.fecha_entrada ∧ r.fecha_entrada ≤ ultimoDia)
    ∨ (primerDia ≤ r.fecha_salida ∧ r.fecha_salida ≤ ultimoDia)
    ∨ (r.fecha_entrada ≤ primerDia ∧ r.fecha_salida ≥ ultimoDia)

/-- The columns `id, cliente_nombre, cliente_apellido, fecha_entrada,
fecha_salida, estado` of a reservation. -/
def columnasCalendario (r : Reserva) : ReservaCalendario :=
  { id := r.id, cliente_nombre := r.cliente_nombre, cliente_apellido := r.cliente_apellido
    fecha_entrada := r.fecha_entrada, fecha_salida := r.fecha_salida, estado := r.estado }

/-- The query `SELECT id, cliente_nombre, cliente_apellido, fecha_entrada,
fecha_salida, estado FROM reservas WHERE habitacion_id = ? AND estado =
"confirmada" AND (...) ORDER BY fecha_entrada ASC`. -/
def selReservasDelMes (db : BD) (id : Nat) (primerDia ultimoDia : Int) :
    List ReservaCalendario :=
  ((db.reservas.filter
    (fun r => r.habitacion_id = id ∧ r.estado = "confirmada"
      ∧ pruebaTresVias primerDia ultimoDia r = true)).insertionSort
    (fun a b => a.fecha_entrada ≤ b.fecha_entrada)).map columnasCalendario

/-- The object pushed on `diasMes` for the date `currentDate`. -/
def entradaDia (fechasReservadasSet : List Int) (currentDate : FechaCivil) : DiaCalendario :=
  { fecha := currentDate.aDias
    dia := currentDate.dia
    diaSemana := ((currentDate.aDias + 4) % 7).toNat
    estado := if currentDate.aDias ∈ fechasReservadasSet then "reservada" else "disponible" }

/-- The loop `while (currentDate <= ultimoDia)` that fills `diasMes`, run for at
most `pasos` tests of its condition; `none` when it has not ended by then. -/
def bucleDias (fechasReservadasSet : List Int) (ultimoDia : FechaCivil) :
    Nat → FechaCivil → Option (List DiaCalendario)
  | 0, _ => none
  | pasos + 1, currentDate =>
    if currentDate.aDias ≤ ultimoDia.aDias then
      (bucleDias fechasReservadasSet ultimoDia pasos (siguienteDia currentDate)).map
        (fun resto => entradaDia fechasReservadasSet currentDate :: resto)
    else some []

/-- The handler of `GET /api/habitaciones/disponibilidad/:id`.  `mes` and `anio`
are the numbers of the query string (`none` when the parameter is missing or
empty), `hoy` is `new Date()`, `fallo` the text of the exception when a query
throws, and `pasos` bounds the loop over the days.  The parameters of the first
query call `toISOString` on `primerDia` and `ultimoDia`: when one of the dates
is invalid this throws before any query runs, and the handler answers 500. -/
def habitacionesDisponibilidad (db : BD) (id : Nat) (mes anio : Option Nat)
    (hoy : FechaCivil) (fallo : Option String) (pasos : Nat) : Option RespuestaCalendario :=
  let fechaBase : FechaCivil := fechaBaseDeConsulta mes anio hoy
  if ¬ (fechaValida fechaBase = true ∧ fechaValida (primerDia fechaBase) = true
      ∧ fechaValida (ultimoDia fechaBase) = true) then
    some (.error 500 "Error al obtener disponibilidad: Invalid time value")
  else
  match fallo with
  | some m => some (.error 500 ("Error al obtener disponibilidad: " ++ m))
  | none =>
    let fechasReservadas :=
      selFechasDelMes db id (primerDia fechaBase).aDias (ultimoDia fechaBase).aDias
    let reservas :=
      selReservasDelMes db id (primerDia fechaBase).aDias (ultimoDia fechaBase).aDias
    (bucleDias fechasReservadas (ultimoDia fechaBase) pasos (primerDia fechaBase)).map
      (fun diasMes => .ok fechaBase.mes fechaBase.anio diasMes reservas reservas.length)

/-! ## Sequences of calls from any state -/

/-- The states reachable from `db0` by bookings, cancellations and admin
cancellations, with or without storage failures. -/
inductive AlcanzableDe (db0 : BD) : BD → Prop where
  | inicio : AlcanzableDe db0 db0
  | paso (db : BD) (op : Operacion) : AlcanzableDe db0 db → AlcanzableDe db0 (ejecutar db op)

/-- The refund records of a reservation. -/
def reembolsosDe (db : BD) (id : Nat) : List Reembolso :=
  db.reembolsos.filter (fun e => e.reserva_id = id)

/-- The invariant of the refund ledger: the id counter is ahead of the ids of
`reservas` and of `reembolsos`, a refunded reservation is `cancelada`, and no
reservation has two refund records. -/
structure InvarianteReembolsos (db : BD) : Prop where
  frescos : ∀ r ∈ db.reservas, r.id < db.sigReservaId
  reembolsoFresco : ∀ e ∈ db.reembolsos, e.reserva_id < db.sigReservaId
  cancelada : ∀ e ∈ db.reembolsos, ∀ r ∈ db.reservas, r.id = e.reserva_id → r.estado = "cancelada"
  unico : ∀ id, (reembolsosDe db id).length ≤ 1

/-! ## Concrete instants and states of the cancellation examples -/

/-- The instant 01:00 of 2025-05-30 (day 20238), in milliseconds. -/
def instanteAntes : Int := 20238 * msPorDia + 3600000

/-- The instant 00:00 of 2025-06-01 (day 20240), in milliseconds. -/
def instanteEntrada : Int := 20240 * msPorDia

/-- Room "101" after its booking for 2025-06-01 .. 2025-06-03 was cancelled on
2025-05-30. -/
def bdCancelada : BD := (reservasCancelar bdReservada 1 none instanteAntes none).1

/-- Room "102": capacity 2, price 80.00, status "disponible". -/
def hab102 : Habitacion :=
  { id := 2, numero := "102", nombre := "Individual", tipo := "individual", descripcion := ""
    capacidad := 2, precio := 8000, imagen := "doble1.jpg", estado := "disponible" }

/-- A database with rooms "101" and "102" and an empty calendar. -/
def bdDosHabitaciones : BD :=
  { bdInicial with habitaciones := [hab101, hab102] }

/-- A search for 2025-06-01 .. 2025-06-03 by 2 adults. -/
def busquedaJunio : SolicitudBusqueda :=
  { entrada := some 20240, salida := some 20242, adultos := 2, ninos := none }

/-- A current date for the calendar examples: 2026-11-04. -/
def hoyEjemplo : FechaCivil := { anio := 2026, mes := 11, dia := 4 }

/-! ## Rooms: `POST /api/habitaciones`, `PUT /api/habitaciones/:id`,
`PATCH /api/habitaciones/:id/estado`, `.../checkin`, `.../checkout` -/

/-- The body of the room handlers; `imagen` and `estado` may be missing. -/
structure SolicitudHabitacion where
  numero : String
  nombre : String
  tipo : String
  descripcion : String
  capacidad : Nat
  precio : Nat
  imagen : Option String
  estado : Option String
deriving DecidableEq

/-- A response of one of the room handlers. -/
inductive RespuestaHabitacion where
  | error (status : Nat) (mensaje : String)
  | creada (habitacionId : Nat)
  | exito (mensaje : String)
deriving DecidableEq

/-- The response is an error response (`success: false`). -/
def RespuestaHabitacion.esError : RespuestaHabitacion → Bool
  | .error _ _ => true
  | _ => false

/-- The storage calls of the room handlers. -/
inductive PasoHabitacion where
  | selId
  | selNumero
  | escribir
deriving DecidableEq

/-- The `insertId` of a new room: `AUTO_INCREMENT` is taken as one more than the
largest id of the table. -/
def sigHabitacionId (db : BD) : Nat :=
  (db.habitaciones.map (fun h => h.id)).foldr max 0 + 1

/-- The handler of `POST /api/habitaciones`. -/
def habitacionesCrear (db : BD) (req : SolicitudHabitacion)
    (fallo : Option (PasoHabitacion × String)) : BD × RespuestaHabitacion :=
  if falla fallo .selNumero then
    (db, .error 500 ("Error al crear la habitación: " ++ mensajeDe fallo))
  else if (db.habitaciones.filter (fun h => h.numero = req.numero)).length > 0 then
    (db, .error 400 "El número de habitación ya existe")
  else if falla fallo .escribir then
    (db, .error 500 ("Error al crear la habitación: " ++ mensajeDe fallo))
  else
    ({ db with
        habitaciones := db.habitaciones ++
          [{ id := sigHabitacionId db, numero := req.numero, nombre := req.nombre
             tipo := req.tipo, descripcion := req.descripcion, capacidad := req.capacidad
             precio := req.precio, imagen := oPorDefecto req.imagen "doble1.jpg"
             estado := oPorDefecto req.estado "disponible" }] },
      .creada (sigHabitacionId db))

/-- The handler of `PUT /api/habitaciones/:id`.  `estado` is bound as it comes:
when it is missing the driver refuses the `undefined` parameter and the handler
answers 500. -/
def habitacionesActualizar (db : BD) (id : Nat) (req : SolicitudHabitacion)
    (fallo : Option (PasoHabitacion × String)) : BD × RespuestaHabitacion :=
  if falla fallo .selId then
    (db, .error 500 ("Error al actualizar la habitación: " ++ mensajeDe fallo))
  else if (db.habitaciones.filter (fun h => h.id = id)).length = 0 then
    (db, .error 404 "Habitación no encontrada")
  else if falla fallo .selNumero then
    (db, .error 500 ("Error al actualizar la habitación: " ++ mensajeDe fallo))
  else if (db.habitaciones.filter
      (fun h => h.numero = req.numero ∧ ¬ h.id = id)).length > 0 then
    (db, .error 400 "El número de habitación ya existe en otra habitación")
  else if falla fallo .escribir then
    (db, .error 500 ("Error al actualizar la habitación: " ++ mensajeDe fallo))
  else
    match req.estado with
    | none =>
      (db, .error 500 ("Error al actualizar la habitación: "
        ++ "Bind parameters must not contain undefined. To pass SQL NULL specify JS null"))
    | some estado =>
      ({ db with
          habitaciones := db.habitaciones.map (fun h =>
            if h.id = id then
              { id := h.id, numero := req.numero, nombre := req.nombre, tipo := req.tipo
                descripcion := req.descripcion, capacidad := req.capacidad
                precio := req.precio, imagen := oPorDefecto req.imagen "doble1.jpg"
                estado := estado }
            else h) },
        .exito "Habitación actualizada exitosamente")

/-- The list `estadosValidos` of the status handler. -/
def estadosValidos : List String := ["disponible", "ocupada", "mantenimiento"]

/-- The statement `UPDATE habitaciones SET estado = ? WHERE id = ?`. -/
def updEstadoHabitacion (db : BD) (id : Nat) (estado : String) : BD :=
  { db with
    habitaciones := db.habitaciones.map (fun h => if h.id = id then { h with estado := estado } else h) }

/-- The handler of `PATCH /api/habitaciones/:id/estado`. -/
def habitacionesEstado (db : BD) (id : Nat) (estado : Option String)
    (fallo : Option (PasoHabitacion × String)) : BD × RespuestaHabitacion :=
  if falla fallo .selId then
    (db, .error 500 ("Error al cambiar estado: " ++ mensajeDe fallo))
  else if (db.habitaciones.filter (fun h => h.id = id)).length = 0 then
    (db, .error 404 "Habitación no encontrada")
  else
    match estado with
    | none => (db, .error 400 "Estado no válido. Use: disponible, ocupada o mantenimiento")
    | some e =>
      if ¬ e ∈ estadosValidos then
        (db, .error 400 "Estado no válido. Use: disponible, ocupada o mantenimiento")
      else if falla fallo .escribir then
        (db, .error 500 ("Error al cambiar estado: " ++ mensajeDe fallo))
      else (updEstadoHabitacion db id e, .exito ("Estado cambiado a " ++ e))

/-- The handler of `PATCH /api/habitaciones/:id/checkin`. -/
def habitacionesCheckin (db : BD) (id : Nat)
    (fallo : Option (PasoHabitacion × String)) : BD × RespuestaHabitacion :=
  if falla fallo .selId then
    (db, .error 500 ("Error al realizar check-in: " ++ mensajeDe fallo))
  else
    match db.habitaciones.filter (fun h => h.id = id) with
    | [] => (db, .error 404 "Habitación no encontrada")
    | habitacion :: _ =>
      if habitacion.estado ≠ "disponible" then
        (db, .error 400 ("No se puede hacer check-in. La habitación está en estado: "
          ++ habitacion.estado))
      else if falla fallo .escribir then
        (db, .error 500 ("Error al realizar check-in: " ++ mensajeDe fallo))
      else
        (updEstadoHabitacion db id "ocupada",
          .exito ("Check-in realizado para habitación " ++ habitacion.numero))

/-- The handler of `PATCH /api/habitaciones/:id/checkout`. -/
def habitacionesCheckout (db : BD) (id : Nat)
    (fallo : Option (PasoHabitacion × String)) : BD × RespuestaHabitacion :=
  if falla fallo .selId then
    (db, .error 500 ("Error al realizar check-out: " ++ mensajeDe fallo))
  else
    match db.habitaciones.filter (fun h => h.id = id) with
    | [] => (db, .error 404 "Habitación no encontrada")
    | habitacion :: _ =>
      if habitacion.estado ≠ "ocupada" then
        (db, .error 400 ("No se puede hacer check-out. La habitación está en estado: "
          ++ habitacion.estado))
      else if falla fallo .escribir then
        (db, .error 500 ("Error al realizar check-out: " ++ mensajeDe fallo))
      else
        (updEstadoHabitacion db id "disponible",
          .exito ("Check-out realizado para habitación " ++ habitacion.numero))

/-- The storage calls of `DELETE /api/habitaciones/:id`, in order. -/
inductive PasoEliminar where
  | selId
  | selReservas
  | eliminar
deriving DecidableEq

/-- The handler of `DELETE /api/habitaciones/:id`.  The schema is not in the
source: the statement `DELETE FROM habitaciones WHERE id = ?` is taken to remove
the rows of that id from `habitaciones` and to touch no other table. -/
def habitacionesEliminar (db : BD) (id : Nat)
    (fallo : Option (PasoEliminar × String)) : BD × RespuestaHabitacion :=
  if falla fallo .selId then
    (db, .error 500 ("Error al eliminar la habitación: " ++ mensajeDe fallo))
  else if (db.habitaciones.filter (fun h => h.id = id)).length = 0 then
    (db, .error 404 "Habitación no encontrada")
  else if falla fallo .selReservas then
    (db, .error 500 ("Error al eliminar la habitación: " ++ mensajeDe fallo))
  else if (db.reservas.filter
      (fun r => r.habitacion_id = id ∧ (r.estado = "pendiente" ∨ r.estado = "confirmada"))).length
      > 0 then
    (db, .error 400 "No se puede eliminar la habitación porque tiene reservas activas")
  else if falla fallo .eliminar then
    (db, .error 500 ("Error al eliminar la habitación: " ++ mensajeDe fallo))
  else
    ({ db with habitaciones := db.habitaciones.filter (fun h => ¬ h.id = id) },
      .exito "Habitación eliminada exitosamente")

/-- A call of one of the room handlers. -/
inductive OperacionHabitacion where
  | crear (req : SolicitudHabitacion) (fallo : Option (PasoHabitacion × String))
  | actualizar (id : Nat) (req : SolicitudHabitacion) (fallo : Option (PasoHabitacion × String))
  | estado (id : Nat) (estado : Option String) (fallo : Option (PasoHabitacion × String))
  | checkin (id : Nat) (fallo : Option (PasoHabitacion × String))
  | checkout (id : Nat) (fallo : Option (PasoHabitacion × String))

/-- The state after a call of a room handler. -/
def ejecutarHabitacion (db : BD) : OperacionHabitacion → BD
  | .crear req fallo => (habitacionesCrear db req fallo).1
  | .actualizar id req fallo => (habitacionesActualizar db id req fallo).1
  | .estado id estado fallo => (habitacionesEstado db id estado fallo).1
  | .checkin id fallo => (habitacionesCheckin db id fallo).1
  | .checkout id fallo => (habitacionesCheckout db id fallo).1

/-- The states reachable from `db0` by calls of the room handlers. -/
inductive AlcanzableHabitaciones (db0 : BD) : BD → Prop where
  | inicio : AlcanzableHabitaciones db0 db0
  | paso (db : BD) (op : OperacionHabitacion) :
      AlcanzableHabitaciones db0 db → AlcanzableHabitaciones db0 (ejecutarHabitacion db op)

/-- Room numbers are pairwise distinct. -/
def NumerosUnicos (db : BD) : Prop :=
  db.habitaciones.Pairwise (fun a b => a.numero ≠ b.numero)

/-- Room ids are pairwise distinct: `id` is the key of `habitaciones`. -/
def IdsDeHabitacionUnicos (db : BD) : Prop :=
  db.habitaciones.Pairwise (fun a b => a.id ≠ b.id)

/-- Every room has one of the three manual states. -/
def EstadosValidos (db : BD) : Prop :=
  ∀ h ∈ db.habitaciones, h.estado ∈ estadosValidos

/-! ## Payments: the log line of `POST /api/pagos/procesar` -/

/-- JavaScript `s.substring(inicio, fin)`: each index is clamped to `0 .. length`
(a negative index counts as 0), a missing `fin` is the length, and the two are
swapped when `inicio` is the larger.  Characters are code points, which for the
digits and spaces of a card number are the UTF-16 units of JavaScript. -/
def substring (s : String) (inicio : Int) (fin : Option Int) : String :=
  let len : Int := (s.data.length : Int)
  let a : Nat := (min (max inicio 0) len).toNat
  let b : Nat := (min (max (fin.getD len) 0) len).toNat
  String.mk ((s.data.drop (min a b)).take (max a b - min a b))

/-- The value logged under `tarjeta` by the payment handler:
`tarjeta.substring(0, 4) + "..." + tarjeta.substring(-4)` when a card number is
given, and "no proporcionada" otherwise. -/
def tarjetaRegistrada (tarjeta : Option String) : String :=
  match tarjeta with
  | none => "no proporcionada"
  | some t =>
    if t = "" then "no proporcionada"
    else substring t 0 (some 4) ++ "..." ++ substring t (-4) none

/-- The mask described for the log, written from the claim and not from the
code: the first four characters, then "...", then the last four characters. -/
def mascaraEsperada (t : String) : String :=
  String.mk (t.data.take 4) ++ "..." ++ String.mk (t.data.drop (t.data.length - 4))

/-! ## More concrete states -/

/-- Room "101" holding a reservation in state "pendiente" for 2025-06-01 ..
2025-06-03, with its nights allocated. -/
def bdPendiente : BD :=
  { bdReservada with
    reservas := bdReservada.reservas.map (fun r => { r with estado := "pendiente" }) }

/-- The state after room "101", whose only reservation is cancelled, was deleted
through `DELETE /api/habitaciones/1`. -/
def bdSinHabitacion : BD := (habitacionesEliminar bdCancelada 1 none).1

/-- A search for 2025-06-01 .. 2025-06-03 by 3 adults. -/
def busquedaTresAdultos : SolicitudBusqueda :=
  { entrada := some 20240, salida := some 20242, adultos := 3, ninos := none }

/-- The month, the year, the number of days and the first date of a calendar
response. -/
def resumenCalendario : Option RespuestaCalendario → Option (Nat × Int × Nat × Option Int)
  | some (.ok mes anio dias _ _) => some (mes, anio, dias.length, dias.head?.map (fun d => d.fecha))
  | _ => none

/-- A room request for number "201" with the status "reservada". -/
def solicitudHabitacionReservada : SolicitudHabitacion :=
  { numero := "201", nombre := "Suite", tipo := "suite", descripcion := ""
    capacidad := 4, precio := 25000, imagen := none, estado := some "reservada" }

/-! ## The queries and the outcome of a booking -/

/-- No step fails when no failure is injected. -/
theorem falla_none {P : Type} [DecidableEq P] (p : P) :
    falla (none : Option (P × String)) p = false := rfl

/-- A booking call either leaves the state as it was and answers with an error,
or passes both checks and inserts. -/
theorem reservasCrear_casos (db : BD) (req : SolicitudReserva)
    (fallo : Option (PasoCrear × String)) :
    ((reservasCrear db req fallo).1 = db ∧ (reservasCrear db req fallo).2.esError = true) ∨
    ((reservasCrear db req fallo).1 = insertarReserva db req
      ∧ (reservasCrear db req fallo).2.esError = false
      ∧ selHabitacionDisponible db req.habitacion_id ≠ []
      ∧ selReservasExistentes db req.habitacion_id
          req.datos_busqueda.entrada req.datos_busqueda.salida = []
      ∧ ∃ resumen, (reservasCrear db req fallo).2 = .reservaCreada db.sigReservaId resumen) := by
  unfold reservasCrear
  split
  · left; exact ⟨rfl, rfl⟩
  split
  · left; exact ⟨rfl, rfl⟩
  split
  · left; exact ⟨rfl, rfl⟩
  · rename_i habitacion resto hsel
    split
    · left; exact ⟨rfl, rfl⟩
    split
    · left; exact ⟨rfl, rfl⟩
    split
    · left; exact ⟨rfl, rfl⟩
    split
    · left; exact ⟨rfl, rfl⟩
    · rename_i hlen _ _
      right
      refine ⟨rfl, rfl, by rw [hsel]; simp, ?_, _, rfl⟩
      simpa using hlen

/-- Membership in the result of the room query of a booking. -/
theorem mem_selHabitacionDisponible (db : BD) (id : Nat) (h : Habitacion) :
    h ∈ selHabitacionDisponible db id ↔
      h ∈ db.habitaciones ∧ h.id = id ∧ h.estado = "disponible" := by
  simp [selHabitacionDisponible]

/-- The room query of a booking is empty exactly when no room of that id is `disponible`. -/
theorem selHabitacionDisponible_eq_nil (db : BD) (id : Nat) :
    selHabitacionDisponible db id = [] ↔
      ∀ h ∈ db.habitaciones, h.id = id → h.estado ≠ "disponible" := by
  simp [selHabitacionDisponible, List.filter_eq_nil_iff]

/-- Membership in the join of `fechas_reservadas` with `reservas`. -/
theorem mem_fechasJoinReservas (db : BD) (p : FechaReservada × Reserva) :
    p ∈ fechasJoinReservas db ↔
      p.1 ∈ db.fechas_reservadas ∧ p.2 ∈ db.reservas ∧ p.1.reserva_id = p.2.id := by
  obtain ⟨fr, r⟩ := p
  simp only [fechasJoinReservas, List.mem_flatMap, List.mem_map, List.mem_filter,
    decide_eq_true_eq, Prod.mk.injEq]
  constructor
  · rintro ⟨a, ha, b, ⟨hb, hab⟩, rfl, rfl⟩
    exact ⟨ha, hb, hab⟩
  · rintro ⟨ha, hb, hab⟩
    exact ⟨fr, ha, r, ⟨hb, hab⟩, rfl, rfl⟩

/-- The date check of a booking finds a row exactly when some night of the
requested range is held on the room by a confirmed reservation. -/
theorem selReservasExistentes_ne_nil (db : BD) (id : Nat) (entrada salida : Int) :
    selReservasExistentes db id entrada salida ≠ [] ↔
      ∃ fr ∈ db.fechas_reservadas, fr.habitacion_id = id
        ∧ (∃ r ∈ db.reservas, r.id = fr.reserva_id ∧ r.estado = "confirmada")
        ∧ entrada ≤ fr.fecha ∧ fr.fecha < salida := by
  unfold selReservasExistentes
  rw [Ne, List.map_eq_nil_iff, List.filter_eq_nil_iff]
  constructor
  · intro hne
    by_contra hcon
    apply hne
    rintro ⟨fr, r⟩ hp
    rw [mem_fechasJoinReservas] at hp
    simp only [decide_eq_true_eq]
    rintro ⟨h1, h2, h3, h4⟩
    exact hcon ⟨fr, hp.1, h1, ⟨r, hp.2.1, hp.2.2.symm, h2⟩, h3, h4⟩
  · rintro ⟨fr, hfr, h1, ⟨r, hr, hid, hest⟩, h3, h4⟩ hall
    have := hall (fr, r) ((mem_fechasJoinReservas db (fr, r)).2 ⟨hfr, hr, hid.symm⟩)
    simp only [decide_eq_true_eq] at this
    exact this ⟨h1, hest, h3, h4⟩

/-- The response of a booking call without storage failure. -/
theorem reservasCrear_none_snd (db : BD) (req : SolicitudReserva) :
    (selHabitacionDisponible db req.habitacion_id = []
      ∧ reservasCrear db req none = (db, .error 400 "Habitación no disponible")) ∨
    (selHabitacionDisponible db req.habitacion_id ≠ []
      ∧ selReservasExistentes db req.habitacion_id
          req.datos_busqueda.entrada req.datos_busqueda.salida ≠ []
      ∧ reservasCrear db req none
          = (db, .error 400 "La habitación ya está reservada en esas fechas")) ∨
    (selHabitacionDisponible db req.habitacion_id ≠ []
      ∧ selReservasExistentes db req.habitacion_id
          req.datos_busqueda.entrada req.datos_busqueda.salida = []
      ∧ (reservasCrear db req none).1 = insertarReserva db req
      ∧ (reservasCrear db req none).2.esError = false) := by
  unfold reservasCrear
  simp only [falla_none, Bool.false_eq_true, if_false]
  split
  · rename_i hsel
    left; exact ⟨hsel, rfl⟩
  · rename_i habitacion resto hsel
    right
    split
    · rename_i hlen
      left
      refine ⟨by rw [hsel]; simp, ?_, rfl⟩
      intro h0
      rw [h0] at hlen
      simp at hlen
    · rename_i hlen
      right
      refine ⟨by rw [hsel]; simp, by simpa using hlen, rfl, rfl⟩

/-- The dates of `rangoFechas entrada salida` are those of `[entrada, salida)`. -/
theorem mem_rangoFechas (entrada salida d : Int) :
    d ∈ rangoFechas entrada salida ↔ entrada ≤ d ∧ d < salida := by
  simp only [rangoFechas, List.mem_map, List.mem_range]
  constructor
  · rintro ⟨i, hi, rfl⟩
    omega
  · rintro ⟨h1, h2⟩
    exact ⟨(d - entrada).toNat, by omega, by omega⟩

/-- No date is listed twice by `rangoFechas`. -/
theorem nodup_rangoFechas (entrada salida : Int) : (rangoFechas entrada salida).Nodup := by
  unfold rangoFechas
  refine List.Nodup.map ?_ (List.nodup_range _)
  intro a b hab
  simp only at hab
  omega

/-- The rows the trigger writes for a reservation. -/
theorem mem_triggerFechasReservadas (r : Reserva) (fr : FechaReservada) :
    fr ∈ triggerFechasReservadas r ↔
      fr.habitacion_id = r.habitacion_id ∧ fr.reserva_id = r.id
        ∧ r.fecha_entrada ≤ fr.fecha ∧ fr.fecha < r.fecha_salida := by
  simp only [triggerFechasReservadas, List.mem_map, mem_rangoFechas]
  constructor
  · rintro ⟨d, ⟨h1, h2⟩, rfl⟩
    exact ⟨rfl, rfl, h1, h2⟩
  · rintro ⟨h1, h2, h3, h4⟩
    refine ⟨fr.fecha, ⟨h3, h4⟩, ?_⟩
    cases fr
    simp_all

/-- The trigger writes no row twice. -/
theorem nodup_triggerFechasReservadas (r : Reserva) : (triggerFechasReservadas r).Nodup := by
  unfold triggerFechasReservadas
  refine List.Nodup.map ?_ (nodup_rangoFechas _ _)
  intro a b hab
  simpa using hab

/-! ## The invariant is kept by every call -/

/-- An empty calendar satisfies the invariant. -/
theorem invariante_vacio (db : BD) (h : CalendarioVacio db) : Invariante db := by
  obtain ⟨hr, hf⟩ := h
  constructor
  · constructor
    · intro r hmem; rw [hr] at hmem; cases hmem
    · intro fr hmem; rw [hf] at hmem; cases hmem
  · intro r hmem; rw [hr] at hmem; cases hmem
  · intro fr hmem; rw [hf] at hmem; cases hmem
  · intro fr hmem; rw [hf] at hmem; cases hmem

/-- A statement that rewrites rows of `reservas` without touching their id or
room, confirms nothing, and adds no night, keeps the invariant. -/
theorem invariante_reescritura (db db2 : BD) (g : Reserva → Reserva)
    (hres : db2.reservas = db.reservas.map g)
    (hgid : ∀ r, (g r).id = r.id)
    (hghab : ∀ r, (g r).habitacion_id = r.habitacion_id)
    (hgest : ∀ r, (g r).estado = "confirmada" → r.estado = "confirmada")
    (hfe : ∀ fr ∈ db2.fechas_reservadas, fr ∈ db.fechas_reservadas)
    (hsig : db2.sigReservaId = db.sigReservaId)
    (hinv : Invariante db) : Invariante db2 := by
  have hmem : ∀ r ∈ db2.reservas, ∃ r0 ∈ db.reservas, g r0 = r := by
    intro r hr
    rw [hres, List.mem_map] at hr
    exact hr
  constructor
  · constructor
    · intro r hr
      obtain ⟨r0, hr0, rfl⟩ := hmem r hr
      rw [hgid, hsig]
      exact hinv.frescos.1 r0 hr0
    · intro fr hfr
      rw [hsig]
      exact hinv.frescos.2 fr (hfe fr hfr)
  · intro r1 hr1 r2 hr2 hid
    obtain ⟨a, ha, rfl⟩ := hmem r1 hr1
    obtain ⟨b, hb, rfl⟩ := hmem r2 hr2
    rw [hgid, hgid] at hid
    rw [hinv.unica a ha b hb hid]
  · intro fr hfr r hr hid
    obtain ⟨a, ha, rfl⟩ := hmem r hr
    rw [hgid] at hid
    rw [hghab]
    exact hinv.misma fr (hfe fr hfr) a ha hid
  · intro f1 hf1 f2 hf2 r1 hr1 r2 hr2 h1 h2 hne hc1 hc2 hhab
    obtain ⟨a, ha, rfl⟩ := hmem r1 hr1
    obtain ⟨b, hb, rfl⟩ := hmem r2 hr2
    rw [hgid] at h1 h2
    rw [hgid, hgid] at hne
    rw [hghab, hghab] at hhab
    exact hinv.sinChoque f1 (hfe f1 hf1) f2 (hfe f2 hf2) a ha b hb h1 h2 hne
      (hgest a hc1) (hgest b hc2) hhab

/-- Marking a reservation `cancelada` keeps the invariant. -/
theorem invariante_updEstadoCancelada (db : BD) (id : Nat) (hinv : Invariante db) :
    Invariante (updEstadoCancelada db id) := by
  refine invariante_reescritura db _
    (fun r => if r.id = id then { r with estado := "cancelada" } else r) rfl ?_ ?_ ?_
    (fun _ h => h) rfl hinv
  · intro r; dsimp only; split <;> rfl
  · intro r; dsimp only; split <;> rfl
  · intro r; dsimp only; split
    · intro h
      have h2 : "cancelada" = "confirmada" := h
      exact absurd h2 (by decide)
    · exact fun h => h

/-- Deleting the nights of a reservation keeps the invariant. -/
theorem invariante_delFechasReservadas (db : BD) (id : Nat) (hinv : Invariante db) :
    Invariante (delFechasReservadas db id) := by
  refine invariante_reescritura db _ (fun r => r) (by simp [delFechasReservadas])
    (fun _ => rfl) (fun _ => rfl) (fun _ h => h) ?_ rfl hinv
  intro fr hfr
  exact (List.mem_filter.1 hfr).1

/-- Writing a refund keeps the invariant. -/
theorem invariante_insReembolso (db : BD) (id monto : Nat) (motivo : String)
    (hinv : Invariante db) : Invariante (insReembolso db id monto motivo) :=
  invariante_reescritura db _ (fun r => r) (by simp [insReembolso])
    (fun _ => rfl) (fun _ => rfl) (fun _ h => h) (fun _ h => h) rfl hinv

/-- Marking a payment `reembolsado` keeps the invariant. -/
theorem invariante_updEstadoPagoReembolsado (db : BD) (id : Nat) (hinv : Invariante db) :
    Invariante (updEstadoPagoReembolsado db id) := by
  refine invariante_reescritura db _
    (fun r => if r.id = id then { r with estado_pago := "reembolsado" } else r) rfl ?_ ?_ ?_
    (fun _ h => h) rfl hinv
  · intro r; dsimp only; split <;> rfl
  · intro r; dsimp only; split <;> rfl
  · intro r; dsimp only; split
    · exact fun h => h
    · exact fun h => h

/-- Inserting a reservation whose range passed the date check keeps the invariant. -/
theorem invariante_insertarReserva (db : BD) (req : SolicitudReserva)
    (hlibre : selReservasExistentes db req.habitacion_id
      req.datos_busqueda.entrada req.datos_busqueda.salida = [])
    (hinv : Invariante db) : Invariante (insertarReserva db req) := by
  have hnuevaId : (filaReserva db.sigReservaId req).id = db.sigReservaId := rfl
  have hres : ∀ r ∈ (insertarReserva db req).reservas,
      r ∈ db.reservas ∨ r = filaReserva db.sigReservaId req := by
    intro r hr
    simpa [insertarReserva] using hr
  have hfe : ∀ fr ∈ (insertarReserva db req).fechas_reservadas,
      fr ∈ db.fechas_reservadas ∨ fr ∈ triggerFechasReservadas (filaReserva db.sigReservaId req) := by
    intro fr hfr
    simpa [insertarReserva] using hfr
  have hlt := hinv.frescos.1
  have hltf := hinv.frescos.2
  -- an old night of a confirmed reservation on the requested room is outside the range
  have hfuera : ∀ f ∈ db.fechas_reservadas, ∀ r ∈ db.reservas, r.id = f.reserva_id →
      r.estado = "confirmada" → r.habitacion_id = req.habitacion_id →
      ∀ g ∈ triggerFechasReservadas (filaReserva db.sigReservaId req), f.fecha ≠ g.fecha := by
    intro f hf r hr hid hest hhab g hg heq
    rw [mem_triggerFechasReservadas] at hg
    have hne : selReservasExistentes db req.habitacion_id
        req.datos_busqueda.entrada req.datos_busqueda.salida ≠ [] := by
      rw [selReservasExistentes_ne_nil]
      refine ⟨f, hf, ?_, ⟨r, hr, hid, hest⟩, ?_, ?_⟩
      · rw [← hinv.misma f hf r hr hid, hhab]
      · rw [heq]; exact hg.2.2.1
      · rw [heq]; exact hg.2.2.2
    exact hne hlibre
  constructor
  · constructor
    · intro r hr
      show r.id < db.sigReservaId + 1
      rcases hres r hr with h | h
      · exact Nat.lt_succ_of_lt (hlt r h)
      · rw [h, hnuevaId]; exact Nat.lt_succ_self _
    · intro fr hfr
      show fr.reserva_id < db.sigReservaId + 1
      rcases hfe fr hfr with h | h
      · exact Nat.lt_succ_of_lt (hltf fr h)
      · rw [mem_triggerFechasReservadas] at h
        rw [h.2.1, hnuevaId]; exact Nat.lt_succ_self _
  · intro r1 hr1 r2 hr2 hid
    rcases hres r1 hr1 with h1 | h1 <;> rcases hres r2 hr2 with h2 | h2
    · exact hinv.unica r1 h1 r2 h2 hid
    · have := hlt r1 h1
      rw [h2, hnuevaId] at hid
      omega
    · have := hlt r2 h2
      rw [h1, hnuevaId] at hid
      omega
    · rw [h1, h2]
  · intro fr hfr r hr hid
    rcases hfe fr hfr with h1 | h1 <;> rcases hres r hr with h2 | h2
    · exact hinv.misma fr h1 r h2 hid
    · have := hltf fr h1
      rw [h2, hnuevaId] at hid
      omega
    · have := hlt r h2
      rw [mem_triggerFechasReservadas] at h1
      rw [h1.2.1, hnuevaId] at hid
      omega
    · rw [mem_triggerFechasReservadas] at h1
      rw [h2, h1.1]
  · intro f1 hf1 f2 hf2 r1 hr1 r2 hr2 h1 h2 hne hc1 hc2 hhab
    rcases hres r1 hr1 with a1 | a1 <;> rcases hres r2 hr2 with a2 | a2
    · -- both reservations are old, hence both nights
      have b1 : f1 ∈ db.fechas_reservadas := by
        rcases hfe f1 hf1 with b | b
        · exact b
        · rw [mem_triggerFechasReservadas] at b
          have := hlt r1 a1
          rw [h1, b.2.1, hnuevaId] at this
          omega
      have b2 : f2 ∈ db.fechas_reservadas := by
        rcases hfe f2 hf2 with b | b
        · exact b
        · rw [mem_triggerFechasReservadas] at b
          have := hlt r2 a2
          rw [h2, b.2.1, hnuevaId] at this
          omega
      exact hinv.sinChoque f1 b1 f2 b2 r1 a1 r2 a2 h1 h2 hne hc1 hc2 hhab
    · -- r1 old, r2 the new reservation
      have b1 : f1 ∈ db.fechas_reservadas := by
        rcases hfe f1 hf1 with b | b
        · exact b
        · rw [mem_triggerFechasReservadas] at b
          have := hlt r1 a1
          rw [h1, b.2.1, hnuevaId] at this
          omega
      have b2 : f2 ∈ triggerFechasReservadas (filaReserva db.sigReservaId req) := by
        rcases hfe f2 hf2 with b | b
        · have := hltf f2 b
          rw [← h2, a2, hnuevaId] at this
          omega
        · exact b
      rw [a2] at hhab
      exact hfuera f1 b1 r1 a1 h1 hc1 hhab f2 b2
    · -- r1 the new reservation, r2 old
      have b2 : f2 ∈ db.fechas_reservadas := by
        rcases hfe f2 hf2 with b | b
        · exact b
        · rw [mem_triggerFechasReservadas] at b
          have := hlt r2 a2
          rw [h2, b.2.1, hnuevaId] at this
          omega
      have b1 : f1 ∈ triggerFechasReservadas (filaReserva db.sigReservaId req) := by
        rcases hfe f1 hf1 with b | b
        · have := hltf f1 b
          rw [← h1, a1, hnuevaId] at this
          omega
        · exact b
      rw [a1] at hhab
      exact fun heq => hfuera f2 b2 r2 a2 h2 hc2 hhab.symm f1 b1 heq.symm
    · exact absurd (by rw [a1, a2]) hne

/-- A booking call keeps the invariant, whatever its outcome. -/
theorem invariante_reservasCrear (db : BD) (req : SolicitudReserva)
    (fallo : Option (PasoCrear × String)) (hinv : Invariante db) :
    Invariante (reservasCrear db req fallo).1 := by
  rcases reservasCrear_casos db req fallo with ⟨h, _⟩ | ⟨h, _, _, hlibre, _⟩
  · rw [h]; exact hinv
  · rw [h]; exact invariante_insertarReserva db req hlibre hinv

/-- A cancellation call keeps the invariant, wherever it stops. -/
theorem invariante_reservasCancelar (db : BD) (id : Nat) (motivo : Option String) (hoy : Int)
    (fallo : Option (PasoCancelar × String)) (hinv : Invariante db) :
    Invariante (reservasCancelar db id motivo hoy fallo).1 := by
  have h1 := invariante_updEstadoCancelada db id hinv
  have h2 := invariante_delFechasReservadas _ id h1
  unfold reservasCancelar
  split
  · exact hinv
  split
  · exact hinv
  split
  · exact hinv
  split
  · exact hinv
  split
  · exact hinv
  split
  · exact h1
  split
  · split
    · exact h2
    split
    · exact invariante_insReembolso _ _ _ _ h2
    · exact invariante_updEstadoPagoReembolsado _ _ (invariante_insReembolso _ _ _ _ h2)
  · exact h2

/-- An admin cancellation call keeps the invariant, wherever it stops. -/
theorem invariante_reservasCancelarAdmin (db : BD) (id : Nat) (motivo : Option String)
    (fallo : Option (PasoCancelar × String)) (hinv : Invariante db) :
    Invariante (reservasCancelarAdmin db id motivo fallo).1 := by
  have h1 := invariante_updEstadoCancelada db id hinv
  have h2 := invariante_delFechasReservadas _ id h1
  unfold reservasCancelarAdmin
  split
  · exact hinv
  split
  · exact hinv
  split
  · exact hinv
  split
  · exact h1
  · exact h2

/-- Every call keeps the invariant. -/
theorem invariante_ejecutar (db : BD) (op : Operacion) (hinv : Invariante db) :
    Invariante (ejecutar db op) := by
  cases op with
  | crear req fallo => exact invariante_reservasCrear db req fallo hinv
  | cancelar id motivo hoy fallo => exact invariante_reservasCancelar db id motivo hoy fallo hinv
  | cancelarAdmin id motivo fallo => exact invariante_reservasCancelarAdmin db id motivo fallo hinv

/-- Every reachable state satisfies the invariant. -/
theorem invariante_alcanzable (db : BD) (h : Alcanzable db) : Invariante db := by
  induction h with
  | inicial db hv => exact invariante_vacio db hv
  | paso db op _ ih => exact invariante_ejecutar db op ih

/-- The invariant gives the absence of double booking. -/
theorem sinDobleReserva_de_invariante (db : BD) (hinv : Invariante db) : SinDobleReserva db := by
  intro r1 hr1 r2 hr2 hne hc1 hc2 hhab d hd1 hd2
  simp only [fechasDe, List.mem_map, List.mem_filter, decide_eq_true_eq] at hd1 hd2
  obtain ⟨f1, ⟨hf1, hid1⟩, rfl⟩ := hd1
  obtain ⟨f2, ⟨hf2, hid2⟩, heq⟩ := hd2
  have hids : r1.id ≠ r2.id := fun h => hne (hinv.unica r1 hr1 r2 hr2 h)
  exact hinv.sinChoque f1 hf1 f2 hf2 r1 hr1 r2 hr2 hid1.symm hid2.symm hids hc1 hc2 hhab heq.symm

/-! ## The claims -/

/-- C1 (no double booking).  In every state reachable from an empty calendar by
any sequence of bookings, cancellations and admin cancellations (each with or
without a storage failure), any two distinct confirmed reservations on the same
room have disjoint sets of `fechas_reservadas` dates. -/
theorem c1_sin_doble_reserva (db : BD) (h : Alcanzable db) : SinDobleReserva db :=
  sinDobleReserva_de_invariante db (invariante_alcanzable db h)

/-- Witness of C1: room "101" booked for 2025-06-01 .. 2025-06-03 and then for
2025-06-03 .. 2025-06-06 is a reachable state with two reservations, and it has
no double booking. -/
theorem c1_witness :
    Alcanzable (ejecutar (ejecutar bdInicial (.crear (solicitud 20240 20242 2) none))
        (.crear (solicitud 20242 20245 2) none)) ∧
    (ejecutar (ejecutar bdInicial (.crear (solicitud 20240 20242 2) none))
        (.crear (solicitud 20242 20245 2) none)).reservas.length = 2 ∧
    SinDobleReserva (ejecutar (ejecutar bdInicial (.crear (solicitud 20240 20242 2) none))
        (.crear (solicitud 20242 20245 2) none)) :=
  ⟨.paso _ _ (.paso _ _ (.inicial _ ⟨rfl, rfl⟩)), by decide,
   c1_sin_doble_reserva _ (.paso _ _ (.paso _ _ (.inicial _ ⟨rfl, rfl⟩)))⟩

/-- C2.  Let room X hold a confirmed reservation `r` with interval [e1, s1)
whose nights are all in `fechas_reservadas`, as a successful booking leaves
them.  Every booking request on X whose interval [e2, s2) overlaps it even
partially (`e2 < s1` and `e1 < s2`) is rejected with a conflict error, the
date-conflict error whenever the room is `disponible` and the room-not-available
error otherwise, and whatever the storage does no reservation and no row is
inserted: the state is unchanged.  Capacity and occupant counts are arbitrary.
The intervals are ranges of nights as the data model has them, with
`entrada < salida` (hypotheses `h1` and `h2`): a range without a night holds no
date and overlaps nothing, and what the handler does with such a range is the
subject of C11. -/
theorem c2_solape_rechazado (db : BD) (r : Reserva) (req : SolicitudReserva)
    (hr : r ∈ db.reservas) (hconf : r.estado = "confirmada")
    (hfilas : ∀ d : Int, r.fecha_entrada ≤ d → d < r.fecha_salida →
      ({ habitacion_id := r.habitacion_id, reserva_id := r.id, fecha := d } : FechaReservada)
        ∈ db.fechas_reservadas)
    (hhab : req.habitacion_id = r.habitacion_id)
    (h1 : r.fecha_entrada < r.fecha_salida)
    (h2 : req.datos_busqueda.entrada < req.datos_busqueda.salida)
    (hsol1 : req.datos_busqueda.entrada < r.fecha_salida)
    (hsol2 : r.fecha_entrada < req.datos_busqueda.salida) :
    ((reservasCrear db req none).2 = .error 400 "La habitación ya está reservada en esas fechas"
      ∨ (reservasCrear db req none).2 = .error 400 "Habitación no disponible") ∧
    ((∃ h ∈ db.habitaciones, h.id = req.habitacion_id ∧ h.estado = "disponible") →
      (reservasCrear db req none).2
        = .error 400 "La habitación ya está reservada en esas fechas") ∧
    (∀ fallo, (reservasCrear db req fallo).1 = db) := by
  have hne : selReservasExistentes db req.habitacion_id
      req.datos_busqueda.entrada req.datos_busqueda.salida ≠ [] := by
    rw [selReservasExistentes_ne_nil]
    refine ⟨⟨r.habitacion_id, r.id, max r.fecha_entrada req.datos_busqueda.entrada⟩,
      hfilas _ (le_max_left _ _) (max_lt h1 hsol1), hhab.symm, ⟨r, hr, rfl, hconf⟩,
      le_max_right _ _, max_lt hsol2 h2⟩
  refine ⟨?_, ?_, ?_⟩
  · rcases reservasCrear_none_snd db req with ⟨_, h⟩ | ⟨_, _, h⟩ | ⟨_, h, _⟩
    · right; rw [h]
    · left; rw [h]
    · exact absurd h hne
  · rintro ⟨h, hh, hid, hest⟩
    rcases reservasCrear_none_snd db req with ⟨h0, _⟩ | ⟨_, _, h⟩ | ⟨_, h, _⟩
    · exact absurd h0 (List.ne_nil_of_mem ((mem_selHabitacionDisponible db _ h).2 ⟨hh, hid, hest⟩))
    · rw [h]
    · exact absurd h hne
  · intro fallo
    rcases reservasCrear_casos db req fallo with ⟨h, _⟩ | ⟨_, _, _, h, _⟩
    · exact h
    · exact absurd h hne

/-- Witness of C2: room "101" is booked for 2025-06-01 .. 2025-06-03;
the request for 2025-06-02 .. 2025-06-04 gets the date-conflict error and leaves
the state as it was. -/
theorem c2_witness :
    (reservasCrear bdReservada (solicitud 20241 20243 2) none).2
        = .error 400 "La habitación ya está reservada en esas fechas" ∧
    (∀ fallo, (reservasCrear bdReservada (solicitud 20241 20243 2) fallo).1 = bdReservada) :=
  (c2_solape_rechazado bdReservada (filaReserva 1 (solicitud 20240 20242 2))
    (solicitud 20241 20243 2) (by decide) (by decide)
    (by
      intro d h1 h2
      have hd : d = 20240 ∨ d = 20241 := by
        have e1 : (filaReserva 1 (solicitud 20240 20242 2)).fecha_entrada = 20240 := rfl
        have e2 : (filaReserva 1 (solicitud 20240 20242 2)).fecha_salida = 20242 := rfl
        rw [e1] at h1
        rw [e2] at h2
        omega
      rcases hd with rfl | rfl <;> decide)
    (by decide) (by decide) (by decide) (by decide) (by decide)).2.imp_left
    (fun h => h ⟨hab101, by decide, by decide, by decide⟩)

/-- C3.  For every booking request on a room whose manual status is
`disponible`, the booking is rejected with the date-conflict error if and only
if some `fechas_reservadas` row of that room, owned by a reservation in state
`confirmada`, has a date `d` with `entrada <= d < salida`.  When every row is
owned by non-confirmed reservations only, or belongs to another room, or is
dated `salida` or later (or before `entrada`), the booking is not rejected. -/
theorem c3_conflicto_fechas_iff (db : BD) (req : SolicitudReserva)
    (hd : ∃ h ∈ db.habitaciones, h.id = req.habitacion_id ∧ h.estado = "disponible") :
    ((reservasCrear db req none).2
        = .error 400 "La habitación ya está reservada en esas fechas" ↔
      ∃ fr ∈ db.fechas_reservadas, fr.habitacion_id = req.habitacion_id
        ∧ (∃ r ∈ db.reservas, r.id = fr.reserva_id ∧ r.estado = "confirmada")
        ∧ req.datos_busqueda.entrada ≤ fr.fecha ∧ fr.fecha < req.datos_busqueda.salida) ∧
    ((∀ fr ∈ db.fechas_reservadas,
        (∀ r ∈ db.reservas, r.id = fr.reserva_id → r.estado ≠ "confirmada")
        ∨ fr.habitacion_id ≠ req.habitacion_id
        ∨ req.datos_busqueda.salida ≤ fr.fecha
        ∨ fr.fecha < req.datos_busqueda.entrada) →
      (reservasCrear db req none).2.esError = false) := by
  have hne : selHabitacionDisponible db req.habitacion_id ≠ [] := by
    obtain ⟨h, hh, hid, hest⟩ := hd
    exact List.ne_nil_of_mem ((mem_selHabitacionDisponible db _ h).2 ⟨hh, hid, hest⟩)
  have hiff := selReservasExistentes_ne_nil db req.habitacion_id
    req.datos_busqueda.entrada req.datos_busqueda.salida
  constructor
  · rw [← hiff]
    rcases reservasCrear_none_snd db req with ⟨h0, _⟩ | ⟨_, h1, h2⟩ | ⟨_, h1, _, h3⟩
    · exact absurd h0 hne
    · rw [h2]; simp [h1]
    · constructor
      · intro h; rw [h] at h3; simp [Respuesta.esError] at h3
      · intro h; exact absurd h1 h
  · intro hall
    rcases reservasCrear_none_snd db req with ⟨h0, _⟩ | ⟨_, h1, _⟩ | ⟨_, _, _, h3⟩
    · exact absurd h0 hne
    · exfalso
      obtain ⟨fr, hfr, hid, ⟨r, hr, hrid, hest⟩, he, hs⟩ := hiff.1 h1
      rcases hall fr hfr with h | h | h | h
      · exact h r hr hrid hest
      · exact h hid
      · omega
      · omega
    · exact h3

/-- Witness of C3: with room "101" booked for 20240 .. 20242, the request for
20241 .. 20243 meets the row of 20241 and gets the date-conflict error, and the
request for 20242 .. 20244 meets no row and is accepted. -/
theorem c3_witness :
    (reservasCrear bdReservada (solicitud 20241 20243 2) none).2
        = .error 400 "La habitación ya está reservada en esas fechas" ∧
    (reservasCrear bdReservada (solicitud 20242 20244 2) none).2.esError = false :=
  ⟨(c3_conflicto_fechas_iff bdReservada (solicitud 20241 20243 2)
      ⟨hab101, by decide, by decide, by decide⟩).1.2
      ⟨⟨1, 1, 20241⟩, by decide, by decide,
        ⟨filaReserva 1 (solicitud 20240 20242 2), by decide, by decide, by decide⟩,
        by decide, by decide⟩,
   (c3_conflicto_fechas_iff bdReservada (solicitud 20242 20244 2)
      ⟨hab101, by decide, by decide, by decide⟩).2 (by decide)⟩

/-- C4.  After every successful booking, in a state whose id counter is ahead of
the ids in use, the new reservation has the id `insertId` returned to the
caller, and the `fechas_reservadas` rows it owns are exactly one row
`(habitacion_id, reserva_id, d)` for each date `d` with `entrada <= d < salida`,
and no others: such a row occurs once, any other row of that reservation never. -/
theorem c4_filas_por_noche (db : BD) (req : SolicitudReserva)
    (fallo : Option (PasoCrear × String)) (hids : IdsFrescos db)
    (hok : (reservasCrear db req fallo).2.esError = false) :
    (∃ resumen, (reservasCrear db req fallo).2 = .reservaCreada db.sigReservaId resumen) ∧
    (∀ fr : FechaReservada, fr.reserva_id = db.sigReservaId →
      (reservasCrear db req fallo).1.fechas_reservadas.count fr =
        if fr.habitacion_id = req.habitacion_id
          ∧ req.datos_busqueda.entrada ≤ fr.fecha ∧ fr.fecha < req.datos_busqueda.salida
        then 1 else 0) ∧
    ((reservasCrear db req fallo).1.fechas_reservadas.filter
        (fun fr => fr.reserva_id = db.sigReservaId) =
      (rangoFechas req.datos_busqueda.entrada req.datos_busqueda.salida).map
        (fun d => { habitacion_id := req.habitacion_id, reserva_id := db.sigReservaId,
                    fecha := d })) := by
  rcases reservasCrear_casos db req fallo with ⟨_, h⟩ | ⟨hdb, _, _, _, hres⟩
  · rw [h] at hok; exact absurd hok (by decide)
  · have hviejas : ∀ fr ∈ db.fechas_reservadas, fr.reserva_id ≠ db.sigReservaId :=
      fun fr hfr => Nat.ne_of_lt (hids.2 fr hfr)
    refine ⟨hres, ?_, ?_⟩
    · intro fr hfr
      rw [hdb]
      simp only [insertarReserva, List.count_append]
      rw [List.count_eq_zero_of_not_mem (fun hmem => hviejas fr hmem hfr), Nat.zero_add]
      by_cases hmem : fr ∈ triggerFechasReservadas (filaReserva db.sigReservaId req)
      · rw [List.count_eq_one_of_mem (nodup_triggerFechasReservadas _) hmem]
        rw [mem_triggerFechasReservadas] at hmem
        rw [if_pos ⟨hmem.1, hmem.2.2⟩]
      · rw [List.count_eq_zero_of_not_mem hmem]
        rw [mem_triggerFechasReservadas] at hmem
        rw [if_neg]
        rintro ⟨h1, h2⟩
        exact hmem ⟨h1, hfr, h2⟩
    · rw [hdb]
      simp only [insertarReserva, List.filter_append]
      have h1 : db.fechas_reservadas.filter (fun fr => fr.reserva_id = db.sigReservaId) = [] := by
        rw [List.filter_eq_nil_iff]
        intro fr hfr
        simpa using hviejas fr hfr
      have h2 : (triggerFechasReservadas (filaReserva db.sigReservaId req)).filter
          (fun fr => fr.reserva_id = db.sigReservaId)
          = triggerFechasReservadas (filaReserva db.sigReservaId req) := by
        rw [List.filter_eq_self]
        intro fr hfr
        rw [mem_triggerFechasReservadas] at hfr
        simpa using hfr.2.1
      rw [h1, h2]
      rfl

/-- Witness of C4: booking room "101" for 2025-06-01 .. 2025-06-03 (day numbers
20240 .. 20242) yields exactly the rows of 2025-06-01 and 2025-06-02. -/
theorem c4_witness :
    IdsFrescos bdInicial ∧
    (reservasCrear bdInicial (solicitud 20240 20242 2) none).2.esError = false ∧
    (reservasCrear bdInicial (solicitud 20240 20242 2) none).1.fechas_reservadas.filter
        (fun fr => fr.reserva_id = 1) =
      [{ habitacion_id := 1, reserva_id := 1, fecha := 20240 },
       { habitacion_id := 1, reserva_id := 1, fecha := 20241 }] :=
  ⟨⟨by decide, by decide⟩, by decide,
   (c4_filas_por_noche bdInicial (solicitud 20240 20242 2) none
      ⟨by decide, by decide⟩ (by decide)).2.2⟩

/-- C5.  For every booking request whose `habitacion_id` names no room, or names
a room whose manual status is not `disponible`, the booking is rejected with the
room-not-available error ("Habitación no disponible"), and whatever the storage
does the state is unchanged: no reservation and no `fechas_reservadas` row is
inserted. -/
theorem c5_habitacion_no_disponible (db : BD) (req : SolicitudReserva)
    (hno : ∀ h ∈ db.habitaciones, h.id = req.habitacion_id → h.estado ≠ "disponible") :
    reservasCrear db req none = (db, .error 400 "Habitación no disponible") ∧
    (∀ fallo, (reservasCrear db req fallo).1 = db) := by
  have h0 : selHabitacionDisponible db req.habitacion_id = [] :=
    (selHabitacionDisponible_eq_nil db _).2 hno
  constructor
  · rcases reservasCrear_none_snd db req with ⟨_, h⟩ | ⟨h, _⟩ | ⟨h, _⟩
    · exact h
    · exact absurd h0 h
    · exact absurd h0 h
  · intro fallo
    rcases reservasCrear_casos db req fallo with ⟨h, _⟩ | ⟨_, _, h, _⟩
    · exact h
    · exact absurd h0 h

/-- Witness of C5: a booking of room "101" while it is flagged `ocupada` is
rejected with the room-not-available error. -/
theorem c5_witness :
    reservasCrear bdOcupada (solicitud 20240 20242 2) none
      = (bdOcupada, .error 400 "Habitación no disponible") :=
  (c5_habitacion_no_disponible bdOcupada (solicitud 20240 20242 2) (by decide)).1

/-- C6 (the code at the failing input).  Room "101" has capacity 2, is
`disponible` and has a free calendar; the booking request for 3 adults is not
answered with the room-not-available error: the handler never reads
`capacidad`, the booking is accepted and a reservation for 3 adults is
inserted.  The search handler does compare the occupants with the capacity: its
answer for the same dates and 3 adults lists no room. -/
theorem c6_capacidad_excedida_aceptada :
    hab101 ∈ bdInicial.habitaciones ∧ hab101.id = (solicitud 20240 20242 3).habitacion_id ∧
    hab101.capacidad = 2 ∧
    hab101.capacidad < (solicitud 20240 20242 3).datos_busqueda.adultos
      + (solicitud 20240 20242 3).datos_busqueda.ninos.getD 0 ∧
    (reservasCrear bdInicial (solicitud 20240 20242 3) none).2
      ≠ .error 400 "Habitación no disponible" ∧
    (reservasCrear bdInicial (solicitud 20240 20242 3) none).2.esError = false ∧
    (reservasCrear bdInicial (solicitud 20240 20242 3) none).1.reservas.map (fun r => r.adultos)
      = [3] ∧
    habitacionesDisponibles bdInicial busquedaTresAdultos none = .habitaciones [] := by
  decide

/-- Counterexample to C7 as stated: the caller sends the payment state
`pendiente`, the booking succeeds, and the inserted reservation has the payment
state `completado`. -/
theorem c7_contraejemplo :
    solicitudPendiente.estado_pago = some "pendiente" ∧
    (reservasCrear bdInicial solicitudPendiente none).2.esError = false ∧
    (reservasCrear bdInicial solicitudPendiente none).1.reservas.map (fun r => r.estado_pago)
      = ["completado"] := by
  decide

/-- C7 (amended).  Every successful booking inserts exactly one reservation, for
the requested room, dates, occupant counts (`ninos` defaulting to 0), total and
payment id, under the next id, whose status is `confirmada` and whose payment
status is `completado`, whatever the caller supplies. -/
theorem c7_reserva_insertada (db : BD) (req : SolicitudReserva)
    (fallo : Option (PasoCrear × String))
    (hok : (reservasCrear db req fallo).2.esError = false) :
    ∃ r : Reserva, (reservasCrear db req fallo).1.reservas = db.reservas ++ [r]
      ∧ (reservasCrear db req fallo).2.esError = false
      ∧ r.id = db.sigReservaId
      ∧ r.habitacion_id = req.habitacion_id
      ∧ r.fecha_entrada = req.datos_busqueda.entrada
      ∧ r.fecha_salida = req.datos_busqueda.salida
      ∧ r.adultos = req.datos_busqueda.adultos
      ∧ r.ninos = req.datos_busqueda.ninos.getD 0
      ∧ r.total = req.total
      ∧ r.pago_id = req.pago_id
      ∧ r.estado = "confirmada"
      ∧ r.estado_pago = "completado" := by
  rcases reservasCrear_casos db req fallo with ⟨_, h⟩ | ⟨hdb, _⟩
  · rw [h] at hok; exact absurd hok (by decide)
  · refine ⟨filaReserva db.sigReservaId req, ?_, hok, rfl, rfl, rfl, rfl, rfl, rfl, rfl, rfl, rfl, rfl⟩
    rw [hdb]
    rfl

/-- Witness of C7 (amended): the booking of room "101" inserts one reservation,
`confirmada` and `completado`. -/
theorem c7_witness :
    (reservasCrear bdInicial solicitudPendiente none).2.esError = false ∧
    ∃ r : Reserva, (reservasCrear bdInicial solicitudPendiente none).1.reservas = [] ++ [r]
      ∧ r.estado = "confirmada" ∧ r.estado_pago = "completado" := by
  refine ⟨by decide, ?_⟩
  obtain ⟨r, h1, _, _, _, _, _, _, _, _, _, h2, h3⟩ :=
    c7_reserva_insertada bdInicial solicitudPendiente none (by decide)
  exact ⟨r, h1, h2, h3⟩

/-- C8.  For every state, every booking request and every storage failure, the
rooms table after the call equals the rooms table before it, whether the booking
succeeds or is rejected; so the manual status of the booked room is unchanged. -/
theorem c8_habitaciones_intactas (db : BD) (req : SolicitudReserva)
    (fallo : Option (PasoCrear × String)) :
    (reservasCrear db req fallo).1.habitaciones = db.habitaciones := by
  rcases reservasCrear_casos db req fallo with ⟨h, _⟩ | ⟨h, _⟩
  · rw [h]
  · rw [h]; rfl

/-- C9.  For every state and every booking request that returns an error (room
not available, date conflict, or a storage failure in any step), the tables
`reservas` and `fechas_reservadas` after the call equal those before it. -/
theorem c9_error_sin_cambios (db : BD) (req : SolicitudReserva)
    (fallo : Option (PasoCrear × String))
    (herr : (reservasCrear db req fallo).2.esError = true) :
    (reservasCrear db req fallo).1.reservas = db.reservas ∧
    (reservasCrear db req fallo).1.fechas_reservadas = db.fechas_reservadas := by
  rcases reservasCrear_casos db req fallo with ⟨h, _⟩ | ⟨_, h, _⟩
  · rw [h]; exact ⟨rfl, rfl⟩
  · rw [h] at herr; exact absurd herr (by decide)

/-- Witness of C9: the commit of an otherwise acceptable booking fails; the call
answers with an error and both tables are as before. -/
theorem c9_witness :
    (reservasCrear bdReservada (solicitud 20242 20244 2) (some (.confirmar, "deadlock"))).2.esError
      = true ∧
    (reservasCrear bdReservada (solicitud 20242 20244 2) (some (.confirmar, "deadlock"))).1.reservas
      = bdReservada.reservas ∧
    (reservasCrear bdReservada (solicitud 20242 20244 2)
      (some (.confirmar, "deadlock"))).1.fechas_reservadas = bdReservada.fechas_reservadas :=
  ⟨by decide, c9_error_sin_cambios bdReservada (solicitud 20242 20244 2)
    (some (.confirmar, "deadlock")) (by decide)⟩

/-- C10.  For every availability search in which `entrada` or `salida` is
missing, or in which `salida <= entrada`, the result is an error with HTTP status
400, and no room list is returned. -/
theorem c10_busqueda_validacion (db : BD) (req : SolicitudBusqueda) (fallo : Option String)
    (hinv : req.entrada = none ∨ req.salida = none ∨
      ∃ e s, req.entrada = some e ∧ req.salida = some s ∧ s ≤ e) :
    (∃ m, habitacionesDisponibles db req fallo = .error 400 m) ∧
    (∀ data, habitacionesDisponibles db req fallo ≠ .habitaciones data) := by
  have key : ∃ m, habitacionesDisponibles db req fallo = .error 400 m := by
    unfold habitacionesDisponibles
    rcases hinv with h | h | ⟨e, s, he, hs, hle⟩
    · rw [h]; exact ⟨_, rfl⟩
    · rw [h]
      cases req.entrada <;> exact ⟨_, rfl⟩
    · rw [he, hs]
      simp only [hle, if_true]
      exact ⟨_, rfl⟩
  refine ⟨key, ?_⟩
  obtain ⟨m, hm⟩ := key
  intro data
  rw [hm]
  exact fun h => Respuesta.noConfusion h

/-- Witness of C10: a search whose salida is the day before its entrada gets a
400. -/
theorem c10_witness :
    (∃ e s, busquedaInvertida.entrada = some e ∧ busquedaInvertida.salida = some s ∧ s ≤ e) ∧
    (∃ m, habitacionesDisponibles bdInicial busquedaInvertida none = .error 400 m) :=
  ⟨⟨20242, 20241, rfl, rfl, by decide⟩,
   (c10_busqueda_validacion bdInicial busquedaInvertida none
      (Or.inr (Or.inr ⟨20242, 20241, rfl, rfl, by decide⟩))).1⟩

/-! ## The search, the cancellation and the refund ledger -/

/-- Inserting a room by price adds that room and nothing else. -/
theorem perm_insertarPorPrecio (h : Habitacion) (l : List Habitacion) :
    List.Perm (insertarPorPrecio h l) (h :: l) := by
  induction l with
  | nil => exact List.Perm.refl _
  | cons x xs ih =>
    unfold insertarPorPrecio
    split
    · exact List.Perm.refl _
    · exact (List.Perm.cons x ih).trans (List.Perm.swap h x xs)

/-- Ordering by price keeps the rooms, each as often as before. -/
theorem perm_ordenarPorPrecio (l : List Habitacion) : List.Perm (ordenarPorPrecio l) l := by
  induction l with
  | nil => exact List.Perm.refl _
  | cons x xs ih =>
    show List.Perm (insertarPorPrecio x (ordenarPorPrecio xs)) (x :: xs)
    exact (perm_insertarPorPrecio x _).trans (List.Perm.cons x ih)

/-- Inserting a room by price into an ordered list gives an ordered list. -/
theorem pairwise_insertarPorPrecio (h : Habitacion) (l : List Habitacion)
    (hl : l.Pairwise (fun a b => a.precio ≤ b.precio)) :
    (insertarPorPrecio h l).Pairwise (fun a b => a.precio ≤ b.precio) := by
  induction l with
  | nil => simp [insertarPorPrecio]
  | cons x xs ih =>
    unfold insertarPorPrecio
    rw [List.pairwise_cons] at hl
    split
    · rename_i hlt
      refine List.Pairwise.cons ?_ (List.Pairwise.cons hl.1 hl.2)
      intro b hb
      rcases List.mem_cons.1 hb with rfl | hb
      · exact Nat.le_of_lt hlt
      · exact Nat.le_trans (Nat.le_of_lt hlt) (hl.1 b hb)
    · rename_i hge
      refine List.Pairwise.cons ?_ (ih hl.2)
      intro b hb
      rcases List.mem_cons.1 ((perm_insertarPorPrecio h xs).mem_iff.1 hb) with rfl | hb
      · exact Nat.le_of_not_lt hge
      · exact hl.1 b hb

/-- The result of ordering by price is ordered by price. -/
theorem pairwise_ordenarPorPrecio (l : List Habitacion) :
    (ordenarPorPrecio l).Pairwise (fun a b => a.precio ≤ b.precio) := by
  induction l with
  | nil => exact List.Pairwise.nil
  | cons x xs ih => exact pairwise_insertarPorPrecio x _ ih

/-- The rooms found by the subquery of the search: those with a night of the range held by a confirmed reservation. -/
theorem mem_selHabitacionesOcupadas (db : BD) (entrada salida : Int) (id : Nat) :
    id ∈ selHabitacionesOcupadas db entrada salida ↔
      ∃ fr ∈ db.fechas_reservadas, fr.habitacion_id = id
        ∧ (∃ r ∈ db.reservas, r.id = fr.reserva_id ∧ r.estado = "confirmada")
        ∧ entrada ≤ fr.fecha ∧ fr.fecha < salida := by
  simp only [selHabitacionesOcupadas, List.mem_map, List.mem_filter, decide_eq_true_eq,
    mem_fechasJoinReservas]
  constructor
  · rintro ⟨⟨fr, r⟩, ⟨⟨hfr, hr, hid⟩, hest, h1, h2⟩, rfl⟩
    exact ⟨fr, hfr, rfl, ⟨r, hr, hid.symm, hest⟩, h1, h2⟩
  · rintro ⟨fr, hfr, rfl, ⟨r, hr, hid, hest⟩, h1, h2⟩
    exact ⟨(fr, r), ⟨⟨hfr, hr, hid.symm⟩, hest, h1, h2⟩, rfl⟩

/-- Membership in the result of the query of the cancellation handlers. -/
theorem mem_selReservaConHabitacion (db : BD) (id : Nat) (p : Reserva × Habitacion) :
    p ∈ selReservaConHabitacion db id ↔
      p.1 ∈ db.reservas ∧ p.2 ∈ db.habitaciones ∧ p.1.habitacion_id = p.2.id ∧ p.1.id = id := by
  obtain ⟨r, h⟩ := p
  simp only [selReservaConHabitacion, List.mem_filter, List.mem_flatMap, List.mem_map,
    decide_eq_true_eq, Prod.mk.injEq]
  constructor
  · rintro ⟨⟨a, ha, b, ⟨hb, hab⟩, rfl, rfl⟩, hid⟩
    exact ⟨ha, hb, hab, hid⟩
  · rintro ⟨ha, hb, hab, hid⟩
    exact ⟨⟨r, ha, h, ⟨hb, hab⟩, rfl, rfl⟩, hid⟩

/-- The reservation found by the cancellation handlers, when the id names one
row of `reservas` whose room exists. -/
theorem selReservaConHabitacion_cabeza (db : BD) (id : Nat) (r : Reserva)
    (hr : r ∈ db.reservas) (hid : r.id = id)
    (hunica : ∀ r2 ∈ db.reservas, r2.id = id → r2 = r)
    (hhab : ∃ h ∈ db.habitaciones, h.id = r.habitacion_id) :
    ∃ h resto, selReservaConHabitacion db id = (r, h) :: resto := by
  obtain ⟨h, hh, hhid⟩ := hhab
  have hmem : (r, h) ∈ selReservaConHabitacion db id :=
    (mem_selReservaConHabitacion db id (r, h)).2 ⟨hr, hh, hhid.symm, hid⟩
  cases hsel : selReservaConHabitacion db id with
  | nil => rw [hsel] at hmem; cases hmem
  | cons p resto =>
    obtain ⟨r2, h2⟩ := p
    have hp : (r2, h2) ∈ selReservaConHabitacion db id := by rw [hsel]; exact List.mem_cons_self _ _
    rw [mem_selReservaConHabitacion] at hp
    have : r2 = r := hunica r2 hp.1 hp.2.2.2
    subst this
    exact ⟨h2, resto, rfl⟩

/-- The outcome of a cancellation call without storage failure, once the
reservation is found. -/
theorem reservasCancelar_none (db : BD) (id : Nat) (motivo : Option String) (hoy : Int)
    (reserva : Reserva) (h : Habitacion) (resto : List (Reserva × Habitacion))
    (hsel : selReservaConHabitacion db id = (reserva, h) :: resto) :
    reservasCancelar db id motivo hoy none =
      if reserva.estado = "cancelada" then (db, .error 400 "La reserva ya está cancelada")
      else if diferenciaDias (reserva.fecha_entrada * msPorDia) hoy ≤ 0 then
        (db, .error 400 "No se puede cancelar una reserva el mismo día del check-in o después")
      else if reserva.estado_pago = "completado" then
        (updEstadoPagoReembolsado
            (insReembolso (delFechasReservadas (updEstadoCancelada db id) id) id reserva.total
              (oPorDefecto motivo "Cancelación voluntaria")) id,
          .cancelada (some (reserva.total, oPorDefecto motivo "Cancelación voluntaria")))
      else (delFechasReservadas (updEstadoCancelada db id) id, .cancelada none) := by
  unfold reservasCancelar
  simp only [falla_none, Bool.false_eq_true, if_false, hsel]

/-- A cancellation call that leaves the state as it was answers with an error
when the reservation is already cancelled, whatever the storage does. -/
theorem reservasCancelar_ya_cancelada (db : BD) (id : Nat) (motivo : Option String) (hoy : Int)
    (fallo : Option (PasoCancelar × String))
    (reserva : Reserva) (h : Habitacion) (resto : List (Reserva × Habitacion))
    (hsel : selReservaConHabitacion db id = (reserva, h) :: resto)
    (hcan : reserva.estado = "cancelada") :
    (reservasCancelar db id motivo hoy fallo).1 = db := by
  unfold reservasCancelar
  split
  · rfl
  · simp only [hsel, hcan, if_true]

/-- A successful cancellation: what was found and what was written. -/
theorem reservasCancelar_exito (db : BD) (id : Nat) (motivo : Option String) (hoy : Int)
    (fallo : Option (PasoCancelar × String)) (x : Option (Nat × String))
    (hok : (reservasCancelar db id motivo hoy fallo).2 = .cancelada x) :
    ∃ reserva h resto, selReservaConHabitacion db id = (reserva, h) :: resto
      ∧ reserva.estado ≠ "cancelada"
      ∧ 0 < diferenciaDias (reserva.fecha_entrada * msPorDia) hoy
      ∧ ((reserva.estado_pago = "completado"
          ∧ (reservasCancelar db id motivo hoy fallo).1 =
            updEstadoPagoReembolsado
              (insReembolso (delFechasReservadas (updEstadoCancelada db id) id) id reserva.total
                (oPorDefecto motivo "Cancelación voluntaria")) id
          ∧ x = some (reserva.total, oPorDefecto motivo "Cancelación voluntaria"))
        ∨ (reserva.estado_pago ≠ "completado"
          ∧ (reservasCancelar db id motivo hoy fallo).1
              = delFechasReservadas (updEstadoCancelada db id) id
          ∧ x = none)) := by
  unfold reservasCancelar at hok ⊢
  split at hok
  · simp [errorCancelar] at hok
  rename_i hf0
  simp only [hf0, if_false]
  split at hok
  · simp at hok
  rename_i reserva h resto hsel
  simp only [hsel]
  refine ⟨reserva, h, resto, rfl, ?_⟩
  split at hok
  · simp at hok
  rename_i hcan
  split at hok
  · simp at hok
  rename_i hdif
  split at hok
  · simp [errorCancelar] at hok
  rename_i hf1
  split at hok
  · simp [errorCancelar] at hok
  rename_i hf2
  simp only [hcan, hdif, hf1, hf2, if_false]
  refine ⟨hcan, by omega, ?_⟩
  split at hok
  · rename_i hcomp
    split at hok
    · simp [errorCancelar] at hok
    rename_i hf3
    split at hok
    · simp [errorCancelar] at hok
    rename_i hf4
    left
    refine ⟨hcomp, by simp [hcomp, hf3, hf4], ?_⟩
    simp only [Respuesta.cancelada.injEq] at hok
    exact hok.symm
  · rename_i hcomp
    right
    refine ⟨hcomp, by simp [hcomp], ?_⟩
    simp only [Respuesta.cancelada.injEq] at hok
    exact hok.symm

/-- The day difference is at most zero exactly from the start of the entrada date on. -/
theorem diferenciaDias_le_zero (fechaEntrada hoy : Int) :
    diferenciaDias fechaEntrada hoy ≤ 0 ↔ fechaEntrada ≤ hoy := by
  unfold diferenciaDias msPorDia
  omega

/-- An instant is at or after the start of a day exactly when its own day is that day or a later one. -/
theorem inicio_del_dia_le (fecha hoy : Int) :
    fecha * msPorDia ≤ hoy ↔ fecha ≤ hoy / msPorDia := by
  unfold msPorDia
  omega

/-- Rewriting the rows of one id leaves the rows of the other ids as they were. -/
theorem filter_map_otras (id : Nat) (g : Reserva → Reserva)
    (hgid : ∀ r, (g r).id = r.id) (hg : ∀ r, r.id ≠ id → g r = r) (l : List Reserva) :
    (l.map g).filter (fun r => ¬ r.id = id) = l.filter (fun r => ¬ r.id = id) := by
  induction l with
  | nil => rfl
  | cons a l ih =>
    by_cases ha : a.id = id
    · have hga : (g a).id = id := by rw [hgid]; exact ha
      simp only [List.map_cons, List.filter_cons, ha, hga, not_true_eq_false, decide_False,
        Bool.false_eq_true, if_false]
      exact ih
    · rw [List.map_cons, hg a ha]
      simp only [List.filter_cons, ha, not_false_eq_true, decide_True, if_true]
      rw [ih]

/-- The tables after a successful cancellation: the rows of the cancelled id are
rewritten and `cancelada`, and its nights are deleted. -/
theorem reservasCancelar_exito_tablas (db : BD) (id : Nat) (motivo : Option String) (hoy : Int)
    (fallo : Option (PasoCancelar × String)) (x : Option (Nat × String))
    (hok : (reservasCancelar db id motivo hoy fallo).2 = .cancelada x) :
    ∃ g : Reserva → Reserva,
      (reservasCancelar db id motivo hoy fallo).1.reservas = db.reservas.map g
      ∧ (∀ r, (g r).id = r.id)
      ∧ (∀ r, r.id ≠ id → g r = r)
      ∧ (∀ r, r.id = id → (g r).estado = "cancelada")
      ∧ (reservasCancelar db id motivo hoy fallo).1.fechas_reservadas
          = db.fechas_reservadas.filter (fun fr => ¬ fr.reserva_id = id) := by
  obtain ⟨reserva, h, resto, _, _, _, hcaso⟩ := reservasCancelar_exito db id motivo hoy fallo x hok
  rcases hcaso with ⟨_, hdb, _⟩ | ⟨_, hdb, _⟩
  · refine ⟨fun r => (fun r2 : Reserva =>
        if r2.id = id then { r2 with estado_pago := "reembolsado" } else r2)
        (if r.id = id then { r with estado := "cancelada" } else r), ?_, ?_, ?_, ?_, ?_⟩
    · rw [hdb]
      simp only [updEstadoPagoReembolsado, insReembolso, delFechasReservadas,
        updEstadoCancelada, List.map_map]
      rfl
    · intro r; by_cases hr : r.id = id <;> simp [hr]
    · intro r hr; dsimp only; rw [if_neg hr, if_neg hr]
    · intro r hr; dsimp only; rw [if_pos hr, if_pos hr]
    · rw [hdb]; rfl
  · refine ⟨fun r => if r.id = id then { r with estado := "cancelada" } else r, ?_, ?_, ?_, ?_, ?_⟩
    · rw [hdb]; rfl
    · intro r; dsimp only; split <;> rfl
    · intro r hr; dsimp only; rw [if_neg hr]
    · intro r hr; dsimp only; rw [if_pos hr]
    · rw [hdb]; rfl

/-- A state without refund records whose id counter is ahead of its reservations satisfies the refund invariant. -/
theorem reembolsos_inicio (db : BD) (h0 : db.reembolsos = [])
    (hids : ∀ r ∈ db.reservas, r.id < db.sigReservaId) : InvarianteReembolsos db := by
  constructor
  · exact hids
  · intro e he; rw [h0] at he; cases he
  · intro e he; rw [h0] at he; cases he
  · intro id; simp [reembolsosDe, h0]

/-- A statement that rewrites rows of `reservas` without touching their id,
reopens no cancelled reservation and writes no refund keeps the refund
invariant. -/
theorem reembolsos_reescritura (db db2 : BD) (g : Reserva → Reserva)
    (hres : db2.reservas = db.reservas.map g)
    (hgid : ∀ r, (g r).id = r.id)
    (hgest : ∀ r, r.estado = "cancelada" → (g r).estado = "cancelada")
    (hre : db2.reembolsos = db.reembolsos)
    (hsig : db2.sigReservaId = db.sigReservaId)
    (hinv : InvarianteReembolsos db) : InvarianteReembolsos db2 := by
  constructor
  · intro r hr
    rw [hres, List.mem_map] at hr
    obtain ⟨a, ha, rfl⟩ := hr
    rw [hgid, hsig]
    exact hinv.frescos a ha
  · intro e he
    rw [hre] at he
    rw [hsig]
    exact hinv.reembolsoFresco e he
  · intro e he r hr hid
    rw [hre] at he
    rw [hres, List.mem_map] at hr
    obtain ⟨a, ha, rfl⟩ := hr
    rw [hgid] at hid
    exact hgest a (hinv.cancelada e he a ha hid)
  · intro id
    have : reembolsosDe db2 id = reembolsosDe db id := by
      unfold reembolsosDe; rw [hre]
    rw [this]
    exact hinv.unico id

/-- Marking a reservation `cancelada` keeps the refund invariant. -/
theorem reembolsos_updEstadoCancelada (db : BD) (id : Nat) (hinv : InvarianteReembolsos db) :
    InvarianteReembolsos (updEstadoCancelada db id) := by
  refine reembolsos_reescritura db _
    (fun r => if r.id = id then { r with estado := "cancelada" } else r) rfl ?_ ?_ rfl rfl hinv
  · intro r; dsimp only; split <;> rfl
  · intro r hr; dsimp only; split
    · rfl
    · exact hr

/-- Deleting the nights of a reservation keeps the refund invariant. -/
theorem reembolsos_delFechasReservadas (db : BD) (id : Nat) (hinv : InvarianteReembolsos db) :
    InvarianteReembolsos (delFechasReservadas db id) :=
  reembolsos_reescritura db _ (fun r => r) (by simp [delFechasReservadas])
    (fun _ => rfl) (fun _ h => h) rfl rfl hinv

/-- Marking a payment `reembolsado` keeps the refund invariant. -/
theorem reembolsos_updEstadoPagoReembolsado (db : BD) (id : Nat)
    (hinv : InvarianteReembolsos db) : InvarianteReembolsos (updEstadoPagoReembolsado db id) := by
  refine reembolsos_reescritura db _
    (fun r => if r.id = id then { r with estado_pago := "reembolsado" } else r) rfl ?_ ?_
    rfl rfl hinv
  · intro r; dsimp only; split <;> rfl
  · intro r hr; dsimp only; split
    · exact hr
    · exact hr

/-- Inserting a reservation under the next id keeps the refund invariant. -/
theorem reembolsos_insertarReserva (db : BD) (req : SolicitudReserva)
    (hinv : InvarianteReembolsos db) : InvarianteReembolsos (insertarReserva db req) := by
  have hres : ∀ r ∈ (insertarReserva db req).reservas,
      r ∈ db.reservas ∨ r = filaReserva db.sigReservaId req := by
    intro r hr
    simpa [insertarReserva] using hr
  constructor
  · intro r hr
    show r.id < db.sigReservaId + 1
    rcases hres r hr with h | h
    · exact Nat.lt_succ_of_lt (hinv.frescos r h)
    · rw [h]; exact Nat.lt_succ_self _
  · intro e he
    exact Nat.lt_succ_of_lt (hinv.reembolsoFresco e he)
  · intro e he r hr hid
    rcases hres r hr with h | h
    · exact hinv.cancelada e he r h hid
    · have h1 := hinv.reembolsoFresco e he
      rw [← hid, h] at h1
      exact absurd h1 (Nat.lt_irrefl _)
  · exact hinv.unico

/-- Writing the refund of a reservation that has none, all of whose rows are
`cancelada`, keeps the refund invariant. -/
theorem reembolsos_insReembolso (db : BD) (id monto : Nat) (motivo : String)
    (hid : id < db.sigReservaId)
    (hcan : ∀ r ∈ db.reservas, r.id = id → r.estado = "cancelada")
    (hnin : ∀ e ∈ db.reembolsos, e.reserva_id ≠ id)
    (hinv : InvarianteReembolsos db) : InvarianteReembolsos (insReembolso db id monto motivo) := by
  have hre : ∀ e ∈ (insReembolso db id monto motivo).reembolsos, e ∈ db.reembolsos
      ∨ e = { reserva_id := id, monto_reembolsado := monto, motivo := motivo } := by
    intro e he
    simpa [insReembolso] using he
  constructor
  · exact hinv.frescos
  · intro e he
    rcases hre e he with h | h
    · exact hinv.reembolsoFresco e h
    · rw [h]; exact hid
  · intro e he r hr hre2
    rcases hre e he with h | h
    · exact hinv.cancelada e h r hr hre2
    · rw [h] at hre2
      exact hcan r hr hre2
  · intro id2
    show ((db.reembolsos ++ [_]).filter _).length ≤ 1
    rw [List.filter_append, List.length_append]
    by_cases h2 : id2 = id
    · subst h2
      have : db.reembolsos.filter (fun e => e.reserva_id = id2) = [] := by
        rw [List.filter_eq_nil_iff]
        intro e he
        simpa using hnin e he
      rw [this]
      simp only [List.length_nil, Nat.zero_add]
      exact List.length_filter_le _ _
    · have : ([({ reserva_id := id, monto_reembolsado := monto, motivo := motivo } : Reembolso)]).filter
          (fun e => e.reserva_id = id2) = [] := by
        simp [List.filter_cons, Ne.symm h2]
      rw [this]
      exact hinv.unico id2

/-- A booking call keeps the refund invariant. -/
theorem reembolsos_reservasCrear (db : BD) (req : SolicitudReserva)
    (fallo : Option (PasoCrear × String)) (hinv : InvarianteReembolsos db) :
    InvarianteReembolsos (reservasCrear db req fallo).1 := by
  rcases reservasCrear_casos db req fallo with ⟨h, _⟩ | ⟨h, _⟩
  · rw [h]; exact hinv
  · rw [h]; exact reembolsos_insertarReserva db req hinv

/-- A cancellation call keeps the refund invariant, wherever it stops: the refund is written only for a reservation that was not `cancelada`, hence had none. -/
theorem reembolsos_reservasCancelar (db : BD) (id : Nat) (motivo : Option String) (hoy : Int)
    (fallo : Option (PasoCancelar × String)) (hinv : InvarianteReembolsos db) :
    InvarianteReembolsos (reservasCancelar db id motivo hoy fallo).1 := by
  have h1 := reembolsos_updEstadoCancelada db id hinv
  have h2 := reembolsos_delFechasReservadas _ id h1
  unfold reservasCancelar
  split
  · exact hinv
  split
  · exact hinv
  rename_i reserva h resto hsel
  have hmem : (reserva, h) ∈ selReservaConHabitacion db id := by
    rw [hsel]; exact List.mem_cons_self _ _
  rw [mem_selReservaConHabitacion] at hmem
  split
  · exact hinv
  rename_i hno
  split
  · exact hinv
  split
  · exact hinv
  split
  · exact h1
  have h3 : InvarianteReembolsos
      (insReembolso (delFechasReservadas (updEstadoCancelada db id) id) id reserva.total
        (oPorDefecto motivo "Cancelación voluntaria")) := by
    apply reembolsos_insReembolso _ _ _ _ _ _ _ h2
    · have := hinv.frescos reserva hmem.1
      rw [hmem.2.2.2] at this
      exact this
    · intro r hr hid
      have hr2 : r ∈ (updEstadoCancelada db id).reservas := hr
      simp only [updEstadoCancelada, List.mem_map] at hr2
      obtain ⟨a, _, rfl⟩ := hr2
      by_cases ha : a.id = id
      · simp [ha]
      · simp [ha] at hid
    · intro e he heid
      have he2 : e ∈ db.reembolsos := he
      exact hno (hinv.cancelada e he2 reserva hmem.1 (by rw [heid, hmem.2.2.2]))
  split
  · split
    · exact h2
    split
    · exact h3
    · exact reembolsos_updEstadoPagoReembolsado _ _ h3
  · exact h2

/-- An admin cancellation call keeps the refund invariant. -/
theorem reembolsos_reservasCancelarAdmin (db : BD) (id : Nat) (motivo : Option String)
    (fallo : Option (PasoCancelar × String)) (hinv : InvarianteReembolsos db) :
    InvarianteReembolsos (reservasCancelarAdmin db id motivo fallo).1 := by
  have h1 := reembolsos_updEstadoCancelada db id hinv
  have h2 := reembolsos_delFechasReservadas _ id h1
  unfold reservasCancelarAdmin
  split
  · exact hinv
  split
  · exact hinv
  split
  · exact hinv
  split
  · exact h1
  · exact h2

/-- Every call keeps the refund invariant. -/
theorem reembolsos_ejecutar (db : BD) (op : Operacion) (hinv : InvarianteReembolsos db) :
    InvarianteReembolsos (ejecutar db op) := by
  cases op with
  | crear req fallo => exact reembolsos_reservasCrear db req fallo hinv
  | cancelar id motivo hoy fallo => exact reembolsos_reservasCancelar db id motivo hoy fallo hinv
  | cancelarAdmin id motivo fallo => exact reembolsos_reservasCancelarAdmin db id motivo fallo hinv

/-- The refund invariant holds in every state reachable from one where it holds. -/
theorem reembolsos_alcanzable (db0 db : BD) (h0 : InvarianteReembolsos db0)
    (h : AlcanzableDe db0 db) : InvarianteReembolsos db := by
  induction h with
  | inicio => exact h0
  | paso db op _ ih => exact reembolsos_ejecutar db op ih

/-- Every call keeps the refund records already written, in their order, and
writes nothing before them. -/
theorem reembolsos_solo_crecen (db : BD) (op : Operacion) :
    ∃ nuevos, (ejecutar db op).reembolsos = db.reembolsos ++ nuevos := by
  cases op with
  | crear req fallo =>
    refine ⟨[], ?_⟩
    rw [List.append_nil]
    show (reservasCrear db req fallo).1.reembolsos = db.reembolsos
    rcases reservasCrear_casos db req fallo with ⟨h, _⟩ | ⟨h, _⟩
    · rw [h]
    · rw [h]; rfl
  | cancelar id motivo hoy fallo =>
    show ∃ nuevos, (reservasCancelar db id motivo hoy fallo).1.reembolsos = db.reembolsos ++ nuevos
    unfold reservasCancelar
    split
    · exact ⟨[], (List.append_nil _).symm⟩
    split
    · exact ⟨[], (List.append_nil _).symm⟩
    split
    · exact ⟨[], (List.append_nil _).symm⟩
    split
    · exact ⟨[], (List.append_nil _).symm⟩
    split
    · exact ⟨[], (List.append_nil _).symm⟩
    split
    · exact ⟨[], (List.append_nil _).symm⟩
    split
    · split
      · exact ⟨[], (List.append_nil _).symm⟩
      split
      · exact ⟨_, rfl⟩
      · exact ⟨_, rfl⟩
    · exact ⟨[], (List.append_nil _).symm⟩
  | cancelarAdmin id motivo fallo =>
    refine ⟨[], ?_⟩
    rw [List.append_nil]
    show (reservasCancelarAdmin db id motivo fallo).1.reembolsos = db.reembolsos
    unfold reservasCancelarAdmin
    split
    · rfl
    split
    · rfl
    split
    · rfl
    split
    · rfl
    · rfl

/-! ## The calendar of a month -/

/-- A month has between 28 and 31 days. -/
theorem diasEnMes_cotas (anio : Int) (mes : Nat) :
    28 ≤ diasEnMes anio mes ∧ diasEnMes anio mes ≤ 31 := by
  unfold diasEnMes
  split
  · split <;> omega
  · split <;> omega

/-- Within a month the day number grows with the day of the month. -/
theorem aDias_dia (anio : Int) (mes dia : Nat) :
    FechaCivil.aDias { anio := anio, mes := mes, dia := dia }
      = FechaCivil.aDias { anio := anio, mes := mes, dia := 1 } + (dia : Int) - 1 := by
  simp only [FechaCivil.aDias]
  omega

/-- The days before the next month are the days before this month and its own days. -/
theorem diasAntesDeMes_succ (anio : Int) (mes : Nat) (hm : 1 ≤ mes) :
    diasAntesDeMes anio (mes + 1) = diasAntesDeMes anio mes + diasEnMes anio mes := by
  unfold diasAntesDeMes
  obtain ⟨k, rfl⟩ : ∃ k, mes = k + 1 := ⟨mes - 1, by omega⟩
  simp only [Nat.add_sub_cancel]
  rw [List.range_succ, List.map_append, List.sum_append]
  simp

/-- The days of a year before the first of December. -/
theorem diasAntesDeMes_doce (anio : Int) :
    diasAntesDeMes anio 12 = 334 + (if esBisiesto anio then 1 else 0) := by
  have hr : List.range (12 - 1) = [0, 1, 2, 3, 4, 5, 6, 7, 8, 9, 10] := by decide
  unfold diasAntesDeMes
  rw [hr]
  simp only [List.map, List.sum_cons, List.sum_nil]
  norm_num [diasEnMes]
  split <;> rfl

/-- A year has 365 days, and one more when it is a leap year. -/
theorem diasAntesDeAnio_succ (anio : Int) :
    diasAntesDeAnio (anio + 1)
      = diasAntesDeAnio anio + 365 + (if esBisiesto anio then 1 else 0) := by
  unfold diasAntesDeAnio esBisiesto
  simp only [decide_eq_true_eq, Bool.or_eq_true, Bool.and_eq_true, Bool.decide_and,
    Bool.decide_or]
  split <;> omega

/-- The next day of a day that is not the last of its month. -/
theorem siguienteDia_dentro (anio : Int) (mes dia : Nat) (hd : dia < diasEnMes anio mes) :
    siguienteDia { anio := anio, mes := mes, dia := dia }
      = { anio := anio, mes := mes, dia := dia + 1 } := by
  unfold siguienteDia
  rw [if_pos (by exact hd)]

/-- The day after the last day of a month is one day later on the time line. -/
theorem aDias_siguienteDia_fin (anio : Int) (mes : Nat) (h1 : 1 ≤ mes) (h12 : mes ≤ 12) :
    (siguienteDia { anio := anio, mes := mes, dia := diasEnMes anio mes }).aDias
      = FechaCivil.aDias { anio := anio, mes := mes, dia := diasEnMes anio mes } + 1 := by
  unfold siguienteDia
  rw [if_neg (by simp)]
  by_cases hm : mes < 12
  · rw [if_pos (by exact hm)]
    simp only [FechaCivil.aDias, diasAntesDeMes_succ anio mes h1]
    push_cast
    omega
  · rw [if_neg (by exact hm)]
    have hmes : mes = 12 := by omega
    subst hmes
    simp only [FechaCivil.aDias, diasAntesDeAnio_succ, diasAntesDeMes_doce]
    have h31 : diasEnMes anio 12 = 31 := by simp [diasEnMes]
    have h0 : diasAntesDeMes (anio + 1) 1 = 0 := by simp [diasAntesDeMes]
    rw [h31, h0]
    split <;> simp <;> omega

/-- The loop over the days, started on day `dia` of the month of `ultimoDia`,
ends within `k + 1` tests and yields the `k` remaining days in order. -/
theorem bucleDias_mes (reservadas : List Int) (anio : Int) (mes : Nat)
    (h1 : 1 ≤ mes) (h12 : mes ≤ 12) :
    ∀ (k dia pasos : Nat), dia + k = diasEnMes anio mes → k + 1 < pasos →
      bucleDias reservadas { anio := anio, mes := mes, dia := diasEnMes anio mes } pasos
          { anio := anio, mes := mes, dia := dia }
        = some ((List.range (k + 1)).map
            (fun (i : Nat) => entradaDia reservadas { anio := anio, mes := mes, dia := dia + i })) := by
  intro k
  induction k with
  | zero =>
    intro dia pasos hd hp
    obtain ⟨p, rfl⟩ : ∃ p, pasos = p + 2 := ⟨pasos - 2, by omega⟩
    have hdia : dia = diasEnMes anio mes := by omega
    subst hdia
    rw [bucleDias, if_pos (le_refl _), bucleDias,
      if_neg (by rw [aDias_siguienteDia_fin anio mes h1 h12]; omega)]
    rfl
  | succ k ih =>
    intro dia pasos hd hp
    obtain ⟨p, rfl⟩ : ∃ p, pasos = p + 1 := ⟨pasos - 1, by omega⟩
    have hlt : dia < diasEnMes anio mes := by omega
    have hle : FechaCivil.aDias { anio := anio, mes := mes, dia := dia }
        ≤ FechaCivil.aDias { anio := anio, mes := mes, dia := diasEnMes anio mes } := by
      rw [aDias_dia anio mes dia, aDias_dia anio mes (diasEnMes anio mes)]
      omega
    rw [bucleDias, if_pos hle, siguienteDia_dentro anio mes dia hlt,
      ih (dia + 1) p (by omega) (by omega)]
    simp only [Option.map_some']
    rw [List.range_succ_eq_map (k + 1), List.map_cons, List.map_map]
    congr 2
    apply List.map_congr_left
    intro i _
    simp only [Function.comp, Nat.add_zero]
    congr 2
    omega

/-- The month of `fechaBaseDe` is a month of the calendar. -/
theorem fechaBaseDe_mes (anio mes : Nat) :
    1 ≤ (fechaBaseDe anio mes).mes ∧ (fechaBaseDe anio mes).mes ≤ 12 := by
  simp only [fechaBaseDe]
  omega

/-- For a month 1..12 and a year from 100 on, `fechaBaseDe` is the first of that month of that year. -/
theorem fechaBaseDe_normal (anio mes : Nat) (h1 : 1 ≤ mes) (h12 : mes ≤ 12) (ha : 100 ≤ anio) :
    (fechaBaseDe anio mes).anio = anio ∧ (fechaBaseDe anio mes).mes = mes := by
  simp only [fechaBaseDe]
  rw [if_neg (by omega)]
  omega

/-- The dates found by the first query of the calendar: the nights of the room within the month that are held by a confirmed reservation. -/
theorem mem_selFechasDelMes (db : BD) (id : Nat) (primerDia ultimoDia d : Int) :
    d ∈ selFechasDelMes db id primerDia ultimoDia ↔
      ∃ fr ∈ db.fechas_reservadas, fr.habitacion_id = id
        ∧ (∃ r ∈ db.reservas, r.id = fr.reserva_id ∧ r.estado = "confirmada")
        ∧ primerDia ≤ fr.fecha ∧ fr.fecha ≤ ultimoDia ∧ fr.fecha = d := by
  unfold selFechasDelMes
  rw [List.mem_insertionSort, List.mem_dedup]
  simp only [List.mem_map, List.mem_filter, decide_eq_true_eq, mem_fechasJoinReservas]
  constructor
  · rintro ⟨⟨fr, r⟩, ⟨⟨hfr, hr, hid⟩, hhab, ⟨h1, h2⟩, hest⟩, rfl⟩
    exact ⟨fr, hfr, hhab, ⟨r, hr, hid.symm, hest⟩, h1, h2, rfl⟩
  · rintro ⟨fr, hfr, hhab, ⟨r, hr, hid, hest⟩, h1, h2, rfl⟩
    exact ⟨(fr, r), ⟨⟨hfr, hr, hid.symm⟩, hhab, ⟨h1, h2⟩, hest⟩, rfl⟩

/-- The last day of a month on the time line, from its first day. -/
theorem aDias_ultimoDia (f : FechaCivil) :
    (ultimoDia f).aDias
      = (primerDia f).aDias + (diasEnMes (anioCompleto f.anio) f.mes : Int) - 1 :=
  aDias_dia (anioCompleto f.anio) f.mes _

/-- The days of a year before the first of a month are at most 31 per month. -/
theorem diasAntesDeMes_cota (anio : Int) (mes : Nat) :
    diasAntesDeMes anio mes ≤ 31 * (mes - 1) := by
  induction mes with
  | zero => simp [diasAntesDeMes]
  | succ k ih =>
    by_cases hk : 1 ≤ k
    · rw [diasAntesDeMes_succ anio k hk]
      have := (diasEnMes_cotas anio k).2
      omega
    · have hk0 : k = 0 := by omega
      subst hk0
      simp [diasAntesDeMes]

/-- For a month 1..12 and a year from 100 to 275759, the first and the last day
of the month are dates a `Date` can hold. -/
theorem fechaValida_normal (anio : Int) (mes dia : Nat) (h12 : mes ≤ 12)
    (ha : 100 ≤ anio) (hb : anio ≤ 275759) (hd : dia ≤ 31) :
    fechaValida { anio := anio, mes := mes, dia := dia } = true := by
  have hm := diasAntesDeMes_cota anio mes
  simp only [fechaValida, FechaCivil.aDias, diasAntesDeAnio, decide_eq_true_eq]
  have hm2 : (diasAntesDeMes anio mes : Int) ≤ 341 := by
    have : diasAntesDeMes anio mes ≤ 341 := by omega
    exact_mod_cast this
  have hm0 : (0 : Int) ≤ (diasAntesDeMes anio mes : Int) := Int.ofNat_nonneg _
  have hd2 : ((dia : Nat) : Int) ≤ 31 := by exact_mod_cast hd
  have hd0 : (0 : Int) ≤ (dia : Int) := Int.ofNat_nonneg _
  omega

/-- The response of the calendar query, once its dates are dates a `Date` can
hold and the loop is given the tests it needs: the days of the month in order,
and the reservations of the month. -/
theorem habitacionesDisponibilidad_ok (db : BD) (id : Nat) (mes anio : Option Nat)
    (hoy : FechaCivil) (pasos : Nat) (hp : 31 < pasos)
    (hm1 : 1 ≤ (fechaBaseDeConsulta mes anio hoy).mes)
    (hm12 : (fechaBaseDeConsulta mes anio hoy).mes ≤ 12)
    (hv : fechaValida (fechaBaseDeConsulta mes anio hoy) = true
      ∧ fechaValida (primerDia (fechaBaseDeConsulta mes anio hoy)) = true
      ∧ fechaValida (ultimoDia (fechaBaseDeConsulta mes anio hoy)) = true) :
    habitacionesDisponibilidad db id mes anio hoy none pasos
      = some (.ok (fechaBaseDeConsulta mes anio hoy).mes (fechaBaseDeConsulta mes anio hoy).anio
          ((List.range (diasEnMes (anioCompleto (fechaBaseDeConsulta mes anio hoy).anio)
              (fechaBaseDeConsulta mes anio hoy).mes)).map
            (fun (i : Nat) => entradaDia
              (selFechasDelMes db id (primerDia (fechaBaseDeConsulta mes anio hoy)).aDias
                (ultimoDia (fechaBaseDeConsulta mes anio hoy)).aDias)
              { primerDia (fechaBaseDeConsulta mes anio hoy) with dia := 1 + i }))
          (selReservasDelMes db id (primerDia (fechaBaseDeConsulta mes anio hoy)).aDias
            (ultimoDia (fechaBaseDeConsulta mes anio hoy)).aDias)
          (selReservasDelMes db id (primerDia (fechaBaseDeConsulta mes anio hoy)).aDias
            (ultimoDia (fechaBaseDeConsulta mes anio hoy)).aDias).length) := by
  unfold habitacionesDisponibilidad
  simp only []
  rw [if_neg (not_not.mpr hv)]
  generalize fechaBaseDeConsulta mes anio hoy = fb at *
  simp only [primerDia, ultimoDia]
  generalize anioCompleto fb.anio = Y at *
  generalize hM : fb.mes = M at *
  obtain ⟨hn28, hn31⟩ := diasEnMes_cotas Y M
  obtain ⟨k, hk⟩ : ∃ k, 1 + k = diasEnMes Y M := ⟨diasEnMes Y M - 1, by omega⟩
  have hbucle := bucleDias_mes
    (selFechasDelMes db id (FechaCivil.aDias { anio := Y, mes := M, dia := 1 })
      (FechaCivil.aDias { anio := Y, mes := M, dia := diasEnMes Y M }))
    Y M hm1 hm12 k 1 pasos hk (by omega)
  have hk2 : k + 1 = diasEnMes Y M := by omega
  rw [hk2] at hbucle
  rw [hbucle]
  rfl

/-- For a month 1..12 and a year from 100 to 275759 the dates of the calendar
query are the first and the last day of that month of that year, and a `Date`
can hold them. -/
theorem fechas_normales (mes anio : Nat) (hoy : FechaCivil) (h1 : 1 ≤ mes) (h12 : mes ≤ 12)
    (ha : 100 ≤ anio) (hb : anio ≤ 275759) :
    fechaBaseDeConsulta (some mes) (some anio) hoy = { anio := anio, mes := mes, dia := 1 } ∧
    primerDia (fechaBaseDeConsulta (some mes) (some anio) hoy)
      = { anio := anio, mes := mes, dia := 1 } ∧
    ultimoDia (fechaBaseDeConsulta (some mes) (some anio) hoy)
      = { anio := anio, mes := mes, dia := diasEnMes anio mes } ∧
    (fechaValida (fechaBaseDeConsulta (some mes) (some anio) hoy) = true
      ∧ fechaValida (primerDia (fechaBaseDeConsulta (some mes) (some anio) hoy)) = true
      ∧ fechaValida (ultimoDia (fechaBaseDeConsulta (some mes) (some anio) hoy)) = true) := by
  obtain ⟨hfa, hfm⟩ := fechaBaseDe_normal anio mes h1 h12 ha
  have hfb : fechaBaseDeConsulta (some mes) (some anio) hoy
      = { anio := anio, mes := mes, dia := 1 } := by
    show fechaBaseDe anio mes = _
    have hd : (fechaBaseDe anio mes).dia = 1 := rfl
    cases hfb : fechaBaseDe anio mes with
    | mk a m d =>
      rw [hfb] at hfa hfm hd
      simp only at hfa hfm hd
      subst hfa hfm hd
      rfl
  have hac : anioCompleto (anio : Int) = anio := by
    unfold anioCompleto
    rw [if_neg (by omega)]
  have hp : primerDia (fechaBaseDeConsulta (some mes) (some anio) hoy)
      = { anio := anio, mes := mes, dia := 1 } := by
    rw [hfb]; simp only [primerDia, hac]
  have hu : ultimoDia (fechaBaseDeConsulta (some mes) (some anio) hoy)
      = { anio := anio, mes := mes, dia := diasEnMes anio mes } := by
    rw [hfb]; simp only [ultimoDia, hac]
  refine ⟨hfb, hp, hu, ?_, ?_, ?_⟩
  · rw [hfb]
    exact fechaValida_normal anio mes 1 h12 (by omega) (by omega) (by omega)
  · rw [hp]
    exact fechaValida_normal anio mes 1 h12 (by omega) (by omega) (by omega)
  · rw [hu]
    exact fechaValida_normal anio mes _ h12 (by omega) (by omega) (diasEnMes_cotas _ _).2

/-- A calendar response that lists reservations lists the rows of the second
query for the first and the last day of the month. -/
theorem habitacionesDisponibilidad_reservas (db : BD) (id : Nat) (mes anio : Option Nat)
    (hoy : FechaCivil) (fallo : Option String) (pasos : Nat) (m : Nat) (a : Int)
    (dias : List DiaCalendario) (reservas : List ReservaCalendario) (n : Nat)
    (h : habitacionesDisponibilidad db id mes anio hoy fallo pasos
      = some (.ok m a dias reservas n)) :
    reservas = selReservasDelMes db id (primerDia (fechaBaseDeConsulta mes anio hoy)).aDias
        (ultimoDia (fechaBaseDeConsulta mes anio hoy)).aDias
      ∧ n = reservas.length := by
  unfold habitacionesDisponibilidad at h
  simp only [] at h
  split at h
  · simp at h
  · cases fallo with
    | some e => simp at h
    | none =>
      simp only [Option.map_eq_some'] at h
      obtain ⟨ds, _, hds⟩ := h
      simp only [RespuestaCalendario.ok.injEq] at hds
      obtain ⟨_, _, _, hr, hn⟩ := hds
      subst hr
      exact ⟨rfl, hn.symm⟩

/-- The rows found by the second query of the calendar. -/
theorem mem_selReservasDelMes (db : BD) (id : Nat) (primero ultimo : Int)
    (x : ReservaCalendario) :
    x ∈ selReservasDelMes db id primero ultimo ↔
      ∃ r ∈ db.reservas, r.habitacion_id = id ∧ r.estado = "confirmada"
        ∧ ((primero ≤ r.fecha_entrada ∧ r.fecha_entrada ≤ ultimo)
          ∨ (primero ≤ r.fecha_salida ∧ r.fecha_salida ≤ ultimo)
          ∨ (r.fecha_entrada ≤ primero ∧ r.fecha_salida ≥ ultimo))
        ∧ columnasCalendario r = x := by
  unfold selReservasDelMes
  simp only [List.mem_map, List.mem_insertionSort, List.mem_filter, decide_eq_true_eq,
    pruebaTresVias, Bool.decide_or, Bool.decide_and, Bool.or_eq_true, Bool.and_eq_true]
  constructor
  · rintro ⟨r, ⟨hr, h1, h2, h3⟩, rfl⟩
    exact ⟨r, hr, h1, h2, h3, rfl⟩
  · rintro ⟨r, hr, h1, h2, h3, rfl⟩
    exact ⟨r, ⟨hr, h1, h2, h3⟩, rfl⟩

/-! ## The claims, continued -/

/-- C11 (the code at the failing input).  The booking of room "101" with entrada
2025-06-03 (day 20242) and salida 2025-06-01 (day 20240) is not answered with a
validation error: the handler has no check of the dates, the date query finds
no row, and the reservation is inserted as `confirmada` with its inverted
dates. -/
theorem c11_fechas_invertidas_aceptadas :
    (solicitud 20242 20240 2).datos_busqueda.salida ≤ (solicitud 20242 20240 2).datos_busqueda.entrada ∧
    (reservasCrear bdInicial (solicitud 20242 20240 2) none).2.esError = false ∧
    bdInicial.reservas = [] ∧
    (reservasCrear bdInicial (solicitud 20242 20240 2) none).1.reservas.map
      (fun r => (r.fecha_entrada, r.fecha_salida, r.estado)) = [(20242, 20240, "confirmada")] := by
  decide

/-- C12.  For every valid availability search (`entrada < salida`, requested =
`adultos + ninos` with `ninos` defaulting to 0), the returned list contains
exactly the rooms whose manual status is `disponible`, whose capacity is at
least the requested one, and for which no `fechas_reservadas` row owned by a
confirmed reservation has a date `d` with `entrada <= d < salida`, each as often
as the table has it; and the list is ordered by non-decreasing price. -/
theorem c12_busqueda_resultado (db : BD) (req : SolicitudBusqueda) (entrada salida : Int)
    (he : req.entrada = some entrada) (hs : req.salida = some salida)
    (hval : entrada < salida) :
    ∃ data, habitacionesDisponibles db req none = .habitaciones data ∧
      (∀ h, h ∈ data ↔
        h ∈ db.habitaciones ∧ h.estado = "disponible"
          ∧ req.adultos + req.ninos.getD 0 ≤ h.capacidad
          ∧ ¬ ∃ fr ∈ db.fechas_reservadas, fr.habitacion_id = h.id
              ∧ (∃ r ∈ db.reservas, r.id = fr.reserva_id ∧ r.estado = "confirmada")
              ∧ entrada ≤ fr.fecha ∧ fr.fecha < salida) ∧
      List.Perm data (db.habitaciones.filter (fun h => decide (h ∈ data))) ∧
      data.Pairwise (fun a b => a.precio ≤ b.precio) := by
  refine ⟨selHabitacionesDisponibles db (req.adultos + req.ninos.getD 0) entrada salida, ?_, ?_, ?_, ?_⟩
  · unfold habitacionesDisponibles
    rw [he, hs]
    simp only [not_le.2 hval, if_false]
  · intro h
    unfold selHabitacionesDisponibles
    rw [(perm_ordenarPorPrecio _).mem_iff, List.mem_filter]
    simp only [decide_eq_true_eq, mem_selHabitacionesOcupadas]
  · have hfil : db.habitaciones.filter (fun h => decide (h ∈
        selHabitacionesDisponibles db (req.adultos + req.ninos.getD 0) entrada salida))
        = db.habitaciones.filter (fun h => h.estado = "disponible"
            ∧ req.adultos + req.ninos.getD 0 ≤ h.capacidad
            ∧ h.id ∉ selHabitacionesOcupadas db entrada salida) := by
      apply List.filter_congr
      intro h hh
      unfold selHabitacionesDisponibles
      rw [decide_eq_decide, (perm_ordenarPorPrecio _).mem_iff, List.mem_filter]
      simp only [decide_eq_true_eq]
      exact ⟨fun hx => hx.2, fun hx => ⟨hh, hx⟩⟩
    rw [hfil]
    exact perm_ordenarPorPrecio _
  · exact pairwise_ordenarPorPrecio _

/-- Witness of C12: with rooms "101" (price 100.00) and "102" (price 80.00) free,
the search for 2025-06-01 .. 2025-06-03 returns "102" before "101". -/
theorem c12_witness :
    habitacionesDisponibles bdDosHabitaciones busquedaJunio none
      = .habitaciones [hab102, hab101] ∧
    ∃ data, habitacionesDisponibles bdDosHabitaciones busquedaJunio none = .habitaciones data
      ∧ data.Pairwise (fun a b => a.precio ≤ b.precio) :=
  ⟨by decide,
   (c12_busqueda_resultado bdDosHabitaciones busquedaJunio 20240 20242 rfl rfl
      (by decide)).imp (fun _ h => ⟨h.1, h.2.2.2⟩)⟩

/-- C13.  For every existing, not-yet-cancelled reservation and every current
instant `hoy`, cancellation is rejected with the state error exactly when
`ceil((entrada - hoy) / 1 day) <= 0`, which is exactly when `hoy` is at or after
the start of the entrada date: at any instant of the entrada day or of a later
day the call is rejected and changes nothing, and at any instant of an earlier
day it succeeds. -/
theorem c13_ventana_cancelacion (db : BD) (id : Nat) (motivo : Option String) (hoy : Int)
    (r : Reserva) (hr : r ∈ db.reservas) (hid : r.id = id)
    (hunica : ∀ r2 ∈ db.reservas, r2.id = id → r2 = r)
    (hhab : ∃ h ∈ db.habitaciones, h.id = r.habitacion_id)
    (hno : r.estado ≠ "cancelada") :
    ((reservasCancelar db id motivo hoy none).2
        = .error 400 "No se puede cancelar una reserva el mismo día del check-in o después" ↔
      diferenciaDias (r.fecha_entrada * msPorDia) hoy ≤ 0) ∧
    (diferenciaDias (r.fecha_entrada * msPorDia) hoy ≤ 0 ↔ r.fecha_entrada * msPorDia ≤ hoy) ∧
    (r.fecha_entrada ≤ hoy / msPorDia →
      reservasCancelar db id motivo hoy none
        = (db, .error 400 "No se puede cancelar una reserva el mismo día del check-in o después")) ∧
    (hoy / msPorDia < r.fecha_entrada →
      ∃ reembolso, (reservasCancelar db id motivo hoy none).2 = .cancelada reembolso) := by
  obtain ⟨h, resto, hsel⟩ := selReservaConHabitacion_cabeza db id r hr hid hunica hhab
  have heq := reservasCancelar_none db id motivo hoy r h resto hsel
  rw [if_neg hno] at heq
  refine ⟨?_, diferenciaDias_le_zero _ _, ?_, ?_⟩
  · rw [heq]
    constructor
    · intro hresp
      by_contra hdif
      rw [if_neg hdif] at hresp
      split at hresp <;> exact Respuesta.noConfusion hresp
    · intro hdif
      rw [if_pos hdif]
  · intro hdia
    rw [heq, if_pos ((diferenciaDias_le_zero _ _).2 ((inicio_del_dia_le _ _).2 hdia))]
  · intro hdia
    have hdif : ¬ diferenciaDias (r.fecha_entrada * msPorDia) hoy ≤ 0 := by
      rw [diferenciaDias_le_zero, inicio_del_dia_le]
      omega
    rw [heq, if_neg hdif]
    split
    · exact ⟨_, rfl⟩
    · exact ⟨_, rfl⟩

/-- Witness of C13: the reservation for 2025-06-01 cannot be cancelled at 00:00
of 2025-06-01, and is cancelled at 01:00 of 2025-05-30. -/
theorem c13_witness :
    (reservasCancelar bdReservada 1 none instanteEntrada none).2
      = .error 400 "No se puede cancelar una reserva el mismo día del check-in o después" ∧
    (∃ reembolso, (reservasCancelar bdReservada 1 none instanteAntes none).2
      = .cancelada reembolso) :=
  ⟨(c13_ventana_cancelacion bdReservada 1 none instanteEntrada
      (filaReserva 1 (solicitud 20240 20242 2)) (by decide) (by decide) (by decide)
      ⟨hab101, by decide, by decide⟩ (by decide)).1.2 (by decide),
   (c13_ventana_cancelacion bdReservada 1 none instanteAntes
      (filaReserva 1 (solicitud 20240 20242 2)) (by decide) (by decide) (by decide)
      ⟨hab101, by decide, by decide⟩ (by decide)).2.2.2 (by decide)⟩

/-- While the room of a reservation is in `habitaciones`, the cancellation of a
reservation that is already `cancelada` is rejected with the state error at
every instant, and whatever the storage does the state is unchanged. -/
theorem reservasCancelar_cancelada_con_habitacion (db : BD) (id : Nat) (motivo : Option String)
    (hoy : Int) (r : Reserva) (hr : r ∈ db.reservas) (hid : r.id = id)
    (hunica : ∀ r2 ∈ db.reservas, r2.id = id → r2 = r)
    (hhab : ∃ h ∈ db.habitaciones, h.id = r.habitacion_id)
    (hcan : r.estado = "cancelada") :
    reservasCancelar db id motivo hoy none = (db, .error 400 "La reserva ya está cancelada") ∧
    (∀ fallo, (reservasCancelar db id motivo hoy fallo).1 = db) := by
  obtain ⟨h, resto, hsel⟩ := selReservaConHabitacion_cabeza db id r hr hid hunica hhab
  constructor
  · rw [reservasCancelar_none db id motivo hoy r h resto hsel, if_pos hcan]
  · intro fallo
    exact reservasCancelar_ya_cancelada db id motivo hoy fallo r h resto hsel hcan

/-- C14 (the code at the failing input).  The reservation of room "101" is
cancelled, and the room is then deleted through `DELETE /api/habitaciones/1`,
which refuses only rooms with a `pendiente` or `confirmada` reservation.  The
reservation is still in `reservas` with the status `cancelada`, but its
cancellation is not answered with the state error: the query that looks the
reservation up joins `habitaciones`, finds no row, and the answer is 404
"Reserva no encontrada".  While the room was there the answer was the state
error.  In both cases the state is unchanged. -/
theorem c14_cancelada_sin_habitacion :
    habitacionesEliminar bdCancelada 1 none
      = (bdSinHabitacion, .exito "Habitación eliminada exitosamente") ∧
    bdSinHabitacion.habitaciones = [] ∧
    bdSinHabitacion.reservas.map (fun r => (r.id, r.habitacion_id, r.estado))
      = [(1, 1, "cancelada")] ∧
    reservasCancelar bdSinHabitacion 1 none instanteAntes none
      = (bdSinHabitacion, .error 404 "Reserva no encontrada") ∧
    reservasCancelar bdCancelada 1 none instanteAntes none
      = (bdCancelada, .error 400 "La reserva ya está cancelada") := by
  decide

/-- C15.  After every successful cancellation of reservation `id`, the
reservation is still there and its status is `cancelada`, no `fechas_reservadas`
row is owned by it, and the rows of `reservas` and of `fechas_reservadas` of
every other reservation are unchanged. -/
theorem c15_cancelacion_efecto (db : BD) (id : Nat) (motivo : Option String) (hoy : Int)
    (fallo : Option (PasoCancelar × String)) (x : Option (Nat × String))
    (hok : (reservasCancelar db id motivo hoy fallo).2 = .cancelada x) :
    (∃ r ∈ (reservasCancelar db id motivo hoy fallo).1.reservas, r.id = id) ∧
    (∀ r ∈ (reservasCancelar db id motivo hoy fallo).1.reservas,
      r.id = id → r.estado = "cancelada") ∧
    (∀ fr ∈ (reservasCancelar db id motivo hoy fallo).1.fechas_reservadas, fr.reserva_id ≠ id) ∧
    (reservasCancelar db id motivo hoy fallo).1.reservas.filter (fun r => ¬ r.id = id)
      = db.reservas.filter (fun r => ¬ r.id = id) ∧
    (reservasCancelar db id motivo hoy fallo).1.fechas_reservadas.filter
        (fun fr => ¬ fr.reserva_id = id)
      = db.fechas_reservadas.filter (fun fr => ¬ fr.reserva_id = id) := by
  obtain ⟨g, hres, hgid, hg, hgest, hfe⟩ :=
    reservasCancelar_exito_tablas db id motivo hoy fallo x hok
  obtain ⟨reserva, h, resto, hsel, _⟩ := reservasCancelar_exito db id motivo hoy fallo x hok
  have hmem : (reserva, h) ∈ selReservaConHabitacion db id := by
    rw [hsel]; exact List.mem_cons_self _ _
  rw [mem_selReservaConHabitacion] at hmem
  refine ⟨⟨g reserva, ?_, ?_⟩, ?_, ?_, ?_, ?_⟩
  · rw [hres]; exact List.mem_map_of_mem g hmem.1
  · rw [hgid]; exact hmem.2.2.2
  · intro r hr hid
    rw [hres, List.mem_map] at hr
    obtain ⟨a, _, rfl⟩ := hr
    rw [hgid] at hid
    exact hgest a hid
  · intro fr hfr
    rw [hfe, List.mem_filter] at hfr
    simpa using hfr.2
  · rw [hres]
    exact filter_map_otras id g hgid hg db.reservas
  · rw [hfe, List.filter_filter]
    simp

/-- Witness of C15: after the cancellation of 2025-05-30 the reservation is
`cancelada` and owns no night. -/
theorem c15_witness :
    (reservasCancelar bdReservada 1 none instanteAntes none).2
      = .cancelada (some (20000, "Cancelación voluntaria")) ∧
    (∀ r ∈ (reservasCancelar bdReservada 1 none instanteAntes none).1.reservas,
      r.id = 1 → r.estado = "cancelada") ∧
    (∀ fr ∈ (reservasCancelar bdReservada 1 none instanteAntes none).1.fechas_reservadas,
      fr.reserva_id ≠ 1) :=
  ⟨by decide,
   (c15_cancelacion_efecto bdReservada 1 none instanteAntes none
      (some (20000, "Cancelación voluntaria")) (by decide)).2.1,
   (c15_cancelacion_efecto bdReservada 1 none instanteAntes none
      (some (20000, "Cancelación voluntaria")) (by decide)).2.2.1⟩

/-- C16.  Every successful cancellation of a reservation whose payment status is
`completado` appends exactly one refund record (the reservation, its total, the
supplied motivo or "Cancelación voluntaria" when none is supplied) and sets the
payment status of the reservation to `reembolsado`; a successful cancellation of
a reservation with any other payment status appends no refund record and leaves
every payment status unchanged. -/
theorem c16_reembolso (db : BD) (id : Nat) (motivo : Option String) (hoy : Int)
    (fallo : Option (PasoCancelar × String)) (x : Option (Nat × String))
    (r : Reserva) (hr : r ∈ db.reservas) (hid : r.id = id)
    (hunica : ∀ r2 ∈ db.reservas, r2.id = id → r2 = r)
    (hok : (reservasCancelar db id motivo hoy fallo).2 = .cancelada x) :
    (r.estado_pago = "completado" →
      (reservasCancelar db id motivo hoy fallo).1.reembolsos
          = db.reembolsos ++ [{ reserva_id := id, monto_reembolsado := r.total,
                                motivo := oPorDefecto motivo "Cancelación voluntaria" }]
        ∧ (∀ r2 ∈ (reservasCancelar db id motivo hoy fallo).1.reservas,
            r2.id = id → r2.estado_pago = "reembolsado")
        ∧ x = some (r.total, oPorDefecto motivo "Cancelación voluntaria")) ∧
    (r.estado_pago ≠ "completado" →
      (reservasCancelar db id motivo hoy fallo).1.reembolsos = db.reembolsos
        ∧ (reservasCancelar db id motivo hoy fallo).1.reservas.map
            (fun r2 => (r2.id, r2.estado_pago))
          = db.reservas.map (fun r2 => (r2.id, r2.estado_pago))
        ∧ x = none) ∧
    (oPorDefecto none "Cancelación voluntaria" = "Cancelación voluntaria") ∧
    (∀ m : String, m ≠ "" → oPorDefecto (some m) "Cancelación voluntaria" = m) := by
  obtain ⟨reserva, h, resto, hsel, _, _, hcaso⟩ :=
    reservasCancelar_exito db id motivo hoy fallo x hok
  have hmem : (reserva, h) ∈ selReservaConHabitacion db id := by
    rw [hsel]; exact List.mem_cons_self _ _
  rw [mem_selReservaConHabitacion] at hmem
  have hrr : reserva = r := hunica reserva hmem.1 hmem.2.2.2
  subst hrr
  refine ⟨?_, ?_, rfl, ?_⟩
  · intro hcomp
    rcases hcaso with ⟨_, hdb, hx⟩ | ⟨hno, _, _⟩
    · refine ⟨by rw [hdb]; rfl, ?_, hx⟩
      intro r2 hr2 hid2
      rw [hdb] at hr2
      simp only [updEstadoPagoReembolsado, List.mem_map] at hr2
      obtain ⟨a, _, rfl⟩ := hr2
      by_cases ha : a.id = id
      · simp [ha]
      · simp [ha] at hid2
    · exact absurd hcomp hno
  · intro hno
    rcases hcaso with ⟨hcomp, _, _⟩ | ⟨_, hdb, hx⟩
    · exact absurd hcomp hno
    · refine ⟨by rw [hdb]; rfl, ?_, hx⟩
      rw [hdb]
      simp only [delFechasReservadas, updEstadoCancelada, List.map_map]
      apply List.map_congr_left
      intro a _
      simp only [Function.comp]
      split <;> rfl
  · intro m hm
    simp [oPorDefecto, hm]

/-- Witness of C16: the cancellation of the paid reservation with the motivo
"Cambio de planes" writes one refund of its total under that motivo and marks
the payment `reembolsado`. -/
theorem c16_witness :
    (reservasCancelar bdReservada 1 (some "Cambio de planes") instanteAntes none).1.reembolsos
      = [] ++ [{ reserva_id := 1, monto_reembolsado := 20000, motivo := "Cambio de planes" }] ∧
    (∀ r2 ∈ (reservasCancelar bdReservada 1 (some "Cambio de planes") instanteAntes none).1.reservas,
      r2.id = 1 → r2.estado_pago = "reembolsado") := by
  have h := (c16_reembolso bdReservada 1 (some "Cambio de planes") instanteAntes none
    (some (20000, "Cambio de planes")) (filaReserva 1 (solicitud 20240 20242 2))
    (by decide) (by decide) (by decide) (by decide)).1 (by decide)
  exact ⟨h.1, h.2.1⟩

/-- C17.  In every state reachable from a state with no refund records (and an
id counter ahead of its reservations) by any sequence of bookings, cancellations
and admin cancellations, with or without storage failures, each reservation has
at most one refund record; and no call removes or alters a refund record already
written: the records after a call are those before it, followed by the new
ones. -/
theorem c17_reembolso_unico (db0 db : BD) (h0 : db0.reembolsos = [])
    (hids : ∀ r ∈ db0.reservas, r.id < db0.sigReservaId) (h : AlcanzableDe db0 db) :
    (∀ id, (reembolsosDe db id).length ≤ 1) ∧
    (∀ op, ∃ nuevos, (ejecutar db op).reembolsos = db.reembolsos ++ nuevos) :=
  ⟨(reembolsos_alcanzable db0 db (reembolsos_inicio db0 h0 hids) h).unico,
   reembolsos_solo_crecen db⟩

/-- Witness of C17: cancelling the paid reservation twice from the booked state
gives a state with exactly one refund record for it. -/
theorem c17_witness :
    AlcanzableDe bdReservada
      (ejecutar (ejecutar bdReservada (.cancelar 1 none instanteAntes none))
        (.cancelar 1 none instanteAntes none)) ∧
    (reembolsosDe (ejecutar (ejecutar bdReservada (.cancelar 1 none instanteAntes none))
        (.cancelar 1 none instanteAntes none)) 1).length ≤ 1 ∧
    (reembolsosDe (ejecutar (ejecutar bdReservada (.cancelar 1 none instanteAntes none))
        (.cancelar 1 none instanteAntes none)) 1).length = 1 :=
  ⟨.paso _ _ (.paso _ _ .inicio),
   (c17_reembolso_unico bdReservada _ (by decide) (by decide)
      (.paso _ _ (.paso _ _ .inicio))).1 1,
   by decide⟩

/-- Counterexample to C18 as stated.  For the year 300000 the last day of the
month is beyond the range of `Date`, `toISOString` throws, and the answer is
the error 500 with no array `dias`.  For the month 6 of the year 50 the `Date`
constructor takes the year 1950: the answer reports the year 1950 and lists the
30 days from 1950-06-01 (day number -7154).  For the month 13 of 2025 the month
carries into the next year: the answer reports month 1 of 2026. -/
theorem c18_contraejemplo :
    habitacionesDisponibilidad bdReservada 1 (some 1) (some 300000) hoyEjemplo none 40
      = some (.error 500 "Error al obtener disponibilidad: Invalid time value") ∧
    resumenCalendario (habitacionesDisponibilidad bdReservada 1 (some 6) (some 50) hoyEjemplo
      none 40) = some (6, 1950, 30, some (-7154)) ∧
    resumenCalendario (habitacionesDisponibilidad bdReservada 1 (some 13) (some 2025) hoyEjemplo
      none 40) = some (1, 2026, 31, some 20454) := by
  decide

/-- C18 (amended).  For every room, every month from 1 to 12 and every year from
100 to 275759 (dates taken in UTC), the calendar query (its loop given at least
32 tests) answers with that month and year and with an array `dias` that has
exactly one entry per calendar day of that month, in ascending date order with
`dia` = 1..N: entry `i` (from 0) is day `i + 1` of the month, its `estado` is
`reservada` if and only if some `fechas_reservadas` row of that room owned by a
confirmed reservation has that date, and `disponible` otherwise. -/
theorem c18_calendario_del_mes (db : BD) (id mes anio : Nat) (hoy : FechaCivil)
    (pasos : Nat) (h1 : 1 ≤ mes) (h12 : mes ≤ 12) (ha : 100 ≤ anio) (hb : anio ≤ 275759)
    (hp : 31 < pasos) :
    ∃ dias reservas,
      habitacionesDisponibilidad db id (some mes) (some anio) hoy none pasos
        = some (.ok mes anio dias reservas reservas.length) ∧
      dias.length = diasEnMes anio mes ∧
      (∀ (i : Nat) (d : DiaCalendario), dias[i]? = some d →
        d.dia = i + 1 ∧
        d.fecha = FechaCivil.aDias { anio := anio, mes := mes, dia := i + 1 } ∧
        d.fecha = FechaCivil.aDias { anio := anio, mes := mes, dia := 1 } + (i : Int) ∧
        (d.estado = "reservada" ↔
          ∃ fr ∈ db.fechas_reservadas, fr.habitacion_id = id
            ∧ (∃ r ∈ db.reservas, r.id = fr.reserva_id ∧ r.estado = "confirmada")
            ∧ fr.fecha = d.fecha) ∧
        (d.estado ≠ "reservada" → d.estado = "disponible")) := by
  obtain ⟨hfb, hpd, hud, hv⟩ := fechas_normales mes anio hoy h1 h12 ha hb
  have hok := habitacionesDisponibilidad_ok db id (some mes) (some anio) hoy pasos hp
    (by rw [hfb]; exact h1) (by rw [hfb]; exact h12) hv
  have hac : anioCompleto (anio : Int) = anio := by
    unfold anioCompleto
    rw [if_neg (by omega)]
  rw [hpd, hud, hfb] at hok
  simp only [hac] at hok
  obtain ⟨hn28, hn31⟩ := diasEnMes_cotas anio mes
  refine ⟨_, _, hok, ?_, ?_⟩
  · rw [List.length_map, List.length_range]
  · intro i d hd
    rw [List.getElem?_map] at hd
    have hi : i < diasEnMes anio mes := by
      by_contra hcon
      rw [List.getElem?_eq_none (by rw [List.length_range]; omega)] at hd
      simp at hd
    rw [List.getElem?_range hi] at hd
    simp only [Option.map_some', Option.some.injEq] at hd
    subst hd
    have hfecha : FechaCivil.aDias { anio := anio, mes := mes, dia := 1 + i }
        = FechaCivil.aDias { anio := anio, mes := mes, dia := 1 } + (i : Int) := by
      rw [aDias_dia anio mes (1 + i)]
      push_cast
      omega
    have hult := aDias_dia anio mes (diasEnMes anio mes)
    refine ⟨by simp only [entradaDia]; omega, ?_, ?_, ?_, ?_⟩
    · simp only [entradaDia]
      rw [Nat.add_comm]
    · simp only [entradaDia]
      exact hfecha
    · simp only [entradaDia]
      constructor
      · intro hres
        have hmem : FechaCivil.aDias { anio := anio, mes := mes, dia := 1 + i } ∈
            selFechasDelMes db id (FechaCivil.aDias { anio := anio, mes := mes, dia := 1 })
              (FechaCivil.aDias { anio := anio, mes := mes, dia := diasEnMes anio mes }) := by
          by_contra hno
          rw [if_neg hno] at hres
          exact absurd hres (by decide)
        rw [mem_selFechasDelMes] at hmem
        obtain ⟨fr, hfr, hhab, hown, _, _, heq⟩ := hmem
        exact ⟨fr, hfr, hhab, hown, heq⟩
      · rintro ⟨fr, hfr, hhab, hown, heq⟩
        rw [if_pos]
        rw [mem_selFechasDelMes]
        refine ⟨fr, hfr, hhab, hown, ?_, ?_, heq⟩
        · rw [heq, hfecha]; omega
        · rw [heq, hfecha, hult]
          have : (i : Int) + 1 ≤ (diasEnMes anio mes : Int) := by
            have : i + 1 ≤ diasEnMes anio mes := by omega
            exact_mod_cast this
          omega
    · simp only [entradaDia]
      split
      · intro h; exact absurd rfl h
      · intro _; rfl

/-- Witness of C18 (amended): the calendar of room "101" for June 2025 has 30
entries. -/
theorem c18_witness :
    ∃ dias reservas,
      habitacionesDisponibilidad bdReservada 1 (some 6) (some 2025) hoyEjemplo none 32
        = some (.ok 6 2025 dias reservas reservas.length) ∧
      dias.length = 30 := by
  obtain ⟨dias, reservas, h1, h2, _⟩ :=
    c18_calendario_del_mes bdReservada 1 6 2025 hoyEjemplo 32 (by decide) (by decide)
      (by decide) (by decide) (by decide)
  exact ⟨dias, reservas, h1, h2⟩

/-- C19.  Whatever the parameters, the storage and the bound of the loop, the
reservations listed by an answer of the calendar query are exactly the confirmed
reservations of the room that pass the three-way test against the first and the
last day of the month of the query (entrada in range, or salida in range, or
entrada <= first day and salida >= last day), and `totalReservas` is their
number; for every reservation with `entrada <= salida` this test is equivalent
to `entrada <= last day` and `salida >= first day`; and for a month 1..12 of a
year 100..275759 the two days are the first and the last day of that month, and
the query answers with a list once no query throws and the loop is given 32
tests. -/
theorem c19_reservas_del_mes (db : BD) (id : Nat) (mes anio : Option Nat) (hoy : FechaCivil)
    (fallo : Option String) (pasos : Nat) :
    (∀ (m : Nat) (a : Int) (dias : List DiaCalendario) (reservas : List ReservaCalendario)
        (n : Nat),
      habitacionesDisponibilidad db id mes anio hoy fallo pasos
          = some (.ok m a dias reservas n) →
        n = reservas.length ∧
        ∀ x, x ∈ reservas ↔
          ∃ r ∈ db.reservas, r.habitacion_id = id ∧ r.estado = "confirmada"
            ∧ (((primerDia (fechaBaseDeConsulta mes anio hoy)).aDias ≤ r.fecha_entrada
                ∧ r.fecha_entrada ≤ (ultimoDia (fechaBaseDeConsulta mes anio hoy)).aDias)
              ∨ ((primerDia (fechaBaseDeConsulta mes anio hoy)).aDias ≤ r.fecha_salida
                ∧ r.fecha_salida ≤ (ultimoDia (fechaBaseDeConsulta mes anio hoy)).aDias)
              ∨ (r.fecha_entrada ≤ (primerDia (fechaBaseDeConsulta mes anio hoy)).aDias
                ∧ r.fecha_salida ≥ (ultimoDia (fechaBaseDeConsulta mes anio hoy)).aDias))
            ∧ columnasCalendario r = x) ∧
    (∀ r : Reserva, r.fecha_entrada ≤ r.fecha_salida →
      ((((primerDia (fechaBaseDeConsulta mes anio hoy)).aDias ≤ r.fecha_entrada
            ∧ r.fecha_entrada ≤ (ultimoDia (fechaBaseDeConsulta mes anio hoy)).aDias)
          ∨ ((primerDia (fechaBaseDeConsulta mes anio hoy)).aDias ≤ r.fecha_salida
            ∧ r.fecha_salida ≤ (ultimoDia (fechaBaseDeConsulta mes anio hoy)).aDias)
          ∨ (r.fecha_entrada ≤ (primerDia (fechaBaseDeConsulta mes anio hoy)).aDias
            ∧ r.fecha_salida ≥ (ultimoDia (fechaBaseDeConsulta mes anio hoy)).aDias)) ↔
        r.fecha_entrada ≤ (ultimoDia (fechaBaseDeConsulta mes anio hoy)).aDias
          ∧ r.fecha_salida ≥ (primerDia (fechaBaseDeConsulta mes anio hoy)).aDias)) ∧
    (∀ mm aa : Nat, mes = some mm → anio = some aa → 1 ≤ mm → mm ≤ 12 → 100 ≤ aa →
      aa ≤ 275759 →
        primerDia (fechaBaseDeConsulta mes anio hoy) = { anio := aa, mes := mm, dia := 1 } ∧
        ultimoDia (fechaBaseDeConsulta mes anio hoy)
          = { anio := aa, mes := mm, dia := diasEnMes aa mm } ∧
        (fallo = none → 31 < pasos →
          ∃ dias reservas, habitacionesDisponibilidad db id mes anio hoy fallo pasos
            = some (.ok mm aa dias reservas reservas.length))) := by
  refine ⟨?_, ?_, ?_⟩
  · intro m a dias reservas n h
    obtain ⟨hr, hn⟩ := habitacionesDisponibilidad_reservas db id mes anio hoy fallo pasos
      m a dias reservas n h
    refine ⟨hn, fun x => ?_⟩
    rw [hr]
    exact mem_selReservasDelMes db id _ _ x
  · intro r hr
    have hult := aDias_ultimoDia (fechaBaseDeConsulta mes anio hoy)
    obtain ⟨hn28, _⟩ := diasEnMes_cotas (anioCompleto (fechaBaseDeConsulta mes anio hoy).anio)
      (fechaBaseDeConsulta mes anio hoy).mes
    have hn : (28 : Int) ≤ (diasEnMes (anioCompleto (fechaBaseDeConsulta mes anio hoy).anio)
        (fechaBaseDeConsulta mes anio hoy).mes : Int) := by exact_mod_cast hn28
    rw [hult]
    omega
  · intro mm aa hmes hanio h1 h12 ha hb
    subst hmes hanio
    obtain ⟨hfb, hpd, hud, hv⟩ := fechas_normales mm aa hoy h1 h12 ha hb
    refine ⟨hpd, hud, ?_⟩
    intro hfallo hp
    subst hfallo
    have hok := habitacionesDisponibilidad_ok db id (some mm) (some aa) hoy pasos hp
      (by rw [hfb]; exact h1) (by rw [hfb]; exact h12) hv
    rw [hfb] at hok
    exact ⟨_, _, hok⟩

/-- Witness of C19: the calendar of room "101" for June 2025 is answered with a
list, and the list holds the reservation for 2025-06-01 .. 2025-06-03. -/
theorem c19_witness :
    ∃ dias reservas,
      habitacionesDisponibilidad bdReservada 1 (some 6) (some 2025) hoyEjemplo none 32
        = some (.ok 6 2025 dias reservas reservas.length) ∧
      columnasCalendario (filaReserva 1 (solicitud 20240 20242 2)) ∈ reservas := by
  obtain ⟨h1, _, h3⟩ := c19_reservas_del_mes bdReservada 1 (some 6) (some 2025) hoyEjemplo none 32
  obtain ⟨_, _, hresp⟩ := h3 6 2025 rfl rfl (by decide) (by decide) (by decide) (by decide)
  obtain ⟨dias, reservas, hok⟩ := hresp rfl (by decide)
  exact ⟨dias, reservas, hok, ((h1 6 2025 dias reservas reservas.length hok).2 _).2
    ⟨filaReserva 1 (solicitud 20240 20242 2), by decide, by decide, by decide,
      Or.inl ⟨by decide, by decide⟩, rfl⟩⟩

/-! ## Rooms and the payment log -/

/-- A cancellation call never writes the rooms table. -/
theorem reservasCancelar_habitaciones (db : BD) (id : Nat) (motivo : Option String) (hoy : Int)
    (fallo : Option (PasoCancelar × String)) :
    (reservasCancelar db id motivo hoy fallo).1.habitaciones = db.habitaciones := by
  unfold reservasCancelar
  split
  · rfl
  split
  · rfl
  split
  · rfl
  split
  · rfl
  split
  · rfl
  split
  · rfl
  split
  · split
    · rfl
    split
    · rfl
    · rfl
  · rfl

/-- The logged value holds the whole card number after the dots. -/
theorem tarjetaRegistrada_completa (t : String) (ht : t ≠ "") :
    tarjetaRegistrada (some t) = String.mk (t.data.take 4) ++ "..." ++ t := by
  unfold tarjetaRegistrada
  simp only [ht, if_false]
  have h1 : substring t 0 (some 4) = String.mk (t.data.take 4) := by
    unfold substring
    simp only [Option.getD_some]
    congr 1
    have ha : (min (max (0 : Int) 0) (t.data.length : Int)).toNat = 0 := by omega
    rw [ha]
    simp only [Nat.zero_min, List.drop_zero, Nat.sub_zero, Nat.zero_max]
    by_cases hl : t.data.length ≤ 4
    · have hb : (min (max (4 : Int) 0) (t.data.length : Int)).toNat = t.data.length := by omega
      rw [hb, List.take_of_length_le (le_refl _), List.take_of_length_le hl]
    · have hb : (min (max (4 : Int) 0) (t.data.length : Int)).toNat = 4 := by omega
      rw [hb]
  have h2 : substring t (-4) none = t := by
    unfold substring
    simp only [Option.getD_none]
    have ha : (min (max (-4 : Int) 0) (t.data.length : Int)).toNat = 0 := by omega
    have hb : (min (max (t.data.length : Int) 0) (t.data.length : Int)).toNat
        = t.data.length := by omega
    rw [ha, hb]
    simp only [Nat.zero_min, List.drop_zero, Nat.sub_zero, Nat.zero_max, List.take_length]
  rw [h1, h2]

/-- Every element of a list is at most its maximum. -/
theorem le_foldr_max (l : List Nat) (x : Nat) (hx : x ∈ l) : x ≤ l.foldr max 0 := by
  induction l with
  | nil => cases hx
  | cons a l ih =>
    rw [List.foldr_cons]
    rcases List.mem_cons.1 hx with rfl | h
    · exact Nat.le_max_left _ _
    · exact Nat.le_trans (ih h) (Nat.le_max_right _ _)

/-- The id given to a new room is larger than every id of the table. -/
theorem id_lt_sigHabitacionId (db : BD) (h : Habitacion) (hh : h ∈ db.habitaciones) :
    h.id < sigHabitacionId db := by
  unfold sigHabitacionId
  exact Nat.lt_succ_of_le (le_foldr_max _ _ (List.mem_map_of_mem (fun h => h.id) hh))

/-- Rewriting rooms without touching their id or number keeps both distinct. -/
theorem unicos_reescritura (db db2 : BD) (g : Habitacion → Habitacion)
    (hres : db2.habitaciones = db.habitaciones.map g)
    (hgid : ∀ h, (g h).id = h.id) (hgnum : ∀ h, (g h).numero = h.numero)
    (hinv : NumerosUnicos db ∧ IdsDeHabitacionUnicos db) :
    NumerosUnicos db2 ∧ IdsDeHabitacionUnicos db2 := by
  unfold NumerosUnicos IdsDeHabitacionUnicos at *
  rw [hres, List.pairwise_map, List.pairwise_map]
  constructor
  · exact hinv.1.imp (fun {a b} hab => by rw [hgnum, hgnum]; exact hab)
  · exact hinv.2.imp (fun {a b} hab => by rw [hgid, hgid]; exact hab)

/-- Writing the status of a room keeps ids and numbers distinct. -/
theorem unicos_updEstadoHabitacion (db : BD) (id : Nat) (estado : String)
    (hinv : NumerosUnicos db ∧ IdsDeHabitacionUnicos db) :
    NumerosUnicos (updEstadoHabitacion db id estado)
      ∧ IdsDeHabitacionUnicos (updEstadoHabitacion db id estado) := by
  refine unicos_reescritura db _ (fun h => if h.id = id then { h with estado := estado } else h)
    rfl ?_ ?_ hinv
  · intro h; dsimp only; split <;> rfl
  · intro h; dsimp only; split <;> rfl

/-- A room creation keeps ids and numbers distinct, whatever its outcome. -/
theorem unicos_habitacionesCrear (db : BD) (req : SolicitudHabitacion)
    (fallo : Option (PasoHabitacion × String))
    (hinv : NumerosUnicos db ∧ IdsDeHabitacionUnicos db) :
    NumerosUnicos (habitacionesCrear db req fallo).1
      ∧ IdsDeHabitacionUnicos (habitacionesCrear db req fallo).1 := by
  unfold habitacionesCrear
  split
  · exact hinv
  split
  · exact hinv
  rename_i hlen
  split
  · exact hinv
  have hnum : ∀ h ∈ db.habitaciones, h.numero ≠ req.numero := by
    intro h hh heq
    apply hlen
    apply List.length_pos_of_mem (a := h)
    rw [List.mem_filter]
    exact ⟨hh, by simpa using heq⟩
  unfold NumerosUnicos IdsDeHabitacionUnicos at *
  dsimp only
  rw [List.pairwise_append, List.pairwise_append]
  refine ⟨⟨hinv.1, List.pairwise_singleton _ _, ?_⟩, ⟨hinv.2, List.pairwise_singleton _ _, ?_⟩⟩
  · intro a ha b hb
    rw [List.mem_singleton] at hb
    rw [hb]
    exact hnum a ha
  · intro a ha b hb
    rw [List.mem_singleton] at hb
    rw [hb]
    exact Nat.ne_of_lt (id_lt_sigHabitacionId db a ha)

/-- A room update keeps ids and numbers distinct, whatever its outcome. -/
theorem unicos_habitacionesActualizar (db : BD) (id : Nat) (req : SolicitudHabitacion)
    (fallo : Option (PasoHabitacion × String))
    (hinv : NumerosUnicos db ∧ IdsDeHabitacionUnicos db) :
    NumerosUnicos (habitacionesActualizar db id req fallo).1
      ∧ IdsDeHabitacionUnicos (habitacionesActualizar db id req fallo).1 := by
  unfold habitacionesActualizar
  split
  · exact hinv
  split
  · exact hinv
  split
  · exact hinv
  split
  · exact hinv
  rename_i hlen
  split
  · exact hinv
  split
  · exact hinv
  rename_i estado _
  have hnum : ∀ h ∈ db.habitaciones, h.id ≠ id → h.numero ≠ req.numero := by
    intro h hh hne heq
    apply hlen
    apply List.length_pos_of_mem (a := h)
    rw [List.mem_filter]
    exact ⟨hh, by simp [heq, hne]⟩
  unfold NumerosUnicos IdsDeHabitacionUnicos at *
  dsimp only
  rw [List.pairwise_map, List.pairwise_map]
  constructor
  · refine (hinv.1.and hinv.2).imp_of_mem ?_
    intro a b ha hb hab
    by_cases h1 : a.id = id
    · have h2 : ¬ b.id = id := fun h2 => hab.2 (h1.trans h2.symm)
      rw [if_pos h1, if_neg h2]
      exact fun h => hnum b hb h2 h.symm
    · by_cases h2 : b.id = id
      · rw [if_neg h1, if_pos h2]
        exact hnum a ha h1
      · rw [if_neg h1, if_neg h2]
        exact hab.1
  · refine hinv.2.imp ?_
    intro a b hab
    by_cases h1 : a.id = id <;> by_cases h2 : b.id = id <;> simp [h1, h2] <;> omega

/-- A status change keeps ids and numbers distinct. -/
theorem unicos_habitacionesEstado (db : BD) (id : Nat) (estado : Option String)
    (fallo : Option (PasoHabitacion × String))
    (hinv : NumerosUnicos db ∧ IdsDeHabitacionUnicos db) :
    NumerosUnicos (habitacionesEstado db id estado fallo).1
      ∧ IdsDeHabitacionUnicos (habitacionesEstado db id estado fallo).1 := by
  unfold habitacionesEstado
  split
  · exact hinv
  split
  · exact hinv
  split
  · exact hinv
  split
  · exact hinv
  split
  · exact hinv
  · exact unicos_updEstadoHabitacion db id _ hinv

/-- A check-in keeps ids and numbers distinct. -/
theorem unicos_habitacionesCheckin (db : BD) (id : Nat)
    (fallo : Option (PasoHabitacion × String))
    (hinv : NumerosUnicos db ∧ IdsDeHabitacionUnicos db) :
    NumerosUnicos (habitacionesCheckin db id fallo).1
      ∧ IdsDeHabitacionUnicos (habitacionesCheckin db id fallo).1 := by
  unfold habitacionesCheckin
  split
  · exact hinv
  split
  · exact hinv
  split
  · exact hinv
  split
  · exact hinv
  · exact unicos_updEstadoHabitacion db id _ hinv

/-- A check-out keeps ids and numbers distinct. -/
theorem unicos_habitacionesCheckout (db : BD) (id : Nat)
    (fallo : Option (PasoHabitacion × String))
    (hinv : NumerosUnicos db ∧ IdsDeHabitacionUnicos db) :
    NumerosUnicos (habitacionesCheckout db id fallo).1
      ∧ IdsDeHabitacionUnicos (habitacionesCheckout db id fallo).1 := by
  unfold habitacionesCheckout
  split
  · exact hinv
  split
  · exact hinv
  split
  · exact hinv
  split
  · exact hinv
  · exact unicos_updEstadoHabitacion db id _ hinv

/-- Ids and numbers stay distinct along every sequence of calls of the room handlers. -/
theorem unicos_alcanzable (db0 db : BD)
    (h0 : NumerosUnicos db0 ∧ IdsDeHabitacionUnicos db0)
    (h : AlcanzableHabitaciones db0 db) : NumerosUnicos db ∧ IdsDeHabitacionUnicos db := by
  induction h with
  | inicio => exact h0
  | paso db op _ ih =>
    cases op with
    | crear req fallo => exact unicos_habitacionesCrear db req fallo ih
    | actualizar id req fallo => exact unicos_habitacionesActualizar db id req fallo ih
    | estado id estado fallo => exact unicos_habitacionesEstado db id estado fallo ih
    | checkin id fallo => exact unicos_habitacionesCheckin db id fallo ih
    | checkout id fallo => exact unicos_habitacionesCheckout db id fallo ih

/-- A creation with a number already in use is rejected and changes nothing. -/
theorem habitacionesCrear_duplicado (db : BD) (req : SolicitudHabitacion)
    (hdup : ∃ h ∈ db.habitaciones, h.numero = req.numero) :
    habitacionesCrear db req none = (db, .error 400 "El número de habitación ya existe") ∧
    (∀ fallo, (habitacionesCrear db req fallo).1 = db
      ∧ (habitacionesCrear db req fallo).2.esError = true) := by
  obtain ⟨h, hh, hnum⟩ := hdup
  have hlen : (db.habitaciones.filter (fun h => h.numero = req.numero)).length > 0 := by
    apply List.length_pos_of_mem (a := h)
    rw [List.mem_filter]
    exact ⟨hh, by simpa using hnum⟩
  constructor
  · unfold habitacionesCrear
    simp only [falla_none, Bool.false_eq_true, if_false, hlen, if_true]
  · intro fallo
    unfold habitacionesCrear
    split
    · exact ⟨rfl, rfl⟩
    · exact ⟨rfl, rfl⟩

/-- An update to a number used by a different room is rejected and changes
nothing. -/
theorem habitacionesActualizar_duplicado (db : BD) (id : Nat) (req : SolicitudHabitacion)
    (hdup : ∃ h ∈ db.habitaciones, h.numero = req.numero ∧ h.id ≠ id) :
    ((∃ h ∈ db.habitaciones, h.id = id) →
      habitacionesActualizar db id req none
        = (db, .error 400 "El número de habitación ya existe en otra habitación")) ∧
    (∀ fallo, (habitacionesActualizar db id req fallo).1 = db
      ∧ (habitacionesActualizar db id req fallo).2.esError = true) := by
  obtain ⟨h, hh, hnum, hne⟩ := hdup
  have hlen : (db.habitaciones.filter
      (fun h => h.numero = req.numero ∧ ¬ h.id = id)).length > 0 := by
    apply List.length_pos_of_mem (a := h)
    rw [List.mem_filter]
    exact ⟨hh, by simp [hnum, hne]⟩
  constructor
  · rintro ⟨h2, hh2, hid2⟩
    have hex : ¬ (db.habitaciones.filter (fun h => h.id = id)).length = 0 := by
      apply Nat.ne_of_gt
      apply List.length_pos_of_mem (a := h2)
      rw [List.mem_filter]
      exact ⟨hh2, by simpa using hid2⟩
    unfold habitacionesActualizar
    simp only [falla_none, Bool.false_eq_true, if_false, hex, hlen, if_true]
  · intro fallo
    unfold habitacionesActualizar
    split
    · exact ⟨rfl, rfl⟩
    split
    · exact ⟨rfl, rfl⟩
    split
    · exact ⟨rfl, rfl⟩
    · exact ⟨rfl, rfl⟩

/-- Writing one of the three manual states keeps every room in one of them. -/
theorem estadosValidos_updEstadoHabitacion (db : BD) (id : Nat) (estado : String)
    (he : estado ∈ estadosValidos) (hinv : EstadosValidos db) :
    EstadosValidos (updEstadoHabitacion db id estado) := by
  intro h hh
  simp only [updEstadoHabitacion, List.mem_map] at hh
  obtain ⟨a, ha, rfl⟩ := hh
  split
  · exact he
  · exact hinv a ha

/-- The status handler, check-in and check-out keep every room in one of the
three manual states. -/
theorem estadosValidos_conservados (db : BD) (id : Nat) (estado : Option String)
    (fallo : Option (PasoHabitacion × String)) (hinv : EstadosValidos db) :
    EstadosValidos (habitacionesEstado db id estado fallo).1 ∧
    EstadosValidos (habitacionesCheckin db id fallo).1 ∧
    EstadosValidos (habitacionesCheckout db id fallo).1 := by
  refine ⟨?_, ?_, ?_⟩
  · unfold habitacionesEstado
    split
    · exact hinv
    split
    · exact hinv
    split
    · exact hinv
    split
    · exact hinv
    rename_i hval
    split
    · exact hinv
    · exact estadosValidos_updEstadoHabitacion db id _ (not_not.1 hval) hinv
  · unfold habitacionesCheckin
    split
    · exact hinv
    split
    · exact hinv
    split
    · exact hinv
    split
    · exact hinv
    · exact estadosValidos_updEstadoHabitacion db id _ (by decide) hinv
  · unfold habitacionesCheckout
    split
    · exact hinv
    split
    · exact hinv
    split
    · exact hinv
    split
    · exact hinv
    · exact estadosValidos_updEstadoHabitacion db id _ (by decide) hinv

/-! ## The claims, concluded -/

/-- Counterexample to C21 as stated: room "101" is flagged `ocupada`, its
calendar is empty, and the booking for 2025-06-01 .. 2025-06-03 is rejected with
the room-not-available error. -/
theorem c21_contraejemplo :
    (∃ h ∈ bdOcupada.habitaciones, h.id = (solicitud 20240 20242 2).habitacion_id
      ∧ h.estado = "ocupada") ∧
    bdOcupada.fechas_reservadas = [] ∧
    reservasCrear bdOcupada (solicitud 20240 20242 2) none
      = (bdOcupada, .error 400 "Habitación no disponible") := by
  decide

/-- C21 (amended).  The manual status gates the booking: for every room whose
manual status is `ocupada`, every booking request for that room, whatever its
date range and whatever the calendar holds, is rejected with the
room-not-available error, and whatever the storage does nothing is inserted. -/
theorem c21_ocupada_rechazada (db : BD) (req : SolicitudReserva)
    (hocupada : ∀ h ∈ db.habitaciones, h.id = req.habitacion_id → h.estado = "ocupada") :
    reservasCrear db req none = (db, .error 400 "Habitación no disponible") ∧
    (∀ fallo, (reservasCrear db req fallo).1 = db) := by
  have h0 : selHabitacionDisponible db req.habitacion_id = [] := by
    rw [selHabitacionDisponible_eq_nil]
    intro h hh hid hest
    have := hocupada h hh hid
    rw [hest] at this
    exact absurd this (by decide)
  constructor
  · rcases reservasCrear_none_snd db req with ⟨_, h⟩ | ⟨h, _⟩ | ⟨h, _⟩
    · exact h
    · exact absurd h0 h
    · exact absurd h0 h
  · intro fallo
    rcases reservasCrear_casos db req fallo with ⟨h, _⟩ | ⟨_, _, h, _⟩
    · exact h
    · exact absurd h0 h

/-- Witness of C21 (amended): a booking of the `ocupada` room "101" for a later
range, with no night allocated, is rejected. -/
theorem c21_witness :
    reservasCrear bdOcupada (solicitud 20300 20302 2) none
      = (bdOcupada, .error 400 "Habitación no disponible") :=
  (c21_ocupada_rechazada bdOcupada (solicitud 20300 20302 2) (by decide)).1

/-- C22 (the code at the failing input).  The cancellation of the confirmed and
paid reservation 1 on 2025-05-30, with the `DELETE FROM fechas_reservadas`
throwing, answers 500 and yet leaves the reservation `cancelada` with its nights
still allocated; with the last `UPDATE` throwing instead, it answers 500 after
the refund record was written and the nights deleted.  The statements run on
the pool one by one, outside any transaction. -/
theorem c22_cancelacion_a_medias :
    (reservasCancelar bdReservada 1 none instanteAntes
      (some (.delFechas, "Lock wait timeout exceeded"))).2
      = .error 500 "Error al cancelar reserva: Lock wait timeout exceeded" ∧
    bdReservada.reservas.map (fun r => r.estado) = ["confirmada"] ∧
    (reservasCancelar bdReservada 1 none instanteAntes
      (some (.delFechas, "Lock wait timeout exceeded"))).1.reservas.map (fun r => r.estado)
      = ["cancelada"] ∧
    (reservasCancelar bdReservada 1 none instanteAntes
      (some (.delFechas, "Lock wait timeout exceeded"))).1.fechas_reservadas
      = bdReservada.fechas_reservadas ∧
    (reservasCancelar bdReservada 1 none instanteAntes
      (some (.updEstadoPago, "Lock wait timeout exceeded"))).2.esError = true ∧
    (reservasCancelar bdReservada 1 none instanteAntes
      (some (.updEstadoPago, "Lock wait timeout exceeded"))).1.reembolsos.length = 1 ∧
    (reservasCancelar bdReservada 1 none instanteAntes
      (some (.updEstadoPago, "Lock wait timeout exceeded"))).1.fechas_reservadas = [] := by
  decide

/-- C23.  Cancelling frees the calendar: for every state in which a booking
request on room X is rejected with the date conflict, and every night of the
requested range held on X by a confirmed reservation is held by reservation
`id`, after `id` is successfully cancelled the same request succeeds and the
reservation is inserted. -/
theorem c23_cancelar_libera (db : BD) (req : SolicitudReserva) (id : Nat)
    (motivo : Option String) (hoy : Int) (fallo : Option (PasoCancelar × String))
    (x : Option (Nat × String))
    (hB : (reservasCrear db req none).2
      = .error 400 "La habitación ya está reservada en esas fechas")
    (hsolo : ∀ fr ∈ db.fechas_reservadas, fr.habitacion_id = req.habitacion_id →
      (∃ r ∈ db.reservas, r.id = fr.reserva_id ∧ r.estado = "confirmada") →
      req.datos_busqueda.entrada ≤ fr.fecha → fr.fecha < req.datos_busqueda.salida →
      fr.reserva_id = id)
    (hcancel : (reservasCancelar db id motivo hoy fallo).2 = .cancelada x) :
    (reservasCrear (reservasCancelar db id motivo hoy fallo).1 req none).2.esError = false ∧
    (reservasCrear (reservasCancelar db id motivo hoy fallo).1 req none).1
      = insertarReserva (reservasCancelar db id motivo hoy fallo).1 req := by
  have hhab : selHabitacionDisponible db req.habitacion_id ≠ [] := by
    rcases reservasCrear_none_snd db req with ⟨_, h⟩ | ⟨h, _⟩ | ⟨h, _⟩
    · rw [h] at hB
      have hB2 : Respuesta.error 400 "Habitación no disponible"
          = Respuesta.error 400 "La habitación ya está reservada en esas fechas" := hB
      exact absurd hB2 (by decide)
    · exact h
    · exact h
  obtain ⟨g, hres, hgid, hg, _, hfe⟩ :=
    reservasCancelar_exito_tablas db id motivo hoy fallo x hcancel
  have hrooms := reservasCancelar_habitaciones db id motivo hoy fallo
  generalize (reservasCancelar db id motivo hoy fallo).1 = db2 at *
  have hhab2 : selHabitacionDisponible db2 req.habitacion_id ≠ [] := by
    unfold selHabitacionDisponible at hhab ⊢
    rw [hrooms]
    exact hhab
  have hlibre : selReservasExistentes db2 req.habitacion_id
      req.datos_busqueda.entrada req.datos_busqueda.salida = [] := by
    by_contra hne
    rw [← Ne, selReservasExistentes_ne_nil] at hne
    obtain ⟨fr, hfr, hroom, ⟨r2, hr2, hid2, hest2⟩, he, hs⟩ := hne
    rw [hfe, List.mem_filter] at hfr
    have hfrid : fr.reserva_id ≠ id := by simpa using hfr.2
    rw [hres, List.mem_map] at hr2
    obtain ⟨a, ha, rfl⟩ := hr2
    rw [hgid] at hid2
    have haid : a.id ≠ id := by rw [hid2]; exact hfrid
    rw [hg a haid] at hest2
    exact hfrid (hsolo fr hfr.1 hroom ⟨a, ha, hid2, hest2⟩ he hs)
  rcases reservasCrear_none_snd db2 req with ⟨h0, _⟩ | ⟨_, h1, _⟩ | ⟨_, _, h1, h3⟩
  · exact absurd h0 hhab2
  · exact absurd hlibre h1
  · exact ⟨h3, h1⟩

/-- Witness of C23: room "101", reservation 2025-06-01 .. 2025-06-03, request
2025-06-02 .. 2025-06-04: rejected, then the reservation is cancelled on
2025-05-30, then the same request is accepted. -/
theorem c23_witness :
    (reservasCrear bdReservada (solicitud 20241 20243 2) none).2
      = .error 400 "La habitación ya está reservada en esas fechas" ∧
    (reservasCancelar bdReservada 1 none instanteAntes none).2
      = .cancelada (some (20000, "Cancelación voluntaria")) ∧
    (reservasCrear (reservasCancelar bdReservada 1 none instanteAntes none).1
      (solicitud 20241 20243 2) none).2.esError = false :=
  ⟨by decide, by decide,
   (c23_cancelar_libera bdReservada (solicitud 20241 20243 2) 1 none instanteAntes none
      (some (20000, "Cancelación voluntaria")) (by decide) (by decide) (by decide)).1⟩

/-- C24 (the code at the failing input).  From a state in which every room is
`disponible`, `ocupada` or `mantenimiento`, the creation of a room with the
status `reservada` succeeds and stores that status, and so does the update of
room "101" to `reservada`; the status handler rejects the same value with a
400. -/
theorem c24_estado_no_validado :
    EstadosValidos bdInicial ∧
    (habitacionesCrear bdInicial solicitudHabitacionReservada none).2 = .creada 2 ∧
    (habitacionesCrear bdInicial solicitudHabitacionReservada none).1.habitaciones.map
        (fun h => (h.id, h.numero, h.estado))
      = [(1, "101", "disponible"), (2, "201", "reservada")] ∧
    ¬ EstadosValidos (habitacionesCrear bdInicial solicitudHabitacionReservada none).1 ∧
    (habitacionesActualizar bdInicial 1 solicitudHabitacionReservada none).2
      = .exito "Habitación actualizada exitosamente" ∧
    (habitacionesActualizar bdInicial 1 solicitudHabitacionReservada none).1.habitaciones.map
        (fun h => (h.id, h.numero, h.estado)) = [(1, "201", "reservada")] ∧
    ¬ EstadosValidos (habitacionesActualizar bdInicial 1 solicitudHabitacionReservada none).1 ∧
    habitacionesEstado bdInicial 1 (some "reservada") none
      = (bdInicial, .error 400 "Estado no válido. Use: disponible, ocupada o mantenimiento") := by
  unfold EstadosValidos
  decide

/-- C25.  Room numbers stay unique: in every state reachable from one with
pairwise distinct room numbers (and pairwise distinct ids) by any sequence of
calls of the room handlers, with or without storage failures, room numbers are
pairwise distinct; a creation with a number already in use, and an update to a
number used by a different room, are rejected with an error (the 400 of the
duplicate when no storage call fails) and change nothing. -/
theorem c25_numeros_unicos (db0 db : BD) (h0 : NumerosUnicos db0)
    (hid0 : IdsDeHabitacionUnicos db0) (h : AlcanzableHabitaciones db0 db) :
    NumerosUnicos db ∧
    (∀ req, (∃ h ∈ db.habitaciones, h.numero = req.numero) →
      habitacionesCrear db req none = (db, .error 400 "El número de habitación ya existe")
      ∧ (∀ fallo, (habitacionesCrear db req fallo).1 = db
          ∧ (habitacionesCrear db req fallo).2.esError = true)) ∧
    (∀ id req, (∃ h ∈ db.habitaciones, h.numero = req.numero ∧ h.id ≠ id) →
      ((∃ h ∈ db.habitaciones, h.id = id) →
        habitacionesActualizar db id req none
          = (db, .error 400 "El número de habitación ya existe en otra habitación"))
      ∧ (∀ fallo, (habitacionesActualizar db id req fallo).1 = db
          ∧ (habitacionesActualizar db id req fallo).2.esError = true)) :=
  ⟨(unicos_alcanzable db0 db ⟨h0, hid0⟩ h).1,
   fun req hdup => habitacionesCrear_duplicado db req hdup,
   fun id req hdup => habitacionesActualizar_duplicado db id req hdup⟩

/-- Witness of C25: from rooms "101" and "102", creating "201" and renumbering
"102" to "301" gives the distinct numbers "101", "301", "201". -/
theorem c25_witness :
    AlcanzableHabitaciones bdDosHabitaciones
      (ejecutarHabitacion
        (ejecutarHabitacion bdDosHabitaciones (.crear solicitudHabitacionReservada none))
        (.actualizar 2 { solicitudHabitacionReservada with numero := "301" } none)) ∧
    (ejecutarHabitacion
        (ejecutarHabitacion bdDosHabitaciones (.crear solicitudHabitacionReservada none))
        (.actualizar 2 { solicitudHabitacionReservada with numero := "301" } none)).habitaciones.map
        (fun h => h.numero) = ["101", "301", "201"] ∧
    NumerosUnicos (ejecutarHabitacion
        (ejecutarHabitacion bdDosHabitaciones (.crear solicitudHabitacionReservada none))
        (.actualizar 2 { solicitudHabitacionReservada with numero := "301" } none)) :=
  ⟨.paso _ _ (.paso _ _ .inicio), by decide,
   (c25_numeros_unicos bdDosHabitaciones _
      (by unfold NumerosUnicos; decide) (by unfold IdsDeHabitacionUnicos; decide)
      (.paso _ _ (.paso _ _ .inicio))).1⟩

/-- C26 (the code at the failing input).  Cancelling through the admin endpoint
the confirmed reservation 1, paid (`completado`) with total 200.00, succeeds,
writes no refund record and leaves the payment status `completado`; the
cancellation endpoint writes the refund of 200.00 for the same reservation. -/
theorem c26_admin_sin_reembolso :
    bdReservada.reservas.map (fun r => (r.id, r.estado, r.estado_pago, r.total))
      = [(1, "confirmada", "completado", 20000)] ∧
    (reservasCancelarAdmin bdReservada 1 none none).2 = .canceladaAdmin ∧
    (reservasCancelarAdmin bdReservada 1 none none).1.reembolsos = [] ∧
    (reservasCancelarAdmin bdReservada 1 none none).1.reservas.map
        (fun r => (r.id, r.estado, r.estado_pago, r.total))
      = [(1, "cancelada", "completado", 20000)] ∧
    (reservasCancelar bdReservada 1 none instanteAntes none).1.reembolsos
      = [{ reserva_id := 1, monto_reembolsado := 20000, motivo := "Cancelación voluntaria" }] := by
  decide

/-- C27 (the code at the failing input).  Cancelling through the admin endpoint
the reservation 1, already `cancelada`, is answered as a successful
cancellation; the cancellation endpoint rejects the same call with "La reserva
ya está cancelada". -/
theorem c27_admin_recancela :
    bdCancelada.reservas.map (fun r => (r.id, r.estado)) = [(1, "cancelada")] ∧
    (reservasCancelarAdmin bdCancelada 1 none none).2 = .canceladaAdmin ∧
    (reservasCancelar bdCancelada 1 none instanteAntes none).2
      = .error 400 "La reserva ya está cancelada" := by
  decide

/-- Counterexample to C28 as stated: reservation 1 is `pendiente` with entrada
2025-06-01, and its cancellation on 2025-05-30 succeeds and marks it
`cancelada`. -/
theorem c28_contraejemplo :
    bdPendiente.reservas.map (fun r => (r.id, r.estado, r.fecha_entrada))
      = [(1, "pendiente", 20240)] ∧
    instanteAntes / msPorDia = 20238 ∧
    (reservasCancelar bdPendiente 1 none instanteAntes none).2
      = .cancelada (some (20000, "Cancelación voluntaria")) ∧
    (reservasCancelar bdPendiente 1 none instanteAntes none).1.reservas.map
        (fun r => (r.id, r.estado)) = [(1, "cancelada")] := by
  decide

/-- C28 (amended).  Cancellation rejects by status only the reservations that
are already `cancelada`: a reservation found in any other status (`confirmada`,
`pendiente`, `completada`) is cancelled when the call comes on a day before
entrada, and is rejected by the date rule, changing nothing, on the entrada day
or later. -/
theorem c28_solo_cancelada_rechazada (db : BD) (id : Nat) (motivo : Option String) (hoy : Int)
    (r : Reserva) (hr : r ∈ db.reservas) (hid : r.id = id)
    (hunica : ∀ r2 ∈ db.reservas, r2.id = id → r2 = r)
    (hhab : ∃ h ∈ db.habitaciones, h.id = r.habitacion_id) :
    (r.estado = "cancelada" →
      reservasCancelar db id motivo hoy none = (db, .error 400 "La reserva ya está cancelada")) ∧
    (r.estado ≠ "cancelada" → hoy / msPorDia < r.fecha_entrada →
      ∃ reembolso, (reservasCancelar db id motivo hoy none).2 = .cancelada reembolso) ∧
    (r.estado ≠ "cancelada" → r.fecha_entrada ≤ hoy / msPorDia →
      reservasCancelar db id motivo hoy none
        = (db, .error 400 "No se puede cancelar una reserva el mismo día del check-in o después")) := by
  obtain ⟨h, resto, hsel⟩ := selReservaConHabitacion_cabeza db id r hr hid hunica hhab
  have heq := reservasCancelar_none db id motivo hoy r h resto hsel
  refine ⟨?_, ?_, ?_⟩
  · intro hcan
    rw [heq, if_pos hcan]
  · intro hno hdia
    have hdif : ¬ diferenciaDias (r.fecha_entrada * msPorDia) hoy ≤ 0 := by
      rw [diferenciaDias_le_zero, inicio_del_dia_le]
      omega
    rw [heq, if_neg hno, if_neg hdif]
    split
    · exact ⟨_, rfl⟩
    · exact ⟨_, rfl⟩
  · intro hno hdia
    rw [heq, if_neg hno,
      if_pos ((diferenciaDias_le_zero _ _).2 ((inicio_del_dia_le _ _).2 hdia))]

/-- Witness of C28 (amended): the `pendiente` reservation for 2025-06-01 is
cancelled on 2025-05-30. -/
theorem c28_witness :
    ∃ reembolso, (reservasCancelar bdPendiente 1 none instanteAntes none).2
      = .cancelada reembolso :=
  (c28_solo_cancelada_rechazada bdPendiente 1 none instanteAntes
    { filaReserva 1 (solicitud 20240 20242 2) with estado := "pendiente" }
    (by decide) (by decide) (by decide) ⟨hab101, by decide, by decide⟩).2.1
    (by decide) (by decide)

/-- C29.  Search and booking agree: for every state and every valid search
(`entrada < salida`), each room returned by the availability search is one for
which a booking request with the same entrada and salida, evaluated in the same
state, passes the room-availability check and the date-conflict check, and
therefore succeeds. -/
theorem c29_busqueda_y_reserva (db : BD) (busqueda : SolicitudBusqueda) (entrada salida : Int)
    (data : List Habitacion)
    (he : busqueda.entrada = some entrada) (hs : busqueda.salida = some salida)
    (hval : entrada < salida)
    (hdata : habitacionesDisponibles db busqueda none = .habitaciones data) :
    ∀ h ∈ data, ∀ req : SolicitudReserva, req.habitacion_id = h.id →
      req.datos_busqueda.entrada = entrada → req.datos_busqueda.salida = salida →
      selHabitacionDisponible db req.habitacion_id ≠ [] ∧
      selReservasExistentes db req.habitacion_id
        req.datos_busqueda.entrada req.datos_busqueda.salida = [] ∧
      (reservasCrear db req none).2.esError = false ∧
      (reservasCrear db req none).1 = insertarReserva db req := by
  intro h hh req hid hre hrs
  have hd : data = selHabitacionesDisponibles db (busqueda.adultos + busqueda.ninos.getD 0)
      entrada salida := by
    unfold habitacionesDisponibles at hdata
    rw [he, hs] at hdata
    simp only [not_le.2 hval, if_false] at hdata
    exact (Respuesta.habitaciones.inj hdata).symm
  rw [hd] at hh
  unfold selHabitacionesDisponibles at hh
  rw [(perm_ordenarPorPrecio _).mem_iff, List.mem_filter] at hh
  simp only [decide_eq_true_eq] at hh
  obtain ⟨hmem, hest, _, hocc⟩ := hh
  have hhab : selHabitacionDisponible db req.habitacion_id ≠ [] :=
    List.ne_nil_of_mem ((mem_selHabitacionDisponible db _ h).2 ⟨hmem, hid.symm, hest⟩)
  have hlibre : selReservasExistentes db req.habitacion_id
      req.datos_busqueda.entrada req.datos_busqueda.salida = [] := by
    by_contra hne
    rw [← Ne, selReservasExistentes_ne_nil] at hne
    obtain ⟨fr, hfr, hroom, hown, h1, h2⟩ := hne
    apply hocc
    rw [mem_selHabitacionesOcupadas]
    exact ⟨fr, hfr, by rw [hroom, hid], hown, by rw [← hre]; exact h1, by rw [← hrs]; exact h2⟩
  refine ⟨hhab, hlibre, ?_⟩
  rcases reservasCrear_none_snd db req with ⟨h0, _⟩ | ⟨_, h1, _⟩ | ⟨_, _, h1, h3⟩
  · exact absurd h0 hhab
  · exact absurd hlibre h1
  · exact ⟨h3, h1⟩

/-- Witness of C29: room "102" is returned by the search for 2025-06-01 ..
2025-06-03, and its booking for the same dates is accepted. -/
theorem c29_witness :
    habitacionesDisponibles bdDosHabitaciones busquedaJunio none
      = .habitaciones [hab102, hab101] ∧
    (reservasCrear bdDosHabitaciones
      { solicitud 20240 20242 2 with habitacion_id := 2 } none).2.esError = false :=
  ⟨by decide,
   (c29_busqueda_y_reserva bdDosHabitaciones busquedaJunio 20240 20242 [hab102, hab101]
      rfl rfl (by decide) (by decide) hab102 (by decide)
      { solicitud 20240 20242 2 with habitacion_id := 2 } rfl rfl rfl).2.2.1⟩

/-- C30 (the code at the failing input).  For the card number
"4111111111111111" (16 characters) the value written to the log is
"4111...4111111111111111", not the mask "4111...1111": `substring(-4)` reads
the negative index as 0 and returns the whole number. -/
theorem c30_tarjeta_completa_en_el_registro :
    ("4111111111111111" : String).length = 16 ∧
    tarjetaRegistrada (some "4111111111111111") = "4111...4111111111111111" ∧
    mascaraEsperada "4111111111111111" = "4111...1111" ∧
    tarjetaRegistrada (some "4111111111111111") ≠ mascaraEsperada "4111111111111111" := by
  decide

end CosechaDorada
